import Mathlib

/-! # Motate `SamDMA.h`: register-level model of the two DMA backends

Shallow embedding of `motate/Atmel_sam_common/SamDMA.h`.

* Every memory-mapped register is a 32-bit cell (`uint32_t`), held as a `Nat`;
  a store keeps the value modulo `2 ^ 32` and `uint32_t` sums are taken modulo
  `2 ^ 32`.
* A member function of `DMA_PDC` / `DMA_XDMAC` becomes a function on the
  machine state (register file plus the ordered record of register writes).
* The bit-field constants of the device header (`SamCommon.h` and the CMSIS
  files it pulls in) are not part of the source file; they are taken as
  parameters (`PdcConsts`, `XdmacConsts`).  The peripheral tables of the
  `DMA_XDMAC_hardware` specialisations are taken as the record `XdmacHw`.
* The device answers a store as its data sheet says (`hwWrite`,
  `xdmacHwWrite`): pointer, count and configuration registers keep the stored
  value; the write-only command registers (`PERIPH_PTCR`, interrupt enable /
  disable, `XDMAC_GE` / `XDMAC_GD`) drive the matching status bits.  No transfer
  progress happens inside a member function.
* Results are stated per backend and direction, each block with its own
  quantifiers, since the four routines are separate functions in the source.
-/

namespace Motate

/-- Width of a device register: every register store is a `uint32_t` store. -/
def WORD : Nat := 2 ^ 32

/-- Clearing the bits of `v` in `a` (the effect of a write-one-to-clear register). -/
def clearBits (a v : Nat) : Nat := a ^^^ (a &&& v)

/-! ## PDC backend -/

/-- Bit-field constants used by `DMA_PDC` and `DMA_PDC_hardware`, supplied by the
device header.  The `*_RXBUFF` / `*_TXBUFE` fields stand for the `US_*` constants
in the `Usart*` specialisation and for the `UART_*` constants in the `Uart*` one. -/
structure PdcConsts where
  PERIPH_PTCR_RXTEN : Nat
  PERIPH_PTCR_RXTDIS : Nat
  PERIPH_PTCR_TXTEN : Nat
  PERIPH_PTCR_TXTDIS : Nat
  IER_RXBUFF : Nat
  IDR_RXBUFF : Nat
  IMR_RXBUFF : Nat
  SR_RXBUFF : Nat
  IER_TXBUFE : Nat
  IDR_TXBUFE : Nat
  IMR_TXBUFE : Nat
  SR_TXBUFE : Nat
  deriving DecidableEq, Repr

/-- What the device data sheet says of the transfer-control constants: each is a
32-bit value naming at least one bit, and the four bit groups are pairwise
disjoint. -/
def PdcConsts.Sound (k : PdcConsts) : Prop :=
  k.PERIPH_PTCR_RXTEN < WORD ∧ k.PERIPH_PTCR_RXTDIS < WORD ∧
  k.PERIPH_PTCR_TXTEN < WORD ∧ k.PERIPH_PTCR_TXTDIS < WORD ∧
  k.PERIPH_PTCR_RXTEN ≠ 0 ∧ k.PERIPH_PTCR_RXTDIS ≠ 0 ∧
  k.PERIPH_PTCR_TXTEN ≠ 0 ∧ k.PERIPH_PTCR_TXTDIS ≠ 0 ∧
  k.PERIPH_PTCR_RXTEN &&& k.PERIPH_PTCR_RXTDIS = 0 ∧
  k.PERIPH_PTCR_RXTEN &&& k.PERIPH_PTCR_TXTEN = 0 ∧
  k.PERIPH_PTCR_RXTEN &&& k.PERIPH_PTCR_TXTDIS = 0 ∧
  k.PERIPH_PTCR_RXTDIS &&& k.PERIPH_PTCR_TXTEN = 0 ∧
  k.PERIPH_PTCR_RXTDIS &&& k.PERIPH_PTCR_TXTDIS = 0 ∧
  k.PERIPH_PTCR_TXTEN &&& k.PERIPH_PTCR_TXTDIS = 0

instance (k : PdcConsts) : Decidable k.Sound := by
  unfold PdcConsts.Sound; infer_instance

/-- The values the SAM3X / SAM4E device headers give these constants. -/
def samPdcConsts : PdcConsts where
  PERIPH_PTCR_RXTEN := 1
  PERIPH_PTCR_RXTDIS := 2
  PERIPH_PTCR_TXTEN := 256
  PERIPH_PTCR_TXTDIS := 512
  IER_RXBUFF := 4096
  IDR_RXBUFF := 4096
  IMR_RXBUFF := 4096
  SR_RXBUFF := 4096
  IER_TXBUFE := 2048
  IDR_TXBUFE := 2048
  IMR_TXBUFE := 2048
  SR_TXBUFE := 2048

/-- The registers `DMA_PDC` writes: the PDC block of the peripheral
(`pdc()->PERIPH_*`) and the interrupt enable / disable registers of the
peripheral itself (`US_IER` / `UART_IER`, `US_IDR` / `UART_IDR`). -/
inductive PdcReg where
  | PTCR | RPR | RNPR | RCR | RNCR | TPR | TNPR | TCR | TNCR | IER | IDR
  deriving DecidableEq, Repr

/-- Readable register state of one peripheral with a PDC.  `rxten` / `txten` are
the two bits of the transfer status register that `PERIPH_PTCR` drives, `IMR` is
the interrupt mask register and `SR` the channel status register
(`US_CSR` / `UART_SR`). -/
structure PdcRegs where
  PERIPH_RPR : Nat
  PERIPH_RCR : Nat
  PERIPH_RNPR : Nat
  PERIPH_RNCR : Nat
  PERIPH_TPR : Nat
  PERIPH_TCR : Nat
  PERIPH_TNPR : Nat
  PERIPH_TNCR : Nat
  rxten : Bool
  txten : Bool
  IMR : Nat
  SR : Nat
  deriving DecidableEq, Repr

/-- Machine state seen by `DMA_PDC`: the registers and the ordered record of the
register writes made so far. -/
structure Pdc where
  regs : PdcRegs
  log : List (PdcReg × Nat)
  deriving DecidableEq, Repr

/-- Effect of one register store on the register file.  Pointer and count
registers keep the value; `PERIPH_PTCR` is a command register (a disable bit
switches the direction off, otherwise an enable bit switches it on); the
interrupt enable / disable registers set / clear bits of the mask register. -/
def hwWrite (k : PdcConsts) (r : PdcReg) (v : Nat) (s : PdcRegs) : PdcRegs :=
  match r with
  | .PTCR =>
    { s with
      rxten := if v &&& k.PERIPH_PTCR_RXTDIS ≠ 0 then false
               else if v &&& k.PERIPH_PTCR_RXTEN ≠ 0 then true else s.rxten
      txten := if v &&& k.PERIPH_PTCR_TXTDIS ≠ 0 then false
               else if v &&& k.PERIPH_PTCR_TXTEN ≠ 0 then true else s.txten }
  | .RPR => { s with PERIPH_RPR := v }
  | .RNPR => { s with PERIPH_RNPR := v }
  | .RCR => { s with PERIPH_RCR := v }
  | .RNCR => { s with PERIPH_RNCR := v }
  | .TPR => { s with PERIPH_TPR := v }
  | .TNPR => { s with PERIPH_TNPR := v }
  | .TCR => { s with PERIPH_TCR := v }
  | .TNCR => { s with PERIPH_TNCR := v }
  | .IER => { s with IMR := (s.IMR ||| v) % WORD }
  | .IDR => { s with IMR := clearBits s.IMR v }

/-- A `uint32_t` store `reg = v`: the value is truncated to 32 bits, takes effect
on the register file and is appended to the write record. -/
def Pdc.write (k : PdcConsts) (r : PdcReg) (v : Nat) (m : Pdc) : Pdc :=
  { regs := hwWrite k r (v % WORD) m.regs, log := m.log ++ [(r, v % WORD)] }

namespace DMA_PDC

/-- `DMA_PDC_hardware::startRxDoneInterrupts`. -/
def startRxDoneInterrupts (k : PdcConsts) (m : Pdc) : Pdc := m.write k .IER k.IER_RXBUFF

/-- `DMA_PDC_hardware::stopRxDoneInterrupts`. -/
def stopRxDoneInterrupts (k : PdcConsts) (m : Pdc) : Pdc := m.write k .IDR k.IDR_RXBUFF

/-- `DMA_PDC_hardware::startTxDoneInterrupts`. -/
def startTxDoneInterrupts (k : PdcConsts) (m : Pdc) : Pdc := m.write k .IER k.IER_TXBUFE

/-- `DMA_PDC_hardware::stopTxDoneInterrupts`. -/
def stopTxDoneInterrupts (k : PdcConsts) (m : Pdc) : Pdc := m.write k .IDR k.IDR_TXBUFE

/-- `DMA_PDC_hardware::inRxBufferEmptyInterrupt`. -/
def inRxBufferEmptyInterrupt (k : PdcConsts) (m : Pdc) : Bool :=
  if m.regs.IMR &&& k.IMR_RXBUFF ≠ 0 then decide (m.regs.SR &&& k.SR_RXBUFF ≠ 0) else false

/-- `DMA_PDC_hardware::inTxBufferEmptyInterrupt`. -/
def inTxBufferEmptyInterrupt (k : PdcConsts) (m : Pdc) : Bool :=
  if m.regs.IMR &&& k.IMR_TXBUFE ≠ 0 then decide (m.regs.SR &&& k.SR_TXBUFE ≠ 0) else false

/-- `DMA_PDC::reset`. -/
def reset (k : PdcConsts) (m : Pdc) : Pdc :=
  let m := m.write k .PTCR (k.PERIPH_PTCR_RXTDIS ||| k.PERIPH_PTCR_TXTDIS)
  let m := m.write k .RPR 0
  let m := m.write k .RNPR 0
  let m := m.write k .RCR 0
  let m := m.write k .RNCR 0
  let m := m.write k .TPR 0
  let m := m.write k .TNPR 0
  let m := m.write k .TCR 0
  m.write k .TNCR 0

/-- `DMA_PDC::disableRx`. -/
def disableRx (k : PdcConsts) (m : Pdc) : Pdc := m.write k .PTCR k.PERIPH_PTCR_RXTDIS

/-- `DMA_PDC::enableRx`. -/
def enableRx (k : PdcConsts) (m : Pdc) : Pdc := m.write k .PTCR k.PERIPH_PTCR_RXTEN

/-- `DMA_PDC::setRx`. -/
def setRx (k : PdcConsts) (buffer length : Nat) (m : Pdc) : Pdc :=
  (m.write k .RPR buffer).write k .RCR length

/-- `DMA_PDC::setNextRx`. -/
def setNextRx (k : PdcConsts) (buffer length : Nat) (m : Pdc) : Pdc :=
  (m.write k .RNPR buffer).write k .RNCR length

/-- `DMA_PDC::flushRead`. -/
def flushRead (k : PdcConsts) (m : Pdc) : Pdc :=
  (m.write k .RNCR 0).write k .RCR 0

/-- `DMA_PDC::leftToRead`. -/
def leftToRead (include_next : Bool) (m : Pdc) : Nat :=
  if include_next then (m.regs.PERIPH_RCR + m.regs.PERIPH_RNCR) % WORD
  else m.regs.PERIPH_RCR

/-- `DMA_PDC::leftToReadNext`. -/
def leftToReadNext (m : Pdc) : Nat := m.regs.PERIPH_RNCR

/-- `DMA_PDC::doneReading`. -/
def doneReading (include_next : Bool) (m : Pdc) : Bool := leftToRead include_next m == 0

/-- `DMA_PDC::doneReadingNext`. -/
def doneReadingNext (m : Pdc) : Bool := leftToReadNext m == 0

/-- `DMA_PDC::getRXTransferPosition`. -/
def getRXTransferPosition (m : Pdc) : Nat := m.regs.PERIPH_RPR

/-- `DMA_PDC::startRXTransfer`: the returned pair is the `bool` result and the
machine state when the call returns. -/
def startRXTransfer (k : PdcConsts) (buffer length : Nat) (handle_interrupts include_next : Bool)
    (m : Pdc) : Bool × Pdc :=
  if doneReading false m then
    let m := if handle_interrupts then stopRxDoneInterrupts k m else m
    let m := setRx k buffer length m
    if length ≠ 0 then
      let m := if handle_interrupts then startRxDoneInterrupts k m else m
      let m := enableRx k m
      (true, m)
    else
      (false, m)
  else if include_next && doneReadingNext m then
    (true, setNextRx k buffer length m)
  else
    (false, m)

/-- `DMA_PDC::disableTx`. -/
def disableTx (k : PdcConsts) (m : Pdc) : Pdc := m.write k .PTCR k.PERIPH_PTCR_TXTDIS

/-- `DMA_PDC::enableTx`. -/
def enableTx (k : PdcConsts) (m : Pdc) : Pdc := m.write k .PTCR k.PERIPH_PTCR_TXTEN

/-- `DMA_PDC::setTx`. -/
def setTx (k : PdcConsts) (buffer length : Nat) (m : Pdc) : Pdc :=
  (m.write k .TPR buffer).write k .TCR length

/-- `DMA_PDC::setNextTx`. -/
def setNextTx (k : PdcConsts) (buffer length : Nat) (m : Pdc) : Pdc :=
  (m.write k .TNPR buffer).write k .TNCR length

/-- `DMA_PDC::leftToWrite`. -/
def leftToWrite (include_next : Bool) (m : Pdc) : Nat :=
  if include_next then (m.regs.PERIPH_TCR + m.regs.PERIPH_TNCR) % WORD
  else m.regs.PERIPH_TCR

/-- `DMA_PDC::leftToWriteNext`. -/
def leftToWriteNext (m : Pdc) : Nat := m.regs.PERIPH_TNCR

/-- `DMA_PDC::doneWriting`. -/
def doneWriting (include_next : Bool) (m : Pdc) : Bool := leftToWrite include_next m == 0

/-- `DMA_PDC::doneWritingNext`. -/
def doneWritingNext (m : Pdc) : Bool := leftToWriteNext m == 0

/-- `DMA_PDC::getTXTransferPosition`. -/
def getTXTransferPosition (m : Pdc) : Nat := m.regs.PERIPH_TPR

/-- `DMA_PDC::startTXTransfer`: the returned pair is the `bool` result and the
machine state when the call returns. -/
def startTXTransfer (k : PdcConsts) (buffer length : Nat) (handle_interrupts include_next : Bool)
    (m : Pdc) : Bool × Pdc :=
  if doneWriting false m then
    let m := if handle_interrupts then stopTxDoneInterrupts k m else m
    let m := setTx k buffer length m
    if length ≠ 0 then
      let m := if handle_interrupts then startTxDoneInterrupts k m else m
      let m := enableTx k m
      (true, m)
    else
      (false, m)
  else if include_next && doneWritingNext m then
    (true, setNextTx k buffer length m)
  else
    (false, m)

end DMA_PDC

/-! ## XDMAC backend -/

/-- Bit-field constants and field macros used by `DMA_XDMAC`, supplied by the
device header. -/
structure XdmacConsts where
  XDMAC_GID_ID0 : Nat
  XDMAC_GIE_IE0 : Nat
  XDMAC_CC_TYPE_PER_TRAN : Nat
  XDMAC_CC_MBSIZE_SINGLE : Nat
  XDMAC_CC_DSYNC_PER2MEM : Nat
  XDMAC_CC_DSYNC_MEM2PER : Nat
  XDMAC_CC_CSIZE_CHK_1 : Nat
  XDMAC_CC_DWIDTH : Nat → Nat
  XDMAC_CC_SIF_AHB_IF0 : Nat
  XDMAC_CC_SIF_AHB_IF1 : Nat
  XDMAC_CC_DIF_AHB_IF0 : Nat
  XDMAC_CC_DIF_AHB_IF1 : Nat
  XDMAC_CC_SAM_FIXED_AM : Nat
  XDMAC_CC_SAM_INCREMENTED_AM : Nat
  XDMAC_CC_DAM_FIXED_AM : Nat
  XDMAC_CC_DAM_INCREMENTED_AM : Nat
  XDMAC_CC_PERID : Nat → Nat

/-- The values the SAMS70 device header gives these constants. -/
def samXdmacConsts : XdmacConsts where
  XDMAC_GID_ID0 := 1
  XDMAC_GIE_IE0 := 1
  XDMAC_CC_TYPE_PER_TRAN := 1
  XDMAC_CC_MBSIZE_SINGLE := 0
  XDMAC_CC_DSYNC_PER2MEM := 0
  XDMAC_CC_DSYNC_MEM2PER := 16
  XDMAC_CC_CSIZE_CHK_1 := 0
  XDMAC_CC_DWIDTH := fun v => (3 <<< 11) &&& (v <<< 11)
  XDMAC_CC_SIF_AHB_IF0 := 0
  XDMAC_CC_SIF_AHB_IF1 := 8192
  XDMAC_CC_DIF_AHB_IF0 := 0
  XDMAC_CC_DIF_AHB_IF1 := 16384
  XDMAC_CC_SAM_FIXED_AM := 0
  XDMAC_CC_SAM_INCREMENTED_AM := 65536
  XDMAC_CC_DAM_FIXED_AM := 0
  XDMAC_CC_DAM_INCREMENTED_AM := 262144
  XDMAC_CC_PERID := fun v => (127 <<< 24) &&& (v <<< 24)

/-- What a `DMA_XDMAC_hardware<periph_t, periph_num>` specialisation provides to
`DMA_XDMAC`: peripheral identifiers, channel numbers and the addresses of the
peripheral data registers. -/
structure XdmacHw where
  xdmaRxPeripheralId : Nat
  xdmaTxPeripheralId : Nat
  xdmaRxChannelNumber : Nat
  xdmaTxChannelNumber : Nat
  xdmaPeripheralRxAddress : Nat
  xdmaPeripheralTxAddress : Nat
  deriving DecidableEq, Repr

/-- The registers `DMA_XDMAC` writes: the global enable / disable registers and
the registers of channel block `XDMAC_CHID[ch]`. -/
inductive XdmacReg where
  | GE | GD
  | CSA (ch : Nat) | CDA (ch : Nat) | CC (ch : Nat) | CNDC (ch : Nat) | CBC (ch : Nat)
  | CDS_MSP (ch : Nat) | CSUS (ch : Nat) | CDUS (ch : Nat) | CUBC (ch : Nat)
  deriving DecidableEq, Repr

/-- One channel register block (`XdmacChid`), with the registers the source uses. -/
structure XdmacChid where
  XDMAC_CSA : Nat
  XDMAC_CDA : Nat
  XDMAC_CC : Nat
  XDMAC_CNDC : Nat
  XDMAC_CBC : Nat
  XDMAC_CDS_MSP : Nat
  XDMAC_CSUS : Nat
  XDMAC_CDUS : Nat
  XDMAC_CUBC : Nat
  deriving DecidableEq, Repr

/-- Readable register state of the XDMAC: the channel blocks and the global
channel status register `XDMAC_GS` (bit `n` set: channel `n` enabled), which the
write-only registers `XDMAC_GE` / `XDMAC_GD` drive. -/
structure XdmacRegs where
  XDMAC_CHID : Nat → XdmacChid
  XDMAC_GS : Nat

/-- Machine state seen by `DMA_XDMAC`: the registers and the ordered record of
the register writes made so far. -/
structure Xdmac where
  regs : XdmacRegs
  log : List (XdmacReg × Nat)

/-- Replace channel block `ch` by `f` of it. -/
def XdmacRegs.onChannel (s : XdmacRegs) (ch : Nat) (f : XdmacChid → XdmacChid) : XdmacRegs :=
  { s with XDMAC_CHID := Function.update s.XDMAC_CHID ch (f (s.XDMAC_CHID ch)) }

/-- Effect of one register store on the XDMAC register file.  `XDMAC_GE` sets and
`XDMAC_GD` clears the written bits of the channel status; a channel register keeps
the value. -/
def xdmacHwWrite (r : XdmacReg) (v : Nat) (s : XdmacRegs) : XdmacRegs :=
  match r with
  | .GE => { s with XDMAC_GS := (s.XDMAC_GS ||| v) % WORD }
  | .GD => { s with XDMAC_GS := clearBits s.XDMAC_GS v }
  | .CSA ch => s.onChannel ch (fun c => { c with XDMAC_CSA := v })
  | .CDA ch => s.onChannel ch (fun c => { c with XDMAC_CDA := v })
  | .CC ch => s.onChannel ch (fun c => { c with XDMAC_CC := v })
  | .CNDC ch => s.onChannel ch (fun c => { c with XDMAC_CNDC := v })
  | .CBC ch => s.onChannel ch (fun c => { c with XDMAC_CBC := v })
  | .CDS_MSP ch => s.onChannel ch (fun c => { c with XDMAC_CDS_MSP := v })
  | .CSUS ch => s.onChannel ch (fun c => { c with XDMAC_CSUS := v })
  | .CDUS ch => s.onChannel ch (fun c => { c with XDMAC_CDUS := v })
  | .CUBC ch => s.onChannel ch (fun c => { c with XDMAC_CUBC := v })

/-- A `uint32_t` store `reg = v` on the XDMAC. -/
def Xdmac.write (r : XdmacReg) (v : Nat) (m : Xdmac) : Xdmac :=
  { regs := xdmacHwWrite r (v % WORD) m.regs, log := m.log ++ [(r, v % WORD)] }

/-- Channel `ch` is enabled: its bit of `XDMAC_GS` is set. -/
def Xdmac.enabled (m : Xdmac) (ch : Nat) : Bool := m.regs.XDMAC_GS.testBit ch

namespace DMA_XDMAC

/-- `DMA_XDMAC::buffer_width`: `std::alignment_of` of the class
`std::remove_pointer<buffer_t>`, an empty class, hence 1. -/
def buffer_width : Nat := 1

/-- `xdmaRxChannel()->reg` for a register read. -/
def xdmaRxChannel (hw : XdmacHw) (m : Xdmac) : XdmacChid :=
  m.regs.XDMAC_CHID hw.xdmaRxChannelNumber

/-- `xdmaTxChannel()->reg` for a register read. -/
def xdmaTxChannel (hw : XdmacHw) (m : Xdmac) : XdmacChid :=
  m.regs.XDMAC_CHID hw.xdmaTxChannelNumber

/-- `DMA_XDMAC::disableRx`. -/
def disableRx (k : XdmacConsts) (hw : XdmacHw) (m : Xdmac) : Xdmac :=
  m.write .GD (k.XDMAC_GID_ID0 <<< hw.xdmaRxChannelNumber)

/-- `DMA_XDMAC::enableRx`. -/
def enableRx (k : XdmacConsts) (hw : XdmacHw) (m : Xdmac) : Xdmac :=
  m.write .GE (k.XDMAC_GIE_IE0 <<< hw.xdmaRxChannelNumber)

/-- `DMA_XDMAC::disableTx`. -/
def disableTx (k : XdmacConsts) (hw : XdmacHw) (m : Xdmac) : Xdmac :=
  m.write .GD (k.XDMAC_GID_ID0 <<< hw.xdmaTxChannelNumber)

/-- `DMA_XDMAC::enableTx`. -/
def enableTx (k : XdmacConsts) (hw : XdmacHw) (m : Xdmac) : Xdmac :=
  m.write .GE (k.XDMAC_GIE_IE0 <<< hw.xdmaTxChannelNumber)

/-- The value `DMA_XDMAC::reset` stores in `XDMAC_CC` of the receive channel. -/
def rxChannelConfig (k : XdmacConsts) (hw : XdmacHw) : Nat :=
  k.XDMAC_CC_TYPE_PER_TRAN ||| k.XDMAC_CC_MBSIZE_SINGLE ||| k.XDMAC_CC_DSYNC_PER2MEM |||
  k.XDMAC_CC_CSIZE_CHK_1 ||| k.XDMAC_CC_DWIDTH (buffer_width >>> 4) |||
  k.XDMAC_CC_SIF_AHB_IF1 ||| k.XDMAC_CC_DIF_AHB_IF0 ||| k.XDMAC_CC_SAM_FIXED_AM |||
  k.XDMAC_CC_DAM_INCREMENTED_AM ||| k.XDMAC_CC_PERID hw.xdmaRxPeripheralId

/-- The value `DMA_XDMAC::reset` stores in `XDMAC_CC` of the transmit channel. -/
def txChannelConfig (k : XdmacConsts) (hw : XdmacHw) : Nat :=
  k.XDMAC_CC_TYPE_PER_TRAN ||| k.XDMAC_CC_MBSIZE_SINGLE ||| k.XDMAC_CC_DSYNC_MEM2PER |||
  k.XDMAC_CC_CSIZE_CHK_1 ||| k.XDMAC_CC_DWIDTH (buffer_width >>> 4) |||
  k.XDMAC_CC_DIF_AHB_IF1 ||| k.XDMAC_CC_SIF_AHB_IF0 ||| k.XDMAC_CC_SAM_INCREMENTED_AM |||
  k.XDMAC_CC_DAM_FIXED_AM ||| k.XDMAC_CC_PERID hw.xdmaTxPeripheralId

/-- `DMA_XDMAC::reset`. -/
def reset (k : XdmacConsts) (hw : XdmacHw) (m : Xdmac) : Xdmac :=
  let rx := hw.xdmaRxChannelNumber
  let tx := hw.xdmaTxChannelNumber
  let m := disableRx k hw m
  let m := disableTx k hw m
  let m := m.write (.CSA rx) hw.xdmaPeripheralRxAddress
  let m := m.write (.CC rx) (rxChannelConfig k hw)
  let m := m.write (.CNDC rx) 0
  let m := m.write (.CBC rx) 0
  let m := m.write (.CDS_MSP rx) 0
  let m := m.write (.CSUS rx) 0
  let m := m.write (.CDUS rx) 0
  let m := m.write (.CUBC rx) 0
  let m := m.write (.CDA tx) hw.xdmaPeripheralTxAddress
  let m := m.write (.CC tx) (txChannelConfig k hw)
  let m := m.write (.CNDC tx) 0
  let m := m.write (.CBC tx) 0
  let m := m.write (.CDS_MSP tx) 0
  let m := m.write (.CSUS tx) 0
  let m := m.write (.CDUS tx) 0
  m.write (.CUBC tx) 0

/-- `DMA_XDMAC::setRx`. -/
def setRx (hw : XdmacHw) (buffer length : Nat) (m : Xdmac) : Xdmac :=
  (m.write (.CDA hw.xdmaRxChannelNumber) buffer).write (.CUBC hw.xdmaRxChannelNumber) length

/-- `DMA_XDMAC::setNextRx`: the body is commented out in the source. -/
def setNextRx (_hw : XdmacHw) (_buffer _length : Nat) (m : Xdmac) : Xdmac := m

/-- `DMA_XDMAC::flushRead`. -/
def flushRead (hw : XdmacHw) (m : Xdmac) : Xdmac :=
  m.write (.CUBC hw.xdmaRxChannelNumber) 0

/-- `DMA_XDMAC::leftToRead`: `include_next` is not used. -/
def leftToRead (hw : XdmacHw) (_include_next : Bool) (m : Xdmac) : Nat :=
  (xdmaRxChannel hw m).XDMAC_CUBC

/-- `DMA_XDMAC::leftToReadNext`. -/
def leftToReadNext (_hw : XdmacHw) (_m : Xdmac) : Nat := 0

/-- `DMA_XDMAC::doneReading`. -/
def doneReading (hw : XdmacHw) (include_next : Bool) (m : Xdmac) : Bool :=
  leftToRead hw include_next m == 0

/-- `DMA_XDMAC::doneReadingNext`. -/
def doneReadingNext (hw : XdmacHw) (m : Xdmac) : Bool := leftToReadNext hw m == 0

/-- `DMA_XDMAC::getRXTransferPosition`. -/
def getRXTransferPosition (hw : XdmacHw) (m : Xdmac) : Nat := (xdmaRxChannel hw m).XDMAC_CDA

/-- `DMA_XDMAC::startRxDoneInterrupts`: empty body. -/
def startRxDoneInterrupts (m : Xdmac) : Xdmac := m

/-- `DMA_XDMAC::stopRxDoneInterrupts`: empty body. -/
def stopRxDoneInterrupts (m : Xdmac) : Xdmac := m

/-- `DMA_XDMAC::startTxDoneInterrupts`: empty body. -/
def startTxDoneInterrupts (m : Xdmac) : Xdmac := m

/-- `DMA_XDMAC::stopTxDoneInterrupts`: empty body. -/
def stopTxDoneInterrupts (m : Xdmac) : Xdmac := m

/-- `DMA_XDMAC::inRxBufferEmptyInterrupt`. -/
def inRxBufferEmptyInterrupt (_m : Xdmac) : Bool := false

/-- `DMA_XDMAC::inTxBufferEmptyInterrupt`. -/
def inTxBufferEmptyInterrupt (_m : Xdmac) : Bool := false

/-- `DMA_XDMAC::startRXTransfer`: the returned pair is the `bool` result and the
machine state when the call returns. -/
def startRXTransfer (k : XdmacConsts) (hw : XdmacHw) (buffer length : Nat)
    (handle_interrupts include_next : Bool) (m : Xdmac) : Bool × Xdmac :=
  if doneReading hw false m then
    let m := if handle_interrupts then stopRxDoneInterrupts m else m
    let m := setRx hw buffer length m
    if length ≠ 0 then
      let m := if handle_interrupts then startRxDoneInterrupts m else m
      let m := enableRx k hw m
      (true, m)
    else
      (false, m)
  else if include_next && doneReadingNext hw m then
    (true, setNextRx hw buffer length m)
  else
    (false, m)

/-- `DMA_XDMAC::setTx`. -/
def setTx (hw : XdmacHw) (buffer length : Nat) (m : Xdmac) : Xdmac :=
  (m.write (.CSA hw.xdmaTxChannelNumber) buffer).write (.CUBC hw.xdmaTxChannelNumber) length

/-- `DMA_XDMAC::setNextTx`: the body is commented out in the source. -/
def setNextTx (_hw : XdmacHw) (_buffer _length : Nat) (m : Xdmac) : Xdmac := m

/-- `DMA_XDMAC::leftToWrite`: `include_next` is not used. -/
def leftToWrite (hw : XdmacHw) (_include_next : Bool) (m : Xdmac) : Nat :=
  (xdmaTxChannel hw m).XDMAC_CUBC

/-- `DMA_XDMAC::leftToWriteNext`. -/
def leftToWriteNext (_hw : XdmacHw) (_m : Xdmac) : Nat := 0

/-- `DMA_XDMAC::doneWriting`. -/
def doneWriting (hw : XdmacHw) (include_next : Bool) (m : Xdmac) : Bool :=
  leftToWrite hw include_next m == 0

/-- `DMA_XDMAC::doneWritingNext`. -/
def doneWritingNext (hw : XdmacHw) (m : Xdmac) : Bool := leftToWriteNext hw m == 0

/-- `DMA_XDMAC::getTXTransferPosition`: reads `XDMAC_CDA` of the transmit channel. -/
def getTXTransferPosition (hw : XdmacHw) (m : Xdmac) : Nat := (xdmaTxChannel hw m).XDMAC_CDA

/-- `DMA_XDMAC::startTXTransfer`: the returned pair is the `bool` result and the
machine state when the call returns. -/
def startTXTransfer (k : XdmacConsts) (hw : XdmacHw) (buffer length : Nat)
    (handle_interrupts include_next : Bool) (m : Xdmac) : Bool × Xdmac :=
  if doneWriting hw false m then
    let m := if handle_interrupts then stopTxDoneInterrupts m else m
    let m := setTx hw buffer length m
    if length ≠ 0 then
      let m := if handle_interrupts then startTxDoneInterrupts m else m
      let m := enableTx k hw m
      (true, m)
    else
      (false, m)
  else if include_next && doneWritingNext hw m then
    (true, setNextTx hw buffer length m)
  else
    (false, m)

end DMA_XDMAC

/-! ### The `DMA_XDMAC_hardware` specialisations -/

namespace DMA_XDMAC_hardware_Usart

/-- `DMA_XDMAC_hardware<Usart*, n>::xdmaTxPeripheralId`. -/
def xdmaTxPeripheralId (uartPeripheralNumber : Nat) : Nat :=
  match uartPeripheralNumber with
  | 0 => 7 | 1 => 9 | 2 => 11 | _ => 0

/-- `DMA_XDMAC_hardware<Usart*, n>::xdmaTxChannelNumber`. -/
def xdmaTxChannelNumber (uartPeripheralNumber : Nat) : Nat :=
  match uartPeripheralNumber with
  | 0 => 0 | 1 => 2 | 2 => 4 | _ => 0

/-- `DMA_XDMAC_hardware<Usart*, n>::xdmaRxPeripheralId`. -/
def xdmaRxPeripheralId (uartPeripheralNumber : Nat) : Nat :=
  match uartPeripheralNumber with
  | 0 => 8 | 1 => 10 | 2 => 12 | _ => 0

/-- `DMA_XDMAC_hardware<Usart*, n>::xdmaRxChannelNumber`. -/
def xdmaRxChannelNumber (uartPeripheralNumber : Nat) : Nat :=
  match uartPeripheralNumber with
  | 0 => 1 | 1 => 3 | 2 => 5 | _ => 0

/-- The specialisation for USART instance `n`; `US_RHR` and `US_THR` are the
addresses of the data registers of `usart()`, fixed by the device header. -/
def hw (uartPeripheralNumber US_RHR US_THR : Nat) : XdmacHw where
  xdmaRxPeripheralId := xdmaRxPeripheralId uartPeripheralNumber
  xdmaTxPeripheralId := xdmaTxPeripheralId uartPeripheralNumber
  xdmaRxChannelNumber := xdmaRxChannelNumber uartPeripheralNumber
  xdmaTxChannelNumber := xdmaTxChannelNumber uartPeripheralNumber
  xdmaPeripheralRxAddress := US_RHR
  xdmaPeripheralTxAddress := US_THR

end DMA_XDMAC_hardware_Usart

namespace DMA_XDMAC_hardware_Uart

/-- `DMA_XDMAC_hardware<Uart*, n>::xdmaTxPeripheralId`. -/
def xdmaTxPeripheralId (uartPeripheralNumber : Nat) : Nat :=
  match uartPeripheralNumber with
  | 0 => 20 | 1 => 22 | 2 => 24 | 3 => 26 | 4 => 28 | _ => 0

/-- `DMA_XDMAC_hardware<Uart*, n>::xdmaTxChannelNumber`. -/
def xdmaTxChannelNumber (uartPeripheralNumber : Nat) : Nat :=
  match uartPeripheralNumber with
  | 0 => 6 | 1 => 8 | 2 => 10 | 3 => 12 | 4 => 14 | _ => 0

/-- `DMA_XDMAC_hardware<Uart*, n>::xdmaRxPeripheralId`. -/
def xdmaRxPeripheralId (uartPeripheralNumber : Nat) : Nat :=
  match uartPeripheralNumber with
  | 0 => 21 | 1 => 23 | 2 => 25 | 3 => 27 | 4 => 29 | _ => 0

/-- `DMA_XDMAC_hardware<Uart*, n>::xdmaRxChannelNumber`. -/
def xdmaRxChannelNumber (uartPeripheralNumber : Nat) : Nat :=
  match uartPeripheralNumber with
  | 0 => 7 | 1 => 9 | 2 => 11 | 3 => 13 | 4 => 15 | _ => 0

/-- The specialisation for UART instance `n`; `UART_RHR` and `UART_THR` are the
addresses of the data registers of `uart()`, fixed by the device header. -/
def hw (uartPeripheralNumber UART_RHR UART_THR : Nat) : XdmacHw where
  xdmaRxPeripheralId := xdmaRxPeripheralId uartPeripheralNumber
  xdmaTxPeripheralId := xdmaTxPeripheralId uartPeripheralNumber
  xdmaRxChannelNumber := xdmaRxChannelNumber uartPeripheralNumber
  xdmaTxChannelNumber := xdmaTxChannelNumber uartPeripheralNumber
  xdmaPeripheralRxAddress := UART_RHR
  xdmaPeripheralTxAddress := UART_THR

end DMA_XDMAC_hardware_Uart

/-! ## Concrete states used to instantiate the results -/

/-- A PDC register file with every register zero and both directions disabled. -/
def pdcZero : Pdc :=
  { regs := { PERIPH_RPR := 0, PERIPH_RCR := 0, PERIPH_RNPR := 0, PERIPH_RNCR := 0,
              PERIPH_TPR := 0, PERIPH_TCR := 0, PERIPH_TNPR := 0, PERIPH_TNCR := 0,
              rxten := false, txten := false, IMR := 0, SR := 0 },
    log := [] }

/-- A PDC state with a transfer of `cur` units in flight in both directions and
`nxt` units queued behind it, both directions enabled. -/
def pdcBusy (cur nxt : Nat) : Pdc :=
  { regs := { PERIPH_RPR := 0x20000000, PERIPH_RCR := cur, PERIPH_RNPR := 0x20000100,
              PERIPH_RNCR := nxt, PERIPH_TPR := 0x20000200, PERIPH_TCR := cur,
              PERIPH_TNPR := 0x20000300, PERIPH_TNCR := nxt,
              rxten := true, txten := true, IMR := 0x1800, SR := 0 },
    log := [] }

/-- A channel block with the memory addresses `a` and the count `n`. -/
def chidOf (a n : Nat) : XdmacChid :=
  { XDMAC_CSA := a, XDMAC_CDA := a, XDMAC_CC := 0, XDMAC_CNDC := 0, XDMAC_CBC := 0,
    XDMAC_CDS_MSP := 0, XDMAC_CSUS := 0, XDMAC_CDUS := 0, XDMAC_CUBC := n }

/-- An XDMAC state in which every channel block holds address `a` and count `n`,
with channel status word `gs`. -/
def xdmacAll (a n gs : Nat) : Xdmac :=
  { regs := { XDMAC_CHID := fun _ => chidOf a n, XDMAC_GS := gs }, log := [] }

/-- The hardware record of USART instance 0 on the SAMS70 (data registers at
`0x40024018` and `0x4002401C`). -/
def usart0Hw : XdmacHw := DMA_XDMAC_hardware_Usart.hw 0 0x40024018 0x4002401C


/-! ## Views of the state used to state the results -/

/-- What the device data sheet says of the completion-interrupt constants: the
enable, disable, mask and status constants of one condition name the same bit
group, a non-zero 32-bit value, and the receive and transmit groups are
disjoint. -/
def PdcConsts.IrqSound (k : PdcConsts) : Prop :=
  k.IER_RXBUFF = k.IMR_RXBUFF ∧ k.IDR_RXBUFF = k.IMR_RXBUFF ∧ k.SR_RXBUFF = k.IMR_RXBUFF ∧
  k.IER_TXBUFE = k.IMR_TXBUFE ∧ k.IDR_TXBUFE = k.IMR_TXBUFE ∧ k.SR_TXBUFE = k.IMR_TXBUFE ∧
  k.IMR_RXBUFF < WORD ∧ k.IMR_TXBUFE < WORD ∧
  k.IMR_RXBUFF ≠ 0 ∧ k.IMR_TXBUFE ≠ 0 ∧
  k.IMR_RXBUFF &&& k.IMR_TXBUFE = 0

instance (k : PdcConsts) : Decidable k.IrqSound := by
  unfold PdcConsts.IrqSound; infer_instance

/-- What the device data sheet says of the XDMAC enable / disable constants: both
are bit 0, so that shifting by the channel number gives the one-hot channel mask. -/
def XdmacConsts.Sound (k : XdmacConsts) : Prop :=
  k.XDMAC_GID_ID0 = 1 ∧ k.XDMAC_GIE_IE0 = 1

instance (k : XdmacConsts) : Decidable k.Sound := by
  unfold XdmacConsts.Sound; infer_instance

/-- The receive completion interrupt is armed: the test
`IMR & IMR_RXBUFF` that `inRxBufferEmptyInterrupt` makes. -/
def Pdc.rxArmed (k : PdcConsts) (m : Pdc) : Bool := decide (m.regs.IMR &&& k.IMR_RXBUFF ≠ 0)

/-- The transmit completion interrupt is armed: the test
`IMR & IMR_TXBUFE` that `inTxBufferEmptyInterrupt` makes. -/
def Pdc.txArmed (k : PdcConsts) (m : Pdc) : Bool := decide (m.regs.IMR &&& k.IMR_TXBUFE ≠ 0)

/-- Receive side of a PDC state: the four receive descriptor registers, the
receive enable state and the receive bits of the interrupt mask. -/
def Pdc.rxSide (k : PdcConsts) (m : Pdc) : Nat × Nat × Nat × Nat × Bool × Nat :=
  (m.regs.PERIPH_RPR, m.regs.PERIPH_RCR, m.regs.PERIPH_RNPR, m.regs.PERIPH_RNCR,
   m.regs.rxten, m.regs.IMR &&& k.IMR_RXBUFF)

/-- Transmit side of a PDC state: the four transmit descriptor registers, the
transmit enable state and the transmit bits of the interrupt mask. -/
def Pdc.txSide (k : PdcConsts) (m : Pdc) : Nat × Nat × Nat × Nat × Bool × Nat :=
  (m.regs.PERIPH_TPR, m.regs.PERIPH_TCR, m.regs.PERIPH_TNPR, m.regs.PERIPH_TNCR,
   m.regs.txten, m.regs.IMR &&& k.IMR_TXBUFE)

/-- Receive side of an XDMAC state: the register block of the receive channel and
its enable state. -/
def Xdmac.rxSide (hw : XdmacHw) (m : Xdmac) : XdmacChid × Bool :=
  (m.regs.XDMAC_CHID hw.xdmaRxChannelNumber, m.enabled hw.xdmaRxChannelNumber)

/-- Transmit side of an XDMAC state: the register block of the transmit channel
and its enable state. -/
def Xdmac.txSide (hw : XdmacHw) (m : Xdmac) : XdmacChid × Bool :=
  (m.regs.XDMAC_CHID hw.xdmaTxChannelNumber, m.enabled hw.xdmaTxChannelNumber)

/-! ## Hardware steps of the PDC -/

/-- Modelled from the spec: the PDC hardware (not code of the repository) finishes
the current receive buffer; it leaves the receive pointer at `p` and the current
count at 0. -/
def hwRxFinishCurrent (p : Nat) (m : Pdc) : Pdc :=
  { m with regs := { m.regs with PERIPH_RPR := p, PERIPH_RCR := 0 } }

/-- Modelled from the spec: the promotion step of the PDC hardware on the receive
side.  When the current count is 0 and the next count is non-zero, the next
pointer and next count are copied into the current registers and the next count
is zeroed; otherwise nothing happens. -/
def hwRxPromote (m : Pdc) : Pdc :=
  if m.regs.PERIPH_RCR = 0 ∧ m.regs.PERIPH_RNCR ≠ 0 then
    { m with regs := { m.regs with PERIPH_RPR := m.regs.PERIPH_RNPR,
                                   PERIPH_RCR := m.regs.PERIPH_RNCR,
                                   PERIPH_RNCR := 0 } }
  else m

/-- Modelled from the spec: the PDC hardware finishes the current transmit
buffer; it leaves the transmit pointer at `p` and the current count at 0. -/
def hwTxFinishCurrent (p : Nat) (m : Pdc) : Pdc :=
  { m with regs := { m.regs with PERIPH_TPR := p, PERIPH_TCR := 0 } }

/-- Modelled from the spec: the promotion step of the PDC hardware on the transmit
side, as `hwRxPromote`. -/
def hwTxPromote (m : Pdc) : Pdc :=
  if m.regs.PERIPH_TCR = 0 ∧ m.regs.PERIPH_TNCR ≠ 0 then
    { m with regs := { m.regs with PERIPH_TPR := m.regs.PERIPH_TNPR,
                                   PERIPH_TCR := m.regs.PERIPH_TNCR,
                                   PERIPH_TNCR := 0 } }
  else m

/-! ## XDMAC channel assignment over the peripheral instances -/

/-- The peripheral kinds with a `DMA_XDMAC_hardware` specialisation. -/
inductive PeriphKind where
  | Usart | Uart
  deriving DecidableEq, Repr

/-- Transfer direction. -/
inductive Direction where
  | Receive | Transmit
  deriving DecidableEq, Repr

/-- The instance numbers the `switch` tables of a specialisation list:
USART 0..2 and UART 0..4. -/
def validInstance (p : PeriphKind) (n : Nat) : Prop :=
  match p with
  | .Usart => n < 3
  | .Uart => n < 5

instance (p : PeriphKind) (n : Nat) : Decidable (validInstance p n) := by
  cases p <;> unfold validInstance <;> infer_instance

/-- `xdmaRxChannelNumber()` / `xdmaTxChannelNumber()` of
`DMA_XDMAC_hardware<kind, n>`. -/
def xdmaChannelNumber (p : PeriphKind) (n : Nat) (d : Direction) : Nat :=
  match p, d with
  | .Usart, .Receive => DMA_XDMAC_hardware_Usart.xdmaRxChannelNumber n
  | .Usart, .Transmit => DMA_XDMAC_hardware_Usart.xdmaTxChannelNumber n
  | .Uart, .Receive => DMA_XDMAC_hardware_Uart.xdmaRxChannelNumber n
  | .Uart, .Transmit => DMA_XDMAC_hardware_Uart.xdmaTxChannelNumber n

/-! ## `flushRead` under hardware promotion -/

/-- The two stores of `DMA_PDC::flushRead`, in the order of the source, with the
hardware promotion step firing `n0` times before the first store, `n1` times
between the two stores and `n2` times after the second. -/
def flushReadWithPromotion (k : PdcConsts) (n0 n1 n2 : Nat) (m : Pdc) : Pdc :=
  hwRxPromote^[n2]
    ((hwRxPromote^[n1] ((hwRxPromote^[n0] m).write k .RNCR 0)).write k .RCR 0)

/-! ## The start procedure over adapter primitives -/

/-- The primitives a start routine calls, over a machine state `σ`. -/
structure Adapter (σ : Type) where
  done : σ → Bool
  stopInterrupts : σ → σ
  set : Nat → Nat → σ → σ
  startInterrupts : σ → σ
  enable : σ → σ
  doneNext : σ → Bool
  setNext : Nat → Nat → σ → σ

/-- The start procedure written once over the adapter primitives: current slot
free, then (interrupts stopped if handled) the descriptor is set and, for a
non-zero length, interrupts are started again and the direction is enabled;
otherwise, with `include_next` and a free pending slot, the descriptor is set as
the next one; otherwise the request is rejected. -/
def genericStart {σ : Type} (A : Adapter σ) (buffer length : Nat)
    (handle_interrupts include_next : Bool) (s : σ) : Bool × σ :=
  if A.done s then
    let s := if handle_interrupts then A.stopInterrupts s else s
    let s := A.set buffer length s
    if length ≠ 0 then
      let s := if handle_interrupts then A.startInterrupts s else s
      let s := A.enable s
      (true, s)
    else
      (false, s)
  else if include_next && A.doneNext s then
    (true, A.setNext buffer length s)
  else
    (false, s)

/-- The receive primitives of `DMA_PDC`. -/
def pdcRxAdapter (k : PdcConsts) : Adapter Pdc where
  done := DMA_PDC.doneReading false
  stopInterrupts := DMA_PDC.stopRxDoneInterrupts k
  set := DMA_PDC.setRx k
  startInterrupts := DMA_PDC.startRxDoneInterrupts k
  enable := DMA_PDC.enableRx k
  doneNext := DMA_PDC.doneReadingNext
  setNext := DMA_PDC.setNextRx k

/-- The transmit primitives of `DMA_PDC`. -/
def pdcTxAdapter (k : PdcConsts) : Adapter Pdc where
  done := DMA_PDC.doneWriting false
  stopInterrupts := DMA_PDC.stopTxDoneInterrupts k
  set := DMA_PDC.setTx k
  startInterrupts := DMA_PDC.startTxDoneInterrupts k
  enable := DMA_PDC.enableTx k
  doneNext := DMA_PDC.doneWritingNext
  setNext := DMA_PDC.setNextTx k

/-- The receive primitives of `DMA_XDMAC`. -/
def xdmacRxAdapter (k : XdmacConsts) (hw : XdmacHw) : Adapter Xdmac where
  done := DMA_XDMAC.doneReading hw false
  stopInterrupts := DMA_XDMAC.stopRxDoneInterrupts
  set := DMA_XDMAC.setRx hw
  startInterrupts := DMA_XDMAC.startRxDoneInterrupts
  enable := DMA_XDMAC.enableRx k hw
  doneNext := DMA_XDMAC.doneReadingNext hw
  setNext := DMA_XDMAC.setNextRx hw

/-- The transmit primitives of `DMA_XDMAC`. -/
def xdmacTxAdapter (k : XdmacConsts) (hw : XdmacHw) : Adapter Xdmac where
  done := DMA_XDMAC.doneWriting hw false
  stopInterrupts := DMA_XDMAC.stopTxDoneInterrupts
  set := DMA_XDMAC.setTx hw
  startInterrupts := DMA_XDMAC.startTxDoneInterrupts
  enable := DMA_XDMAC.enableTx k hw
  doneNext := DMA_XDMAC.doneWritingNext hw
  setNext := DMA_XDMAC.setNextTx hw

/-! ## Renaming receive to transmit -/

/-- The constants with every receive constant exchanged with its transmit twin. -/
def PdcConsts.mirror (k : PdcConsts) : PdcConsts where
  PERIPH_PTCR_RXTEN := k.PERIPH_PTCR_TXTEN
  PERIPH_PTCR_RXTDIS := k.PERIPH_PTCR_TXTDIS
  PERIPH_PTCR_TXTEN := k.PERIPH_PTCR_RXTEN
  PERIPH_PTCR_TXTDIS := k.PERIPH_PTCR_RXTDIS
  IER_RXBUFF := k.IER_TXBUFE
  IDR_RXBUFF := k.IDR_TXBUFE
  IMR_RXBUFF := k.IMR_TXBUFE
  SR_RXBUFF := k.SR_TXBUFE
  IER_TXBUFE := k.IER_RXBUFF
  IDR_TXBUFE := k.IDR_RXBUFF
  IMR_TXBUFE := k.IMR_RXBUFF
  SR_TXBUFE := k.SR_RXBUFF

/-- A PDC register name with receive and transmit exchanged; the registers shared
by both directions keep their name. -/
def PdcReg.mirror : PdcReg → PdcReg
  | .RPR => .TPR
  | .RNPR => .TNPR
  | .RCR => .TCR
  | .RNCR => .TNCR
  | .TPR => .RPR
  | .TNPR => .RNPR
  | .TCR => .RCR
  | .TNCR => .RNCR
  | .PTCR => .PTCR
  | .IER => .IER
  | .IDR => .IDR

/-- A PDC register file with the receive and the transmit registers exchanged. -/
def PdcRegs.mirror (s : PdcRegs) : PdcRegs where
  PERIPH_RPR := s.PERIPH_TPR
  PERIPH_RCR := s.PERIPH_TCR
  PERIPH_RNPR := s.PERIPH_TNPR
  PERIPH_RNCR := s.PERIPH_TNCR
  PERIPH_TPR := s.PERIPH_RPR
  PERIPH_TCR := s.PERIPH_RCR
  PERIPH_TNPR := s.PERIPH_RNPR
  PERIPH_TNCR := s.PERIPH_RNCR
  rxten := s.txten
  txten := s.rxten
  IMR := s.IMR
  SR := s.SR

/-- A PDC machine state with receive and transmit exchanged, in the registers and
in the register names of the write record. -/
def Pdc.mirror (m : Pdc) : Pdc where
  regs := m.regs.mirror
  log := m.log.map (fun e => (e.1.mirror, e.2))

/-- A hardware record with the receive and the transmit entries exchanged. -/
def XdmacHw.mirror (hw : XdmacHw) : XdmacHw where
  xdmaRxPeripheralId := hw.xdmaTxPeripheralId
  xdmaTxPeripheralId := hw.xdmaRxPeripheralId
  xdmaRxChannelNumber := hw.xdmaTxChannelNumber
  xdmaTxChannelNumber := hw.xdmaRxChannelNumber
  xdmaPeripheralRxAddress := hw.xdmaPeripheralTxAddress
  xdmaPeripheralTxAddress := hw.xdmaPeripheralRxAddress

/-- An XDMAC register name with the source and the destination address register
exchanged: the memory side of a transfer is `XDMAC_CDA` on receive and
`XDMAC_CSA` on transmit. -/
def XdmacReg.mirror : XdmacReg → XdmacReg
  | .CSA ch => .CDA ch
  | .CDA ch => .CSA ch
  | r => r

/-- A channel block with the source and the destination address exchanged. -/
def XdmacChid.mirror (c : XdmacChid) : XdmacChid :=
  { c with XDMAC_CSA := c.XDMAC_CDA, XDMAC_CDA := c.XDMAC_CSA }

/-- An XDMAC register file with the two address registers of every channel block
exchanged. -/
def XdmacRegs.mirror (s : XdmacRegs) : XdmacRegs where
  XDMAC_CHID := fun ch => (s.XDMAC_CHID ch).mirror
  XDMAC_GS := s.XDMAC_GS

/-- An XDMAC machine state with the two address registers exchanged, in the
registers and in the register names of the write record. -/
def Xdmac.mirror (m : Xdmac) : Xdmac where
  regs := m.regs.mirror
  log := m.log.map (fun e => (e.1.mirror, e.2))

/-! ## Basic facts about register stores -/

theorem mod_word_of_lt {v : Nat} (h : v < 2 ^ 32) : v % WORD = v :=
  Nat.mod_eq_of_lt (by simpa [WORD] using h)

/-! ## `start` on a channel whose current count is zero -/

section PdcLemmas
open DMA_PDC

theorem pdc_startRX_idle (k : PdcConsts) (m : Pdc) (buffer length : Nat) (hi nx : Bool)
    (hidle : m.regs.PERIPH_RCR = 0) (hpos : 0 < length) (hfit : length < 2 ^ 32) :
    (startRXTransfer k buffer length hi nx m).1 = true ∧
    leftToRead false (startRXTransfer k buffer length hi nx m).2 = length := by
  have hne : length ≠ 0 := by omega
  cases hi <;>
  simp [startRXTransfer, doneReading, leftToRead, hidle, hne, setRx, enableRx,
    startRxDoneInterrupts, stopRxDoneInterrupts, Pdc.write, hwWrite, mod_word_of_lt hfit]

theorem pdc_startTX_idle (k : PdcConsts) (m : Pdc) (buffer length : Nat) (hi nx : Bool)
    (hidle : m.regs.PERIPH_TCR = 0) (hpos : 0 < length) (hfit : length < 2 ^ 32) :
    (startTXTransfer k buffer length hi nx m).1 = true ∧
    leftToWrite false (startTXTransfer k buffer length hi nx m).2 = length := by
  have hne : length ≠ 0 := by omega
  cases hi <;>
  simp [startTXTransfer, doneWriting, leftToWrite, hidle, hne, setTx, enableTx,
    startTxDoneInterrupts, stopTxDoneInterrupts, Pdc.write, hwWrite, mod_word_of_lt hfit]

end PdcLemmas

section XdmacLemmas
open DMA_XDMAC

theorem xdmac_startRX_idle (k : XdmacConsts) (hw : XdmacHw) (m : Xdmac) (buffer length : Nat)
    (hi nx : Bool) (hidle : (xdmaRxChannel hw m).XDMAC_CUBC = 0) (hpos : 0 < length)
    (hfit : length < 2 ^ 32) :
    (startRXTransfer k hw buffer length hi nx m).1 = true ∧
    leftToRead hw false (startRXTransfer k hw buffer length hi nx m).2 = length := by
  have hne : length ≠ 0 := by omega
  simp only [xdmaRxChannel] at hidle
  cases hi <;>
  simp [startRXTransfer, doneReading, leftToRead, xdmaRxChannel, hidle, hne, setRx, enableRx,
    startRxDoneInterrupts, stopRxDoneInterrupts, Xdmac.write, xdmacHwWrite,
    XdmacRegs.onChannel, mod_word_of_lt hfit]

theorem xdmac_startTX_idle (k : XdmacConsts) (hw : XdmacHw) (m : Xdmac) (buffer length : Nat)
    (hi nx : Bool) (hidle : (xdmaTxChannel hw m).XDMAC_CUBC = 0) (hpos : 0 < length)
    (hfit : length < 2 ^ 32) :
    (startTXTransfer k hw buffer length hi nx m).1 = true ∧
    leftToWrite hw false (startTXTransfer k hw buffer length hi nx m).2 = length := by
  have hne : length ≠ 0 := by omega
  simp only [xdmaTxChannel] at hidle
  cases hi <;>
  simp [startTXTransfer, doneWriting, leftToWrite, xdmaTxChannel, hidle, hne, setTx, enableTx,
    startTxDoneInterrupts, stopTxDoneInterrupts, Xdmac.write, xdmacHwWrite,
    XdmacRegs.onChannel, mod_word_of_lt hfit]

end XdmacLemmas

/-- C1: on both backends and in both directions, from any register state whose
current count is 0, `startRXTransfer` / `startTXTransfer` with a length
`0 < length < 2 ^ 32` (so in particular every non-zero length that fits the count
register), any buffer and any flags returns `true`, and `leftToRead(false)` /
`leftToWrite(false)` of the state at return is exactly `length`. -/
theorem C1_start_on_idle_reports_length (k : PdcConsts) (xk : XdmacConsts) (hw : XdmacHw) :
    (∀ (m : Pdc) (buffer length : Nat) (hi nx : Bool),
      m.regs.PERIPH_RCR = 0 → 0 < length → length < 2 ^ 32 →
      (DMA_PDC.startRXTransfer k buffer length hi nx m).1 = true ∧
      DMA_PDC.leftToRead false (DMA_PDC.startRXTransfer k buffer length hi nx m).2 = length) ∧
    (∀ (m : Pdc) (buffer length : Nat) (hi nx : Bool),
      m.regs.PERIPH_TCR = 0 → 0 < length → length < 2 ^ 32 →
      (DMA_PDC.startTXTransfer k buffer length hi nx m).1 = true ∧
      DMA_PDC.leftToWrite false (DMA_PDC.startTXTransfer k buffer length hi nx m).2 = length) ∧
    (∀ (m : Xdmac) (buffer length : Nat) (hi nx : Bool),
      (DMA_XDMAC.xdmaRxChannel hw m).XDMAC_CUBC = 0 → 0 < length → length < 2 ^ 32 →
      (DMA_XDMAC.startRXTransfer xk hw buffer length hi nx m).1 = true ∧
      DMA_XDMAC.leftToRead hw false
        (DMA_XDMAC.startRXTransfer xk hw buffer length hi nx m).2 = length) ∧
    (∀ (m : Xdmac) (buffer length : Nat) (hi nx : Bool),
      (DMA_XDMAC.xdmaTxChannel hw m).XDMAC_CUBC = 0 → 0 < length → length < 2 ^ 32 →
      (DMA_XDMAC.startTXTransfer xk hw buffer length hi nx m).1 = true ∧
      DMA_XDMAC.leftToWrite hw false
        (DMA_XDMAC.startTXTransfer xk hw buffer length hi nx m).2 = length) :=
  ⟨fun m b l hi nx h0 hp hf => pdc_startRX_idle k m b l hi nx h0 hp hf,
   fun m b l hi nx h0 hp hf => pdc_startTX_idle k m b l hi nx h0 hp hf,
   fun m b l hi nx h0 hp hf => xdmac_startRX_idle xk hw m b l hi nx h0 hp hf,
   fun m b l hi nx h0 hp hf => xdmac_startTX_idle xk hw m b l hi nx h0 hp hf⟩

/-- Instance of C1: a 100-unit receive on a zeroed PDC and a 100-unit transmit on
an idle XDMAC channel of USART 0. -/
theorem C1_start_on_idle_reports_length_witness :
    (pdcZero.regs.PERIPH_RCR = 0 ∧ 0 < 100 ∧ 100 < 2 ^ 32 ∧
      (DMA_PDC.startRXTransfer samPdcConsts 0x20001000 100 true false pdcZero).1 = true ∧
      DMA_PDC.leftToRead false
        (DMA_PDC.startRXTransfer samPdcConsts 0x20001000 100 true false pdcZero).2 = 100) ∧
    ((DMA_XDMAC.xdmaTxChannel usart0Hw (xdmacAll 0 0 0)).XDMAC_CUBC = 0 ∧
      (DMA_XDMAC.startTXTransfer samXdmacConsts usart0Hw 0x20001000 100 true false
        (xdmacAll 0 0 0)).1 = true ∧
      DMA_XDMAC.leftToWrite usart0Hw false
        (DMA_XDMAC.startTXTransfer samXdmacConsts usart0Hw 0x20001000 100 true false
          (xdmacAll 0 0 0)).2 = 100) :=
  ⟨⟨rfl, by decide, by decide,
    (C1_start_on_idle_reports_length samPdcConsts samXdmacConsts usart0Hw).1
      pdcZero 0x20001000 100 true false rfl (by decide) (by decide)⟩,
   ⟨rfl,
    (C1_start_on_idle_reports_length samPdcConsts samXdmacConsts usart0Hw).2.2.2
      (xdmacAll 0 0 0) 0x20001000 100 true false rfl (by decide) (by decide)⟩⟩


/-! ## `start` with a zero length -/

section PdcLemmas
open DMA_PDC

theorem pdc_startRX_zero (k : PdcConsts) (m : Pdc) (buffer : Nat) (hi nx : Bool) :
    doneReading false (startRXTransfer k buffer 0 hi nx m).2 = doneReading false m ∧
    doneReadingNext (startRXTransfer k buffer 0 hi nx m).2 = doneReadingNext m ∧
    (doneReading false m = true ∨ nx = false ∨ doneReadingNext m = false →
      (startRXTransfer k buffer 0 hi nx m).1 = false) := by
  by_cases h : m.regs.PERIPH_RCR = 0 <;> by_cases hn : m.regs.PERIPH_RNCR = 0 <;>
    cases hi <;> cases nx <;>
    simp [startRXTransfer, doneReading, doneReadingNext, leftToRead, leftToReadNext, h, hn,
      setRx, setNextRx, stopRxDoneInterrupts, Pdc.write, hwWrite, WORD]

theorem pdc_startTX_zero (k : PdcConsts) (m : Pdc) (buffer : Nat) (hi nx : Bool) :
    doneWriting false (startTXTransfer k buffer 0 hi nx m).2 = doneWriting false m ∧
    doneWritingNext (startTXTransfer k buffer 0 hi nx m).2 = doneWritingNext m ∧
    (doneWriting false m = true ∨ nx = false ∨ doneWritingNext m = false →
      (startTXTransfer k buffer 0 hi nx m).1 = false) := by
  by_cases h : m.regs.PERIPH_TCR = 0 <;> by_cases hn : m.regs.PERIPH_TNCR = 0 <;>
    cases hi <;> cases nx <;>
    simp [startTXTransfer, doneWriting, doneWritingNext, leftToWrite, leftToWriteNext, h, hn,
      setTx, setNextTx, stopTxDoneInterrupts, Pdc.write, hwWrite, WORD]

end PdcLemmas

section XdmacLemmas
open DMA_XDMAC

theorem xdmac_startRX_zero (k : XdmacConsts) (hw : XdmacHw) (m : Xdmac) (buffer : Nat)
    (hi nx : Bool) :
    doneReading hw false (startRXTransfer k hw buffer 0 hi nx m).2 = doneReading hw false m ∧
    doneReadingNext hw (startRXTransfer k hw buffer 0 hi nx m).2 = doneReadingNext hw m ∧
    (doneReading hw false m = true ∨ nx = false →
      (startRXTransfer k hw buffer 0 hi nx m).1 = false) := by
  by_cases h : (m.regs.XDMAC_CHID hw.xdmaRxChannelNumber).XDMAC_CUBC = 0 <;>
    cases hi <;> cases nx <;>
    simp [startRXTransfer, doneReading, doneReadingNext, leftToRead, leftToReadNext,
      xdmaRxChannel, h, setRx, setNextRx, stopRxDoneInterrupts, Xdmac.write, xdmacHwWrite,
      XdmacRegs.onChannel, WORD]

theorem xdmac_startTX_zero (k : XdmacConsts) (hw : XdmacHw) (m : Xdmac) (buffer : Nat)
    (hi nx : Bool) :
    doneWriting hw false (startTXTransfer k hw buffer 0 hi nx m).2 = doneWriting hw false m ∧
    doneWritingNext hw (startTXTransfer k hw buffer 0 hi nx m).2 = doneWritingNext hw m ∧
    (doneWriting hw false m = true ∨ nx = false →
      (startTXTransfer k hw buffer 0 hi nx m).1 = false) := by
  by_cases h : (m.regs.XDMAC_CHID hw.xdmaTxChannelNumber).XDMAC_CUBC = 0 <;>
    cases hi <;> cases nx <;>
    simp [startTXTransfer, doneWriting, doneWritingNext, leftToWrite, leftToWriteNext,
      xdmaTxChannel, h, setTx, setNextTx, stopTxDoneInterrupts, Xdmac.write, xdmacHwWrite,
      XdmacRegs.onChannel, WORD]

end XdmacLemmas

/-- C2, as stated, fails: on a PDC receive channel with 5 units in flight and no
queued buffer, `startRXTransfer(buffer, 0, true, true)` takes the pending-slot
branch and does not return `false`. -/
theorem C2_zero_length_not_always_false :
    ¬ ((DMA_PDC.startRXTransfer samPdcConsts 0x20001000 0 true true (pdcBusy 5 0)).1 = false) := by
  decide

/-- C2, amended: on both backends and in both directions, for every register
state, buffer and flags, `start` with `length == 0` leaves the occupancy unchanged
(whether the current count is zero, whether the pending count is zero), and it
returns `false` whenever the current count is zero, or `include_next` is false, or
(PDC) the pending count is non-zero. -/
theorem C2_zero_length_start (k : PdcConsts) (xk : XdmacConsts) (hw : XdmacHw) :
    (∀ (m : Pdc) (buffer : Nat) (hi nx : Bool),
      DMA_PDC.doneReading false (DMA_PDC.startRXTransfer k buffer 0 hi nx m).2
        = DMA_PDC.doneReading false m ∧
      DMA_PDC.doneReadingNext (DMA_PDC.startRXTransfer k buffer 0 hi nx m).2
        = DMA_PDC.doneReadingNext m ∧
      (DMA_PDC.doneReading false m = true ∨ nx = false ∨ DMA_PDC.doneReadingNext m = false →
        (DMA_PDC.startRXTransfer k buffer 0 hi nx m).1 = false)) ∧
    (∀ (m : Pdc) (buffer : Nat) (hi nx : Bool),
      DMA_PDC.doneWriting false (DMA_PDC.startTXTransfer k buffer 0 hi nx m).2
        = DMA_PDC.doneWriting false m ∧
      DMA_PDC.doneWritingNext (DMA_PDC.startTXTransfer k buffer 0 hi nx m).2
        = DMA_PDC.doneWritingNext m ∧
      (DMA_PDC.doneWriting false m = true ∨ nx = false ∨ DMA_PDC.doneWritingNext m = false →
        (DMA_PDC.startTXTransfer k buffer 0 hi nx m).1 = false)) ∧
    (∀ (m : Xdmac) (buffer : Nat) (hi nx : Bool),
      DMA_XDMAC.doneReading hw false (DMA_XDMAC.startRXTransfer xk hw buffer 0 hi nx m).2
        = DMA_XDMAC.doneReading hw false m ∧
      DMA_XDMAC.doneReadingNext hw (DMA_XDMAC.startRXTransfer xk hw buffer 0 hi nx m).2
        = DMA_XDMAC.doneReadingNext hw m ∧
      (DMA_XDMAC.doneReading hw false m = true ∨ nx = false →
        (DMA_XDMAC.startRXTransfer xk hw buffer 0 hi nx m).1 = false)) ∧
    (∀ (m : Xdmac) (buffer : Nat) (hi nx : Bool),
      DMA_XDMAC.doneWriting hw false (DMA_XDMAC.startTXTransfer xk hw buffer 0 hi nx m).2
        = DMA_XDMAC.doneWriting hw false m ∧
      DMA_XDMAC.doneWritingNext hw (DMA_XDMAC.startTXTransfer xk hw buffer 0 hi nx m).2
        = DMA_XDMAC.doneWritingNext hw m ∧
      (DMA_XDMAC.doneWriting hw false m = true ∨ nx = false →
        (DMA_XDMAC.startTXTransfer xk hw buffer 0 hi nx m).1 = false)) :=
  ⟨pdc_startRX_zero k, pdc_startTX_zero k, xdmac_startRX_zero xk hw, xdmac_startTX_zero xk hw⟩

/-- Instance of C2 (amended): a zero-length receive request without `include_next`
on a busy PDC channel with a queued buffer returns `false` and keeps both slots
occupied. -/
theorem C2_zero_length_start_witness :
    (DMA_PDC.doneReading false (pdcBusy 5 7) = true ∨ false = false ∨
      DMA_PDC.doneReadingNext (pdcBusy 5 7) = false) ∧
    (DMA_PDC.startRXTransfer samPdcConsts 0x20001000 0 true false (pdcBusy 5 7)).1 = false ∧
    DMA_PDC.doneReading false
      (DMA_PDC.startRXTransfer samPdcConsts 0x20001000 0 true false (pdcBusy 5 7)).2 = false :=
  ⟨Or.inr (Or.inl rfl),
   ((C2_zero_length_start samPdcConsts samXdmacConsts usart0Hw).1
      (pdcBusy 5 7) 0x20001000 true false).2.2 (Or.inr (Or.inl rfl)),
   by decide⟩


/-! ## Queuing behind a transfer in flight (PDC) -/

section PdcLemmas
open DMA_PDC

theorem pdc_startRX_queue (k : PdcConsts) (m : Pdc) (buffer newLength : Nat) (hi : Bool)
    (hbusy : m.regs.PERIPH_RCR ≠ 0) (hfree : m.regs.PERIPH_RNCR = 0) :
    (startRXTransfer k buffer newLength hi true m).1 = true ∧
    (startRXTransfer k buffer newLength hi true m).2.regs.PERIPH_RPR = m.regs.PERIPH_RPR ∧
    (startRXTransfer k buffer newLength hi true m).2.regs.PERIPH_RCR = m.regs.PERIPH_RCR ∧
    leftToRead true (startRXTransfer k buffer newLength hi true m).2
      = (leftToRead false (startRXTransfer k buffer newLength hi true m).2 + newLength) % WORD ∧
    (∀ w : Nat, w < 32 → m.regs.PERIPH_RCR < 2 ^ w → newLength < 2 ^ w →
      leftToRead true (startRXTransfer k buffer newLength hi true m).2
        = leftToRead false (startRXTransfer k buffer newLength hi true m).2 + newLength) := by
  have hs : startRXTransfer k buffer newLength hi true m = (true, setNextRx k buffer newLength m) := by
    simp [startRXTransfer, doneReading, doneReadingNext, leftToRead, leftToReadNext, hbusy, hfree]
  have ht : leftToRead true (setNextRx k buffer newLength m)
      = (m.regs.PERIPH_RCR + newLength) % WORD := by
    simp [leftToRead, setNextRx, Pdc.write, hwWrite]
  have hf : leftToRead false (setNextRx k buffer newLength m) = m.regs.PERIPH_RCR := by
    simp [leftToRead, setNextRx, Pdc.write, hwWrite]
  rw [hs]
  refine ⟨rfl, by simp [setNextRx, Pdc.write, hwWrite], by simp [setNextRx, Pdc.write, hwWrite],
    by rw [ht, hf], ?_⟩
  intro w hw hcur hlen
  have hpow : 2 ^ w ≤ 2 ^ 31 := Nat.pow_le_pow_right (by decide) (by omega)
  rw [ht, hf]
  exact Nat.mod_eq_of_lt (by simp only [WORD]; omega)

theorem pdc_startTX_queue (k : PdcConsts) (m : Pdc) (buffer newLength : Nat) (hi : Bool)
    (hbusy : m.regs.PERIPH_TCR ≠ 0) (hfree : m.regs.PERIPH_TNCR = 0) :
    (startTXTransfer k buffer newLength hi true m).1 = true ∧
    (startTXTransfer k buffer newLength hi true m).2.regs.PERIPH_TPR = m.regs.PERIPH_TPR ∧
    (startTXTransfer k buffer newLength hi true m).2.regs.PERIPH_TCR = m.regs.PERIPH_TCR ∧
    leftToWrite true (startTXTransfer k buffer newLength hi true m).2
      = (leftToWrite false (startTXTransfer k buffer newLength hi true m).2 + newLength) % WORD ∧
    (∀ w : Nat, w < 32 → m.regs.PERIPH_TCR < 2 ^ w → newLength < 2 ^ w →
      leftToWrite true (startTXTransfer k buffer newLength hi true m).2
        = leftToWrite false (startTXTransfer k buffer newLength hi true m).2 + newLength) := by
  have hs : startTXTransfer k buffer newLength hi true m = (true, setNextTx k buffer newLength m) := by
    simp [startTXTransfer, doneWriting, doneWritingNext, leftToWrite, leftToWriteNext, hbusy,
      hfree]
  have ht : leftToWrite true (setNextTx k buffer newLength m)
      = (m.regs.PERIPH_TCR + newLength) % WORD := by
    simp [leftToWrite, setNextTx, Pdc.write, hwWrite]
  have hf : leftToWrite false (setNextTx k buffer newLength m) = m.regs.PERIPH_TCR := by
    simp [leftToWrite, setNextTx, Pdc.write, hwWrite]
  rw [hs]
  refine ⟨rfl, by simp [setNextTx, Pdc.write, hwWrite], by simp [setNextTx, Pdc.write, hwWrite],
    by rw [ht, hf], ?_⟩
  intro w hw hcur hlen
  have hpow : 2 ^ w ≤ 2 ^ 31 := Nat.pow_le_pow_right (by decide) (by omega)
  rw [ht, hf]
  exact Nat.mod_eq_of_lt (by simp only [WORD]; omega)

end PdcLemmas

/-- C3: on the PDC backend, in both directions, from every state whose current
count is non-zero and whose next count is zero, `start(buffer, newLength,
handle_interrupts, include_next = true)` returns `true`, leaves the current
pointer and the current count unchanged, and afterwards `leftToRead(true)` /
`leftToWrite(true)` equals `leftToRead(false)` / `leftToWrite(false)` plus
`newLength`: as the `uint32_t` sum for every state and length, and as the exact
integer sum whenever the current count and `newLength` fit a count register of
`w < 32` bits (16 on the device). -/
theorem C3_pdc_queue_next (k : PdcConsts) :
    (∀ (m : Pdc) (buffer newLength : Nat) (hi : Bool),
      m.regs.PERIPH_RCR ≠ 0 → m.regs.PERIPH_RNCR = 0 →
      (DMA_PDC.startRXTransfer k buffer newLength hi true m).1 = true ∧
      (DMA_PDC.startRXTransfer k buffer newLength hi true m).2.regs.PERIPH_RPR
        = m.regs.PERIPH_RPR ∧
      (DMA_PDC.startRXTransfer k buffer newLength hi true m).2.regs.PERIPH_RCR
        = m.regs.PERIPH_RCR ∧
      DMA_PDC.leftToRead true (DMA_PDC.startRXTransfer k buffer newLength hi true m).2
        = (DMA_PDC.leftToRead false (DMA_PDC.startRXTransfer k buffer newLength hi true m).2
            + newLength) % WORD ∧
      (∀ w : Nat, w < 32 → m.regs.PERIPH_RCR < 2 ^ w → newLength < 2 ^ w →
        DMA_PDC.leftToRead true (DMA_PDC.startRXTransfer k buffer newLength hi true m).2
          = DMA_PDC.leftToRead false (DMA_PDC.startRXTransfer k buffer newLength hi true m).2
            + newLength)) ∧
    (∀ (m : Pdc) (buffer newLength : Nat) (hi : Bool),
      m.regs.PERIPH_TCR ≠ 0 → m.regs.PERIPH_TNCR = 0 →
      (DMA_PDC.startTXTransfer k buffer newLength hi true m).1 = true ∧
      (DMA_PDC.startTXTransfer k buffer newLength hi true m).2.regs.PERIPH_TPR
        = m.regs.PERIPH_TPR ∧
      (DMA_PDC.startTXTransfer k buffer newLength hi true m).2.regs.PERIPH_TCR
        = m.regs.PERIPH_TCR ∧
      DMA_PDC.leftToWrite true (DMA_PDC.startTXTransfer k buffer newLength hi true m).2
        = (DMA_PDC.leftToWrite false (DMA_PDC.startTXTransfer k buffer newLength hi true m).2
            + newLength) % WORD ∧
      (∀ w : Nat, w < 32 → m.regs.PERIPH_TCR < 2 ^ w → newLength < 2 ^ w →
        DMA_PDC.leftToWrite true (DMA_PDC.startTXTransfer k buffer newLength hi true m).2
          = DMA_PDC.leftToWrite false (DMA_PDC.startTXTransfer k buffer newLength hi true m).2
            + newLength)) :=
  ⟨fun m b l hi h1 h2 => pdc_startRX_queue k m b l hi h1 h2,
   fun m b l hi h1 h2 => pdc_startTX_queue k m b l hi h1 h2⟩

/-- Instance of C3: 100 units in flight on the receive side, a 50-unit buffer is
queued; the total left is 150. -/
theorem C3_pdc_queue_next_witness :
    ((pdcBusy 100 0).regs.PERIPH_RCR ≠ 0 ∧ (pdcBusy 100 0).regs.PERIPH_RNCR = 0 ∧
      16 < 32 ∧ (pdcBusy 100 0).regs.PERIPH_RCR < 2 ^ 16 ∧ 50 < 2 ^ 16) ∧
    (DMA_PDC.startRXTransfer samPdcConsts 0x20001000 50 true true (pdcBusy 100 0)).1 = true ∧
    DMA_PDC.leftToRead true
      (DMA_PDC.startRXTransfer samPdcConsts 0x20001000 50 true true (pdcBusy 100 0)).2
      = DMA_PDC.leftToRead false
          (DMA_PDC.startRXTransfer samPdcConsts 0x20001000 50 true true (pdcBusy 100 0)).2
        + 50 :=
  have h := (C3_pdc_queue_next samPdcConsts).1 (pdcBusy 100 0) 0x20001000 50 true
    (by decide) rfl
  ⟨⟨by decide, rfl, by decide, by decide, by decide⟩, h.1,
   h.2.2.2.2 16 (by decide) (by decide) (by decide)⟩

/-! ## A `true` result and the stored descriptor -/

section PdcLemmas
open DMA_PDC

theorem pdc_startRX_true_stored (k : PdcConsts) (m : Pdc) (buffer length : Nat) (hi nx : Bool)
    (hbuf : buffer < 2 ^ 32) (hlen : length < 2 ^ 32)
    (hret : (startRXTransfer k buffer length hi nx m).1 = true) :
    ((startRXTransfer k buffer length hi nx m).2.regs.PERIPH_RPR = buffer ∧
      (startRXTransfer k buffer length hi nx m).2.regs.PERIPH_RCR = length ∧
      leftToRead true (startRXTransfer k buffer length hi nx m).2
        = (length + m.regs.PERIPH_RNCR) % WORD) ∨
    ((startRXTransfer k buffer length hi nx m).2.regs.PERIPH_RNPR = buffer ∧
      (startRXTransfer k buffer length hi nx m).2.regs.PERIPH_RNCR = length ∧
      leftToRead true (startRXTransfer k buffer length hi nx m).2
        = (m.regs.PERIPH_RCR + length) % WORD) := by
  have hb := mod_word_of_lt hbuf
  have hl := mod_word_of_lt hlen
  revert hret
  by_cases h : m.regs.PERIPH_RCR = 0 <;> by_cases hn : m.regs.PERIPH_RNCR = 0 <;>
    by_cases h0 : length = 0 <;> cases hi <;> cases nx <;>
    simp [startRXTransfer, doneReading, doneReadingNext, leftToRead, leftToReadNext, h, hn, h0,
      setRx, setNextRx, enableRx, startRxDoneInterrupts, stopRxDoneInterrupts, Pdc.write,
      hwWrite, hb, hl]

theorem pdc_startTX_true_stored (k : PdcConsts) (m : Pdc) (buffer length : Nat) (hi nx : Bool)
    (hbuf : buffer < 2 ^ 32) (hlen : length < 2 ^ 32)
    (hret : (startTXTransfer k buffer length hi nx m).1 = true) :
    ((startTXTransfer k buffer length hi nx m).2.regs.PERIPH_TPR = buffer ∧
      (startTXTransfer k buffer length hi nx m).2.regs.PERIPH_TCR = length ∧
      leftToWrite true (startTXTransfer k buffer length hi nx m).2
        = (length + m.regs.PERIPH_TNCR) % WORD) ∨
    ((startTXTransfer k buffer length hi nx m).2.regs.PERIPH_TNPR = buffer ∧
      (startTXTransfer k buffer length hi nx m).2.regs.PERIPH_TNCR = length ∧
      leftToWrite true (startTXTransfer k buffer length hi nx m).2
        = (m.regs.PERIPH_TCR + length) % WORD) := by
  have hb := mod_word_of_lt hbuf
  have hl := mod_word_of_lt hlen
  revert hret
  by_cases h : m.regs.PERIPH_TCR = 0 <;> by_cases hn : m.regs.PERIPH_TNCR = 0 <;>
    by_cases h0 : length = 0 <;> cases hi <;> cases nx <;>
    simp [startTXTransfer, doneWriting, doneWritingNext, leftToWrite, leftToWriteNext, h, hn, h0,
      setTx, setNextTx, enableTx, startTxDoneInterrupts, stopTxDoneInterrupts, Pdc.write,
      hwWrite, hb, hl]

end PdcLemmas

section XdmacLemmas
open DMA_XDMAC

theorem xdmac_startRX_true_stored (k : XdmacConsts) (hw : XdmacHw) (m : Xdmac)
    (buffer length : Nat) (hi nx : Bool) (hbuf : buffer < 2 ^ 32) (hlen : length < 2 ^ 32)
    (hpath : nx = false ∨ (xdmaRxChannel hw m).XDMAC_CUBC = 0)
    (hret : (startRXTransfer k hw buffer length hi nx m).1 = true) :
    (xdmaRxChannel hw (startRXTransfer k hw buffer length hi nx m).2).XDMAC_CDA = buffer ∧
    (xdmaRxChannel hw (startRXTransfer k hw buffer length hi nx m).2).XDMAC_CUBC = length ∧
    leftToRead hw true (startRXTransfer k hw buffer length hi nx m).2 = length := by
  have hb := mod_word_of_lt hbuf
  have hl := mod_word_of_lt hlen
  revert hret hpath
  by_cases h : (m.regs.XDMAC_CHID hw.xdmaRxChannelNumber).XDMAC_CUBC = 0 <;>
    by_cases h0 : length = 0 <;> cases hi <;> cases nx <;>
    simp [startRXTransfer, doneReading, doneReadingNext, leftToRead, leftToReadNext,
      xdmaRxChannel, h, h0, setRx, setNextRx, enableRx, startRxDoneInterrupts,
      stopRxDoneInterrupts, Xdmac.write, xdmacHwWrite, XdmacRegs.onChannel, hb, hl]

theorem xdmac_startTX_true_stored (k : XdmacConsts) (hw : XdmacHw) (m : Xdmac)
    (buffer length : Nat) (hi nx : Bool) (hbuf : buffer < 2 ^ 32) (hlen : length < 2 ^ 32)
    (hpath : nx = false ∨ (xdmaTxChannel hw m).XDMAC_CUBC = 0)
    (hret : (startTXTransfer k hw buffer length hi nx m).1 = true) :
    (xdmaTxChannel hw (startTXTransfer k hw buffer length hi nx m).2).XDMAC_CSA = buffer ∧
    (xdmaTxChannel hw (startTXTransfer k hw buffer length hi nx m).2).XDMAC_CUBC = length ∧
    leftToWrite hw true (startTXTransfer k hw buffer length hi nx m).2 = length := by
  have hb := mod_word_of_lt hbuf
  have hl := mod_word_of_lt hlen
  revert hret hpath
  by_cases h : (m.regs.XDMAC_CHID hw.xdmaTxChannelNumber).XDMAC_CUBC = 0 <;>
    by_cases h0 : length = 0 <;> cases hi <;> cases nx <;>
    simp [startTXTransfer, doneWriting, doneWritingNext, leftToWrite, leftToWriteNext,
      xdmaTxChannel, h, h0, setTx, setNextTx, enableTx, startTxDoneInterrupts,
      stopTxDoneInterrupts, Xdmac.write, xdmacHwWrite, XdmacRegs.onChannel, hb, hl]

end XdmacLemmas

/-- C4, as stated, fails on the XDMAC backend: on a receive channel with 5 units
in flight, `startRXTransfer(0x20001000, 8, true, include_next = true)` returns
`true` although it writes no register: the state at return is the state at the
call, the current slot does not hold the buffer, the pending length reads 0 and
`leftToRead(true)` is still 5. -/
theorem C4_xdmac_true_without_store :
    (DMA_XDMAC.startRXTransfer samXdmacConsts usart0Hw 0x20001000 8 true true
      (xdmacAll 0x20000000 5 2)).1 = true ∧
    (DMA_XDMAC.startRXTransfer samXdmacConsts usart0Hw 0x20001000 8 true true
      (xdmacAll 0x20000000 5 2)).2 = xdmacAll 0x20000000 5 2 ∧
    ¬ ((DMA_XDMAC.xdmaRxChannel usart0Hw (DMA_XDMAC.startRXTransfer samXdmacConsts usart0Hw
          0x20001000 8 true true (xdmacAll 0x20000000 5 2)).2).XDMAC_CDA = 0x20001000 ∧
       (DMA_XDMAC.xdmaRxChannel usart0Hw (DMA_XDMAC.startRXTransfer samXdmacConsts usart0Hw
          0x20001000 8 true true (xdmacAll 0x20000000 5 2)).2).XDMAC_CUBC = 8) ∧
    DMA_XDMAC.leftToReadNext usart0Hw (DMA_XDMAC.startRXTransfer samXdmacConsts usart0Hw
      0x20001000 8 true true (xdmacAll 0x20000000 5 2)).2 = 0 ∧
    DMA_XDMAC.leftToRead usart0Hw true (DMA_XDMAC.startRXTransfer samXdmacConsts usart0Hw
      0x20001000 8 true true (xdmacAll 0x20000000 5 2)).2 = 5 :=
  ⟨by decide, rfl, by decide, by decide, by decide⟩

/-- C4, amended: whenever `start(buffer, length, ...)` returns `true`, on the PDC
backend (both directions) either the current slot or the pending slot holds
`(buffer, length)` and `remaining(true)` is the 32-bit sum of `length` and the
other slot; on the XDMAC backend (both directions) the same holds with the
current slot, and `remaining(true) == length`, for every call made with
`include_next = false` or on a channel whose current count is zero. -/
theorem C4_true_means_stored (k : PdcConsts) (xk : XdmacConsts) (hw : XdmacHw) :
    (∀ (m : Pdc) (buffer length : Nat) (hi nx : Bool), buffer < 2 ^ 32 → length < 2 ^ 32 →
      (DMA_PDC.startRXTransfer k buffer length hi nx m).1 = true →
      ((DMA_PDC.startRXTransfer k buffer length hi nx m).2.regs.PERIPH_RPR = buffer ∧
        (DMA_PDC.startRXTransfer k buffer length hi nx m).2.regs.PERIPH_RCR = length ∧
        DMA_PDC.leftToRead true (DMA_PDC.startRXTransfer k buffer length hi nx m).2
          = (length + m.regs.PERIPH_RNCR) % WORD) ∨
      ((DMA_PDC.startRXTransfer k buffer length hi nx m).2.regs.PERIPH_RNPR = buffer ∧
        (DMA_PDC.startRXTransfer k buffer length hi nx m).2.regs.PERIPH_RNCR = length ∧
        DMA_PDC.leftToRead true (DMA_PDC.startRXTransfer k buffer length hi nx m).2
          = (m.regs.PERIPH_RCR + length) % WORD)) ∧
    (∀ (m : Pdc) (buffer length : Nat) (hi nx : Bool), buffer < 2 ^ 32 → length < 2 ^ 32 →
      (DMA_PDC.startTXTransfer k buffer length hi nx m).1 = true →
      ((DMA_PDC.startTXTransfer k buffer length hi nx m).2.regs.PERIPH_TPR = buffer ∧
        (DMA_PDC.startTXTransfer k buffer length hi nx m).2.regs.PERIPH_TCR = length ∧
        DMA_PDC.leftToWrite true (DMA_PDC.startTXTransfer k buffer length hi nx m).2
          = (length + m.regs.PERIPH_TNCR) % WORD) ∨
      ((DMA_PDC.startTXTransfer k buffer length hi nx m).2.regs.PERIPH_TNPR = buffer ∧
        (DMA_PDC.startTXTransfer k buffer length hi nx m).2.regs.PERIPH_TNCR = length ∧
        DMA_PDC.leftToWrite true (DMA_PDC.startTXTransfer k buffer length hi nx m).2
          = (m.regs.PERIPH_TCR + length) % WORD)) ∧
    (∀ (m : Xdmac) (buffer length : Nat) (hi nx : Bool), buffer < 2 ^ 32 → length < 2 ^ 32 →
      (nx = false ∨ (DMA_XDMAC.xdmaRxChannel hw m).XDMAC_CUBC = 0) →
      (DMA_XDMAC.startRXTransfer xk hw buffer length hi nx m).1 = true →
      (DMA_XDMAC.xdmaRxChannel hw
        (DMA_XDMAC.startRXTransfer xk hw buffer length hi nx m).2).XDMAC_CDA = buffer ∧
      (DMA_XDMAC.xdmaRxChannel hw
        (DMA_XDMAC.startRXTransfer xk hw buffer length hi nx m).2).XDMAC_CUBC = length ∧
      DMA_XDMAC.leftToRead hw true
        (DMA_XDMAC.startRXTransfer xk hw buffer length hi nx m).2 = length) ∧
    (∀ (m : Xdmac) (buffer length : Nat) (hi nx : Bool), buffer < 2 ^ 32 → length < 2 ^ 32 →
      (nx = false ∨ (DMA_XDMAC.xdmaTxChannel hw m).XDMAC_CUBC = 0) →
      (DMA_XDMAC.startTXTransfer xk hw buffer length hi nx m).1 = true →
      (DMA_XDMAC.xdmaTxChannel hw
        (DMA_XDMAC.startTXTransfer xk hw buffer length hi nx m).2).XDMAC_CSA = buffer ∧
      (DMA_XDMAC.xdmaTxChannel hw
        (DMA_XDMAC.startTXTransfer xk hw buffer length hi nx m).2).XDMAC_CUBC = length ∧
      DMA_XDMAC.leftToWrite hw true
        (DMA_XDMAC.startTXTransfer xk hw buffer length hi nx m).2 = length) :=
  ⟨fun m b l hi nx hb hl hr => pdc_startRX_true_stored k m b l hi nx hb hl hr,
   fun m b l hi nx hb hl hr => pdc_startTX_true_stored k m b l hi nx hb hl hr,
   fun m b l hi nx hb hl hp hr => xdmac_startRX_true_stored xk hw m b l hi nx hb hl hp hr,
   fun m b l hi nx hb hl hp hr => xdmac_startTX_true_stored xk hw m b l hi nx hb hl hp hr⟩

/-- Instance of C4 (amended): a `true` result of an XDMAC receive start without
`include_next` on an idle channel of USART 0. -/
theorem C4_true_means_stored_witness :
    (0x20001000 < 2 ^ 32 ∧ 8 < 2 ^ 32 ∧
      (false = false ∨ (DMA_XDMAC.xdmaRxChannel usart0Hw (xdmacAll 0 0 0)).XDMAC_CUBC = 0) ∧
      (DMA_XDMAC.startRXTransfer samXdmacConsts usart0Hw 0x20001000 8 true false
        (xdmacAll 0 0 0)).1 = true) ∧
    (DMA_XDMAC.xdmaRxChannel usart0Hw (DMA_XDMAC.startRXTransfer samXdmacConsts usart0Hw
      0x20001000 8 true false (xdmacAll 0 0 0)).2).XDMAC_CDA = 0x20001000 ∧
    (DMA_XDMAC.xdmaRxChannel usart0Hw (DMA_XDMAC.startRXTransfer samXdmacConsts usart0Hw
      0x20001000 8 true false (xdmacAll 0 0 0)).2).XDMAC_CUBC = 8 ∧
    DMA_XDMAC.leftToRead usart0Hw true (DMA_XDMAC.startRXTransfer samXdmacConsts usart0Hw
      0x20001000 8 true false (xdmacAll 0 0 0)).2 = 8 :=
  ⟨⟨by decide, by decide, Or.inl rfl, by decide⟩,
   (C4_true_means_stored samPdcConsts samXdmacConsts usart0Hw).2.2.1
     (xdmacAll 0 0 0) 0x20001000 8 true false (by decide) (by decide) (Or.inl rfl) (by decide)⟩


/-! ## Two descriptors outstanding -/

section PdcLemmas
open DMA_PDC

theorem pdc_startRX_third (k : PdcConsts) (m : Pdc) (A a B b : Nat) (hi1 nx1 hi2 : Bool)
    (hidle : m.regs.PERIPH_RCR = 0) (ha : a ≠ 0) (ha32 : a < 2 ^ 32) (hb : b ≠ 0)
    (hb32 : b < 2 ^ 32)
    (h1 : (startRXTransfer k A a hi1 nx1 m).1 = true)
    (h2 : (startRXTransfer k B b hi2 true (startRXTransfer k A a hi1 nx1 m).2).1 = true)
    (C c : Nat) (hi3 nx3 : Bool) :
    (startRXTransfer k C c hi3 nx3
      (startRXTransfer k B b hi2 true (startRXTransfer k A a hi1 nx1 m).2).2).1 = false := by
  have hma := mod_word_of_lt ha32
  have hmb := mod_word_of_lt hb32
  revert h1 h2
  by_cases hn : m.regs.PERIPH_RNCR = 0 <;> cases hi1 <;>
    simp [startRXTransfer, doneReading, doneReadingNext, leftToRead, leftToReadNext, hidle, hn,
      ha, hb, setRx, setNextRx, enableRx, startRxDoneInterrupts, stopRxDoneInterrupts,
      Pdc.write, hwWrite, hma, hmb]

theorem pdc_startTX_third (k : PdcConsts) (m : Pdc) (A a B b : Nat) (hi1 nx1 hi2 : Bool)
    (hidle : m.regs.PERIPH_TCR = 0) (ha : a ≠ 0) (ha32 : a < 2 ^ 32) (hb : b ≠ 0)
    (hb32 : b < 2 ^ 32)
    (h1 : (startTXTransfer k A a hi1 nx1 m).1 = true)
    (h2 : (startTXTransfer k B b hi2 true (startTXTransfer k A a hi1 nx1 m).2).1 = true)
    (C c : Nat) (hi3 nx3 : Bool) :
    (startTXTransfer k C c hi3 nx3
      (startTXTransfer k B b hi2 true (startTXTransfer k A a hi1 nx1 m).2).2).1 = false := by
  have hma := mod_word_of_lt ha32
  have hmb := mod_word_of_lt hb32
  revert h1 h2
  by_cases hn : m.regs.PERIPH_TNCR = 0 <;> cases hi1 <;>
    simp [startTXTransfer, doneWriting, doneWritingNext, leftToWrite, leftToWriteNext, hidle, hn,
      ha, hb, setTx, setNextTx, enableTx, startTxDoneInterrupts, stopTxDoneInterrupts,
      Pdc.write, hwWrite, hma, hmb]

end PdcLemmas

section XdmacLemmas
open DMA_XDMAC

theorem xdmac_startRX_third (k : XdmacConsts) (hw : XdmacHw) (m : Xdmac) (A a B b : Nat)
    (hi1 nx1 hi2 : Bool) (hidle : (xdmaRxChannel hw m).XDMAC_CUBC = 0) (ha : a ≠ 0)
    (ha32 : a < 2 ^ 32)
    (h1 : (startRXTransfer k hw A a hi1 nx1 m).1 = true)
    (h2 : (startRXTransfer k hw B b hi2 true (startRXTransfer k hw A a hi1 nx1 m).2).1 = true)
    (C c : Nat) (hi3 : Bool) :
    (startRXTransfer k hw C c hi3 false
      (startRXTransfer k hw B b hi2 true (startRXTransfer k hw A a hi1 nx1 m).2).2).1
      = false := by
  have hma := mod_word_of_lt ha32
  simp only [xdmaRxChannel] at hidle
  revert h1 h2
  cases hi1 <;>
    simp [startRXTransfer, doneReading, doneReadingNext, leftToRead, leftToReadNext,
      xdmaRxChannel, hidle, ha, setRx, setNextRx, enableRx, startRxDoneInterrupts,
      stopRxDoneInterrupts, Xdmac.write, xdmacHwWrite, XdmacRegs.onChannel, hma]

theorem xdmac_startTX_third (k : XdmacConsts) (hw : XdmacHw) (m : Xdmac) (A a B b : Nat)
    (hi1 nx1 hi2 : Bool) (hidle : (xdmaTxChannel hw m).XDMAC_CUBC = 0) (ha : a ≠ 0)
    (ha32 : a < 2 ^ 32)
    (h1 : (startTXTransfer k hw A a hi1 nx1 m).1 = true)
    (h2 : (startTXTransfer k hw B b hi2 true (startTXTransfer k hw A a hi1 nx1 m).2).1 = true)
    (C c : Nat) (hi3 : Bool) :
    (startTXTransfer k hw C c hi3 false
      (startTXTransfer k hw B b hi2 true (startTXTransfer k hw A a hi1 nx1 m).2).2).1
      = false := by
  have hma := mod_word_of_lt ha32
  simp only [xdmaTxChannel] at hidle
  revert h1 h2
  cases hi1 <;>
    simp [startTXTransfer, doneWriting, doneWritingNext, leftToWrite, leftToWriteNext,
      xdmaTxChannel, hidle, ha, setTx, setNextTx, enableTx, startTxDoneInterrupts,
      stopTxDoneInterrupts, Xdmac.write, xdmacHwWrite, XdmacRegs.onChannel, hma]

end XdmacLemmas

/-- C5, as stated, fails on the XDMAC backend: from an idle receive channel,
`start(A, 8)` and `start(B, 8, include_next = true)` both return `true`, and a
third `start(C, 8, include_next = true)` with no hardware progress returns `true`
as well. -/
theorem C5_xdmac_third_start_accepted :
    (DMA_XDMAC.xdmaRxChannel usart0Hw (xdmacAll 0 0 0)).XDMAC_CUBC = 0 ∧
    (DMA_XDMAC.startRXTransfer samXdmacConsts usart0Hw 0x20001000 8 true false
      (xdmacAll 0 0 0)).1 = true ∧
    (DMA_XDMAC.startRXTransfer samXdmacConsts usart0Hw 0x20002000 8 true true
      (DMA_XDMAC.startRXTransfer samXdmacConsts usart0Hw 0x20001000 8 true false
        (xdmacAll 0 0 0)).2).1 = true ∧
    ¬ ((DMA_XDMAC.startRXTransfer samXdmacConsts usart0Hw 0x20003000 8 true true
      (DMA_XDMAC.startRXTransfer samXdmacConsts usart0Hw 0x20002000 8 true true
        (DMA_XDMAC.startRXTransfer samXdmacConsts usart0Hw 0x20001000 8 true false
          (xdmacAll 0 0 0)).2).2).1 = false) := by
  decide

/-- C5, amended: starting from a channel whose current count is zero, after two
consecutive `start` calls with non-zero lengths that both return `true` (the
second with `include_next = true`) and no hardware progress in between, on the PDC
backend every third `start` call (any buffer, length and flags) returns `false`,
and on the XDMAC backend every third `start` call with `include_next = false`
returns `false`; in both directions. -/
theorem C5_third_start_rejected (k : PdcConsts) (xk : XdmacConsts) (hw : XdmacHw) :
    (∀ (m : Pdc) (A a B b : Nat) (hi1 nx1 hi2 : Bool),
      m.regs.PERIPH_RCR = 0 → a ≠ 0 → a < 2 ^ 32 → b ≠ 0 → b < 2 ^ 32 →
      (DMA_PDC.startRXTransfer k A a hi1 nx1 m).1 = true →
      (DMA_PDC.startRXTransfer k B b hi2 true (DMA_PDC.startRXTransfer k A a hi1 nx1 m).2).1
        = true →
      ∀ (C c : Nat) (hi3 nx3 : Bool),
        (DMA_PDC.startRXTransfer k C c hi3 nx3
          (DMA_PDC.startRXTransfer k B b hi2 true
            (DMA_PDC.startRXTransfer k A a hi1 nx1 m).2).2).1 = false) ∧
    (∀ (m : Pdc) (A a B b : Nat) (hi1 nx1 hi2 : Bool),
      m.regs.PERIPH_TCR = 0 → a ≠ 0 → a < 2 ^ 32 → b ≠ 0 → b < 2 ^ 32 →
      (DMA_PDC.startTXTransfer k A a hi1 nx1 m).1 = true →
      (DMA_PDC.startTXTransfer k B b hi2 true (DMA_PDC.startTXTransfer k A a hi1 nx1 m).2).1
        = true →
      ∀ (C c : Nat) (hi3 nx3 : Bool),
        (DMA_PDC.startTXTransfer k C c hi3 nx3
          (DMA_PDC.startTXTransfer k B b hi2 true
            (DMA_PDC.startTXTransfer k A a hi1 nx1 m).2).2).1 = false) ∧
    (∀ (m : Xdmac) (A a B b : Nat) (hi1 nx1 hi2 : Bool),
      (DMA_XDMAC.xdmaRxChannel hw m).XDMAC_CUBC = 0 → a ≠ 0 → a < 2 ^ 32 → b ≠ 0 →
      (DMA_XDMAC.startRXTransfer xk hw A a hi1 nx1 m).1 = true →
      (DMA_XDMAC.startRXTransfer xk hw B b hi2 true
        (DMA_XDMAC.startRXTransfer xk hw A a hi1 nx1 m).2).1 = true →
      ∀ (C c : Nat) (hi3 : Bool),
        (DMA_XDMAC.startRXTransfer xk hw C c hi3 false
          (DMA_XDMAC.startRXTransfer xk hw B b hi2 true
            (DMA_XDMAC.startRXTransfer xk hw A a hi1 nx1 m).2).2).1 = false) ∧
    (∀ (m : Xdmac) (A a B b : Nat) (hi1 nx1 hi2 : Bool),
      (DMA_XDMAC.xdmaTxChannel hw m).XDMAC_CUBC = 0 → a ≠ 0 → a < 2 ^ 32 → b ≠ 0 →
      (DMA_XDMAC.startTXTransfer xk hw A a hi1 nx1 m).1 = true →
      (DMA_XDMAC.startTXTransfer xk hw B b hi2 true
        (DMA_XDMAC.startTXTransfer xk hw A a hi1 nx1 m).2).1 = true →
      ∀ (C c : Nat) (hi3 : Bool),
        (DMA_XDMAC.startTXTransfer xk hw C c hi3 false
          (DMA_XDMAC.startTXTransfer xk hw B b hi2 true
            (DMA_XDMAC.startTXTransfer xk hw A a hi1 nx1 m).2).2).1 = false) :=
  ⟨fun m A a B b hi1 nx1 hi2 h0 ha ha32 hb hb32 h1 h2 C c hi3 nx3 =>
     pdc_startRX_third k m A a B b hi1 nx1 hi2 h0 ha ha32 hb hb32 h1 h2 C c hi3 nx3,
   fun m A a B b hi1 nx1 hi2 h0 ha ha32 hb hb32 h1 h2 C c hi3 nx3 =>
     pdc_startTX_third k m A a B b hi1 nx1 hi2 h0 ha ha32 hb hb32 h1 h2 C c hi3 nx3,
   fun m A a B b hi1 nx1 hi2 h0 ha ha32 _ h1 h2 C c hi3 =>
     xdmac_startRX_third xk hw m A a B b hi1 nx1 hi2 h0 ha ha32 h1 h2 C c hi3,
   fun m A a B b hi1 nx1 hi2 h0 ha ha32 _ h1 h2 C c hi3 =>
     xdmac_startTX_third xk hw m A a B b hi1 nx1 hi2 h0 ha ha32 h1 h2 C c hi3⟩

/-- Instance of C5 (amended): on a zeroed PDC, `start(A, 100)` and
`start(B, 50, include_next = true)` succeed and a third receive request with
`include_next = true` is rejected. -/
theorem C5_third_start_rejected_witness :
    (pdcZero.regs.PERIPH_RCR = 0 ∧ 100 ≠ 0 ∧ 100 < 2 ^ 32 ∧ 50 ≠ 0 ∧ 50 < 2 ^ 32 ∧
      (DMA_PDC.startRXTransfer samPdcConsts 0x20001000 100 true false pdcZero).1 = true ∧
      (DMA_PDC.startRXTransfer samPdcConsts 0x20002000 50 true true
        (DMA_PDC.startRXTransfer samPdcConsts 0x20001000 100 true false pdcZero).2).1 = true) ∧
    (DMA_PDC.startRXTransfer samPdcConsts 0x20003000 20 true true
      (DMA_PDC.startRXTransfer samPdcConsts 0x20002000 50 true true
        (DMA_PDC.startRXTransfer samPdcConsts 0x20001000 100 true false pdcZero).2).2).1
      = false :=
  ⟨⟨rfl, by decide, by decide, by decide, by decide, by decide, by decide⟩,
   (C5_third_start_rejected samPdcConsts samXdmacConsts usart0Hw).1 pdcZero
     0x20001000 100 0x20002000 50 true false true rfl (by decide) (by decide) (by decide)
     (by decide) (by decide) (by decide) 0x20003000 20 true true⟩


/-! ## Rejected requests write nothing -/

section PdcLemmas
open DMA_PDC

theorem pdc_startRX_full (k : PdcConsts) (m : Pdc) (buffer length : Nat) (hi nx : Bool)
    (hcur : m.regs.PERIPH_RCR ≠ 0) (hnext : m.regs.PERIPH_RNCR ≠ 0) :
    startRXTransfer k buffer length hi nx m = (false, m) := by
  simp [startRXTransfer, doneReading, doneReadingNext, leftToRead, leftToReadNext, hcur, hnext]

theorem pdc_startTX_full (k : PdcConsts) (m : Pdc) (buffer length : Nat) (hi nx : Bool)
    (hcur : m.regs.PERIPH_TCR ≠ 0) (hnext : m.regs.PERIPH_TNCR ≠ 0) :
    startTXTransfer k buffer length hi nx m = (false, m) := by
  simp [startTXTransfer, doneWriting, doneWritingNext, leftToWrite, leftToWriteNext, hcur, hnext]

theorem pdc_startRX_busy (k : PdcConsts) (m : Pdc) (buffer length : Nat) (hi : Bool)
    (hcur : m.regs.PERIPH_RCR ≠ 0) :
    startRXTransfer k buffer length hi false m = (false, m) := by
  simp [startRXTransfer, doneReading, leftToRead, hcur]

theorem pdc_startTX_busy (k : PdcConsts) (m : Pdc) (buffer length : Nat) (hi : Bool)
    (hcur : m.regs.PERIPH_TCR ≠ 0) :
    startTXTransfer k buffer length hi false m = (false, m) := by
  simp [startTXTransfer, doneWriting, leftToWrite, hcur]

end PdcLemmas

section XdmacLemmas
open DMA_XDMAC

theorem xdmac_startRX_busy (k : XdmacConsts) (hw : XdmacHw) (m : Xdmac) (buffer length : Nat)
    (hi : Bool) (hcur : (xdmaRxChannel hw m).XDMAC_CUBC ≠ 0) :
    startRXTransfer k hw buffer length hi false m = (false, m) := by
  simp [startRXTransfer, doneReading, leftToRead, hcur]

theorem xdmac_startTX_busy (k : XdmacConsts) (hw : XdmacHw) (m : Xdmac) (buffer length : Nat)
    (hi : Bool) (hcur : (xdmaTxChannel hw m).XDMAC_CUBC ≠ 0) :
    startTXTransfer k hw buffer length hi false m = (false, m) := by
  simp [startTXTransfer, doneWriting, leftToWrite, hcur]

end XdmacLemmas

/-- C6: on the PDC backend, in both directions, from every state in which the
current count and the next count are both non-zero, `start` with any buffer,
length and flags returns `false` and the machine state at return (registers and
write record) is the state at the call: no register is written. -/
theorem C6_pdc_both_slots_occupied (k : PdcConsts) :
    (∀ (m : Pdc) (buffer length : Nat) (hi nx : Bool),
      m.regs.PERIPH_RCR ≠ 0 → m.regs.PERIPH_RNCR ≠ 0 →
      DMA_PDC.startRXTransfer k buffer length hi nx m = (false, m)) ∧
    (∀ (m : Pdc) (buffer length : Nat) (hi nx : Bool),
      m.regs.PERIPH_TCR ≠ 0 → m.regs.PERIPH_TNCR ≠ 0 →
      DMA_PDC.startTXTransfer k buffer length hi nx m = (false, m)) :=
  ⟨fun m b l hi nx h1 h2 => pdc_startRX_full k m b l hi nx h1 h2,
   fun m b l hi nx h1 h2 => pdc_startTX_full k m b l hi nx h1 h2⟩

/-- Instance of C6: 5 units in flight and 7 queued in both directions. -/
theorem C6_pdc_both_slots_occupied_witness :
    ((pdcBusy 5 7).regs.PERIPH_RCR ≠ 0 ∧ (pdcBusy 5 7).regs.PERIPH_RNCR ≠ 0 ∧
      DMA_PDC.startRXTransfer samPdcConsts 0x20001000 8 true true (pdcBusy 5 7)
        = (false, pdcBusy 5 7)) ∧
    ((pdcBusy 5 7).regs.PERIPH_TCR ≠ 0 ∧ (pdcBusy 5 7).regs.PERIPH_TNCR ≠ 0 ∧
      DMA_PDC.startTXTransfer samPdcConsts 0x20001000 8 true true (pdcBusy 5 7)
        = (false, pdcBusy 5 7)) :=
  ⟨⟨by decide, by decide,
    (C6_pdc_both_slots_occupied samPdcConsts).1 (pdcBusy 5 7) 0x20001000 8 true true
      (by decide) (by decide)⟩,
   ⟨by decide, by decide,
    (C6_pdc_both_slots_occupied samPdcConsts).2 (pdcBusy 5 7) 0x20001000 8 true true
      (by decide) (by decide)⟩⟩

/-- C7: on both backends and in both directions, from every state whose current
count is non-zero (whatever the pending slot holds), `start` with
`include_next = false`, any buffer, any length and any `handle_interrupts` returns
`false` and the machine state at return is the state at the call (no register is
written); so `remaining(false)` after the call is `remaining(false)` before it. -/
theorem C7_busy_without_include_next (k : PdcConsts) (xk : XdmacConsts) (hw : XdmacHw) :
    (∀ (m : Pdc) (buffer length : Nat) (hi : Bool), m.regs.PERIPH_RCR ≠ 0 →
      DMA_PDC.startRXTransfer k buffer length hi false m = (false, m) ∧
      DMA_PDC.leftToRead false (DMA_PDC.startRXTransfer k buffer length hi false m).2
        = DMA_PDC.leftToRead false m) ∧
    (∀ (m : Pdc) (buffer length : Nat) (hi : Bool), m.regs.PERIPH_TCR ≠ 0 →
      DMA_PDC.startTXTransfer k buffer length hi false m = (false, m) ∧
      DMA_PDC.leftToWrite false (DMA_PDC.startTXTransfer k buffer length hi false m).2
        = DMA_PDC.leftToWrite false m) ∧
    (∀ (m : Xdmac) (buffer length : Nat) (hi : Bool),
      (DMA_XDMAC.xdmaRxChannel hw m).XDMAC_CUBC ≠ 0 →
      DMA_XDMAC.startRXTransfer xk hw buffer length hi false m = (false, m) ∧
      DMA_XDMAC.leftToRead hw false (DMA_XDMAC.startRXTransfer xk hw buffer length hi false m).2
        = DMA_XDMAC.leftToRead hw false m) ∧
    (∀ (m : Xdmac) (buffer length : Nat) (hi : Bool),
      (DMA_XDMAC.xdmaTxChannel hw m).XDMAC_CUBC ≠ 0 →
      DMA_XDMAC.startTXTransfer xk hw buffer length hi false m = (false, m) ∧
      DMA_XDMAC.leftToWrite hw false (DMA_XDMAC.startTXTransfer xk hw buffer length hi false m).2
        = DMA_XDMAC.leftToWrite hw false m) :=
  ⟨fun m b l hi h => ⟨pdc_startRX_busy k m b l hi h, by rw [pdc_startRX_busy k m b l hi h]⟩,
   fun m b l hi h => ⟨pdc_startTX_busy k m b l hi h, by rw [pdc_startTX_busy k m b l hi h]⟩,
   fun m b l hi h =>
     ⟨xdmac_startRX_busy xk hw m b l hi h, by rw [xdmac_startRX_busy xk hw m b l hi h]⟩,
   fun m b l hi h =>
     ⟨xdmac_startTX_busy xk hw m b l hi h, by rw [xdmac_startTX_busy xk hw m b l hi h]⟩⟩

/-- Instance of C7: `start(A, 10)` on a zeroed PDC, then `start(B, 10)` without
`include_next`: the second call is rejected and `leftToRead(false)` is still 10. -/
theorem C7_busy_without_include_next_witness :
    (DMA_PDC.startRXTransfer samPdcConsts 0x20001000 10 true false pdcZero).2.regs.PERIPH_RCR ≠ 0 ∧
    (DMA_PDC.startRXTransfer samPdcConsts 0x20002000 10 true false
      (DMA_PDC.startRXTransfer samPdcConsts 0x20001000 10 true false pdcZero).2).1 = false ∧
    DMA_PDC.leftToRead false (DMA_PDC.startRXTransfer samPdcConsts 0x20002000 10 true false
      (DMA_PDC.startRXTransfer samPdcConsts 0x20001000 10 true false pdcZero).2).2 = 10 :=
  have h := (C7_busy_without_include_next samPdcConsts samXdmacConsts usart0Hw).1
    (DMA_PDC.startRXTransfer samPdcConsts 0x20001000 10 true false pdcZero).2
    0x20002000 10 true (by decide)
  ⟨by decide, congrArg Prod.fst h.1, h.2.trans (by decide)⟩

/-! ## `reset` -/

section PdcLemmas
open DMA_PDC

theorem pdc_reset_done (k : PdcConsts) (m : Pdc) :
    leftToRead true (reset k m) = 0 ∧ leftToWrite true (reset k m) = 0 ∧
    doneReading true (reset k m) = true ∧ doneWriting true (reset k m) = true := by
  simp [reset, doneReading, doneWriting, leftToRead, leftToWrite, Pdc.write, hwWrite]

end PdcLemmas

section XdmacLemmas
open DMA_XDMAC

theorem xdmac_reset_done (k : XdmacConsts) (hw : XdmacHw) (m : Xdmac) :
    leftToRead hw true (reset k hw m) = 0 ∧ leftToWrite hw true (reset k hw m) = 0 ∧
    doneReading hw true (reset k hw m) = true ∧ doneWriting hw true (reset k hw m) = true := by
  by_cases h : hw.xdmaRxChannelNumber = hw.xdmaTxChannelNumber
  · simp [reset, doneReading, doneWriting, leftToRead, leftToWrite, xdmaRxChannel,
      xdmaTxChannel, disableRx, disableTx, Xdmac.write, xdmacHwWrite, XdmacRegs.onChannel, h]
  · simp [reset, doneReading, doneWriting, leftToRead, leftToWrite, xdmaRxChannel,
      xdmaTxChannel, disableRx, disableTx, Xdmac.write, xdmacHwWrite, XdmacRegs.onChannel,
      Function.update, h]

end XdmacLemmas

/-- C8: on both backends, from every register state, after `reset()` both
directions report `leftToRead(true) == 0` and `leftToWrite(true) == 0`, and
`doneReading(true)` and `doneWriting(true)` are both true. -/
theorem C8_reset_reports_done (k : PdcConsts) (xk : XdmacConsts) (hw : XdmacHw) :
    (∀ m : Pdc,
      DMA_PDC.leftToRead true (DMA_PDC.reset k m) = 0 ∧
      DMA_PDC.leftToWrite true (DMA_PDC.reset k m) = 0 ∧
      DMA_PDC.doneReading true (DMA_PDC.reset k m) = true ∧
      DMA_PDC.doneWriting true (DMA_PDC.reset k m) = true) ∧
    (∀ m : Xdmac,
      DMA_XDMAC.leftToRead hw true (DMA_XDMAC.reset xk hw m) = 0 ∧
      DMA_XDMAC.leftToWrite hw true (DMA_XDMAC.reset xk hw m) = 0 ∧
      DMA_XDMAC.doneReading hw true (DMA_XDMAC.reset xk hw m) = true ∧
      DMA_XDMAC.doneWriting hw true (DMA_XDMAC.reset xk hw m) = true) :=
  ⟨pdc_reset_done k, xdmac_reset_done xk hw⟩


/-! ## Bit facts for the command registers -/

theorem testBit_clearBits (a v i : Nat) :
    (clearBits a v).testBit i = (a.testBit i && !v.testBit i) := by
  simp only [clearBits, Nat.testBit_xor, Nat.testBit_and]
  cases a.testBit i <;> cases v.testBit i <;> rfl

theorem lor_land_left (a b : Nat) : (a ||| b) &&& a = a := by
  apply Nat.eq_of_testBit_eq
  intro i
  simp only [Nat.testBit_and, Nat.testBit_or]
  cases a.testBit i <;> cases b.testBit i <;> rfl

theorem lor_land_right (a b : Nat) : (a ||| b) &&& b = b := by
  apply Nat.eq_of_testBit_eq
  intro i
  simp only [Nat.testBit_and, Nat.testBit_or]
  cases a.testBit i <;> cases b.testBit i <;> rfl

theorem lor_mod_word {a b : Nat} (ha : a < WORD) (hb : b < WORD) : (a ||| b) % WORD = a ||| b :=
  Nat.mod_eq_of_lt (by unfold WORD at *; exact Nat.or_lt_two_pow ha hb)

theorem testBit_one_shiftLeft_mod_word {ch : Nat} (h : ch < 32) :
    ((1 <<< ch) % WORD).testBit ch = true := by
  unfold WORD
  rw [Nat.testBit_mod_two_pow, Nat.one_shiftLeft, Nat.testBit_two_pow_self]
  simp [h]

theorem clearBits_clearBits_idem (g a b : Nat) :
    clearBits (clearBits (clearBits (clearBits g a) b) a) b = clearBits (clearBits g a) b := by
  apply Nat.eq_of_testBit_eq
  intro i
  simp only [testBit_clearBits]
  cases g.testBit i <;> cases a.testBit i <;> cases b.testBit i <;> rfl

/-! ## State after `reset` -/

section PdcLemmas
open DMA_PDC

theorem pdc_reset_state (k : PdcConsts) (hk : k.Sound) (m : Pdc) :
    (reset k m).regs.rxten = false ∧ (reset k m).regs.txten = false ∧
    (reset k m).regs.PERIPH_RPR = 0 ∧ (reset k m).regs.PERIPH_RCR = 0 ∧
    (reset k m).regs.PERIPH_RNPR = 0 ∧ (reset k m).regs.PERIPH_RNCR = 0 ∧
    (reset k m).regs.PERIPH_TPR = 0 ∧ (reset k m).regs.PERIPH_TCR = 0 ∧
    (reset k m).regs.PERIPH_TNPR = 0 ∧ (reset k m).regs.PERIPH_TNCR = 0 := by
  obtain ⟨_, hr, _, ht, _, hr0, _, ht0, _⟩ := hk
  simp [reset, Pdc.write, hwWrite, lor_mod_word hr ht, lor_land_left, lor_land_right, hr0, ht0]

theorem pdc_reset_idem (k : PdcConsts) (m : Pdc) :
    (reset k (reset k m)).regs = (reset k m).regs := by
  simp only [reset, Pdc.write, hwWrite]
  split_ifs <;> rfl

end PdcLemmas


section XdmacLemmas
open DMA_XDMAC

theorem xdmac_reset_GS (k : XdmacConsts) (hw : XdmacHw) (m : Xdmac) :
    (reset k hw m).regs.XDMAC_GS
      = clearBits (clearBits m.regs.XDMAC_GS ((k.XDMAC_GID_ID0 <<< hw.xdmaRxChannelNumber) % WORD))
          ((k.XDMAC_GID_ID0 <<< hw.xdmaTxChannelNumber) % WORD) := by
  simp [reset, disableRx, disableTx, Xdmac.write, xdmacHwWrite, XdmacRegs.onChannel]

theorem xdmac_reset_disabled (k : XdmacConsts) (hw : XdmacHw) (hid : k.XDMAC_GID_ID0 = 1)
    (hrx : hw.xdmaRxChannelNumber < 32) (htx : hw.xdmaTxChannelNumber < 32) (m : Xdmac) :
    (reset k hw m).enabled hw.xdmaRxChannelNumber = false ∧
    (reset k hw m).enabled hw.xdmaTxChannelNumber = false := by
  simp [Xdmac.enabled, xdmac_reset_GS, testBit_clearBits, hid,
    testBit_one_shiftLeft_mod_word hrx, testBit_one_shiftLeft_mod_word htx]

theorem xdmac_reset_counts (k : XdmacConsts) (hw : XdmacHw) (m : Xdmac) :
    (xdmaRxChannel hw (reset k hw m)).XDMAC_CUBC = 0 ∧
    (xdmaTxChannel hw (reset k hw m)).XDMAC_CUBC = 0 ∧
    leftToReadNext hw (reset k hw m) = 0 ∧ leftToWriteNext hw (reset k hw m) = 0 := by
  by_cases h : hw.xdmaRxChannelNumber = hw.xdmaTxChannelNumber
  · simp [reset, leftToReadNext, leftToWriteNext, xdmaRxChannel,
      xdmaTxChannel, disableRx, disableTx, Xdmac.write, xdmacHwWrite, XdmacRegs.onChannel, h]
  · simp [reset, leftToReadNext, leftToWriteNext, xdmaRxChannel,
      xdmaTxChannel, disableRx, disableTx, Xdmac.write, xdmacHwWrite, XdmacRegs.onChannel,
      Function.update, h]

theorem xdmac_reset_memory_address (k : XdmacConsts) (hw : XdmacHw)
    (hne : hw.xdmaRxChannelNumber ≠ hw.xdmaTxChannelNumber) (m : Xdmac) :
    (xdmaRxChannel hw (reset k hw m)).XDMAC_CDA = (xdmaRxChannel hw m).XDMAC_CDA ∧
    (xdmaTxChannel hw (reset k hw m)).XDMAC_CSA = (xdmaTxChannel hw m).XDMAC_CSA := by
  have hne2 : hw.xdmaTxChannelNumber ≠ hw.xdmaRxChannelNumber := fun h => hne h.symm
  simp [reset, xdmaRxChannel, xdmaTxChannel, disableRx, disableTx, Xdmac.write, xdmacHwWrite,
    XdmacRegs.onChannel, Function.update, hne, hne2]

set_option maxRecDepth 20000 in
theorem xdmac_reset_idem (k : XdmacConsts) (hw : XdmacHw) (m : Xdmac) :
    (reset k hw (reset k hw m)).regs = (reset k hw m).regs := by
  have hgs : (reset k hw (reset k hw m)).regs.XDMAC_GS = (reset k hw m).regs.XDMAC_GS := by
    rw [xdmac_reset_GS k hw (reset k hw m), xdmac_reset_GS k hw m, clearBits_clearBits_idem]
  have hch : (reset k hw (reset k hw m)).regs.XDMAC_CHID = (reset k hw m).regs.XDMAC_CHID := by
    funext ch
    by_cases h : hw.xdmaRxChannelNumber = hw.xdmaTxChannelNumber
    · by_cases h1 : ch = hw.xdmaTxChannelNumber <;>
        simp [reset, disableRx, disableTx, Xdmac.write, xdmacHwWrite, XdmacRegs.onChannel,
          Function.update, h, h1]
    · have h3 : ¬ hw.xdmaTxChannelNumber = hw.xdmaRxChannelNumber := fun e => h e.symm
      by_cases h1 : ch = hw.xdmaRxChannelNumber <;>
        by_cases h2 : ch = hw.xdmaTxChannelNumber <;>
        simp [reset, disableRx, disableTx, Xdmac.write, xdmacHwWrite, XdmacRegs.onChannel,
          Function.update, h, h1, h2, h3]
  cases hr : (reset k hw (reset k hw m)).regs
  cases hr2 : (reset k hw m).regs
  rw [hr, hr2] at hgs hch
  simp only at hgs hch
  rw [hgs, hch]

end XdmacLemmas


section PdcLemmas
open DMA_PDC

theorem pdc_reset_idem_queries (k : PdcConsts) (m : Pdc) (include_next : Bool) :
    leftToRead include_next (reset k (reset k m)) = leftToRead include_next (reset k m) ∧
    leftToWrite include_next (reset k (reset k m)) = leftToWrite include_next (reset k m) ∧
    doneReading include_next (reset k (reset k m)) = doneReading include_next (reset k m) ∧
    doneWriting include_next (reset k (reset k m)) = doneWriting include_next (reset k m) ∧
    getRXTransferPosition (reset k (reset k m)) = getRXTransferPosition (reset k m) ∧
    getTXTransferPosition (reset k (reset k m)) = getTXTransferPosition (reset k m) := by
  simp only [leftToRead, leftToWrite, doneReading, doneWriting, getRXTransferPosition,
    getTXTransferPosition, pdc_reset_idem k m, and_self]

end PdcLemmas

section XdmacLemmas
open DMA_XDMAC

theorem xdmac_reset_idem_queries (k : XdmacConsts) (hw : XdmacHw) (m : Xdmac)
    (include_next : Bool) :
    leftToRead hw include_next (reset k hw (reset k hw m))
      = leftToRead hw include_next (reset k hw m) ∧
    leftToWrite hw include_next (reset k hw (reset k hw m))
      = leftToWrite hw include_next (reset k hw m) ∧
    doneReading hw include_next (reset k hw (reset k hw m))
      = doneReading hw include_next (reset k hw m) ∧
    doneWriting hw include_next (reset k hw (reset k hw m))
      = doneWriting hw include_next (reset k hw m) ∧
    getRXTransferPosition hw (reset k hw (reset k hw m))
      = getRXTransferPosition hw (reset k hw m) ∧
    getTXTransferPosition hw (reset k hw (reset k hw m))
      = getTXTransferPosition hw (reset k hw m) := by
  simp only [leftToRead, leftToWrite, doneReading, doneWriting, getRXTransferPosition,
    getTXTransferPosition, xdmaRxChannel, xdmaTxChannel, xdmac_reset_idem k hw m, and_self]

end XdmacLemmas

/-- C9, as stated, fails on the XDMAC backend: `reset()` does not write the
memory-side address register that `setRx` / `setTx` write.  From a state in which
every channel block holds the address `0x20000000`, the receive channel's
`XDMAC_CDA` and the transmit channel's `XDMAC_CSA` are still `0x20000000`, not 0,
after `reset()`. -/
theorem C9_xdmac_reset_keeps_memory_address :
    ¬ ((DMA_XDMAC.xdmaRxChannel usart0Hw
          (DMA_XDMAC.reset samXdmacConsts usart0Hw (xdmacAll 0x20000000 5 3))).XDMAC_CDA = 0) ∧
    ¬ ((DMA_XDMAC.xdmaTxChannel usart0Hw
          (DMA_XDMAC.reset samXdmacConsts usart0Hw (xdmacAll 0x20000000 5 3))).XDMAC_CSA = 0) ∧
    DMA_XDMAC.getRXTransferPosition usart0Hw
      (DMA_XDMAC.reset samXdmacConsts usart0Hw (xdmacAll 0x20000000 5 3)) = 0x20000000 := by
  decide

/-- C9, amended: after `reset()`, from every prior register state, both directions
are disabled; on the PDC backend the current address, current length, pending
address and pending length of the receive and of the transmit channel are all
zero; on the XDMAC backend the current length (`XDMAC_CUBC`) of both channels is
zero and the pending lengths read 0, while the memory-side address register that
`setRx` / `setTx` write (`XDMAC_CDA` of the receive channel, `XDMAC_CSA` of the
transmit channel) is not written and keeps its prior value.  The constants are as
the data sheet gives them (`k.Sound`, `XDMAC_GID_ID0` is bit 0) and the two XDMAC
channel numbers are distinct and below 32. -/
theorem C9_reset_state (k : PdcConsts) (xk : XdmacConsts) (hw : XdmacHw)
    (hk : k.Sound) (hid : xk.XDMAC_GID_ID0 = 1)
    (hrx : hw.xdmaRxChannelNumber < 32) (htx : hw.xdmaTxChannelNumber < 32)
    (hne : hw.xdmaRxChannelNumber ≠ hw.xdmaTxChannelNumber) :
    (∀ m : Pdc,
      (DMA_PDC.reset k m).regs.rxten = false ∧ (DMA_PDC.reset k m).regs.txten = false ∧
      (DMA_PDC.reset k m).regs.PERIPH_RPR = 0 ∧ (DMA_PDC.reset k m).regs.PERIPH_RCR = 0 ∧
      (DMA_PDC.reset k m).regs.PERIPH_RNPR = 0 ∧ (DMA_PDC.reset k m).regs.PERIPH_RNCR = 0 ∧
      (DMA_PDC.reset k m).regs.PERIPH_TPR = 0 ∧ (DMA_PDC.reset k m).regs.PERIPH_TCR = 0 ∧
      (DMA_PDC.reset k m).regs.PERIPH_TNPR = 0 ∧ (DMA_PDC.reset k m).regs.PERIPH_TNCR = 0) ∧
    (∀ m : Xdmac,
      ((DMA_XDMAC.reset xk hw m).enabled hw.xdmaRxChannelNumber = false ∧
        (DMA_XDMAC.reset xk hw m).enabled hw.xdmaTxChannelNumber = false) ∧
      ((DMA_XDMAC.xdmaRxChannel hw (DMA_XDMAC.reset xk hw m)).XDMAC_CUBC = 0 ∧
        (DMA_XDMAC.xdmaTxChannel hw (DMA_XDMAC.reset xk hw m)).XDMAC_CUBC = 0 ∧
        DMA_XDMAC.leftToReadNext hw (DMA_XDMAC.reset xk hw m) = 0 ∧
        DMA_XDMAC.leftToWriteNext hw (DMA_XDMAC.reset xk hw m) = 0) ∧
      ((DMA_XDMAC.xdmaRxChannel hw (DMA_XDMAC.reset xk hw m)).XDMAC_CDA
          = (DMA_XDMAC.xdmaRxChannel hw m).XDMAC_CDA ∧
        (DMA_XDMAC.xdmaTxChannel hw (DMA_XDMAC.reset xk hw m)).XDMAC_CSA
          = (DMA_XDMAC.xdmaTxChannel hw m).XDMAC_CSA)) :=
  ⟨fun m => pdc_reset_state k hk m,
   fun m => ⟨xdmac_reset_disabled xk hw hid hrx htx m, xdmac_reset_counts xk hw m,
     xdmac_reset_memory_address xk hw hne m⟩⟩

/-- Instance of C9 (amended): the SAM constants, USART 0 (channels 1 and 0), a
busy PDC and an XDMAC with both channels enabled. -/
theorem C9_reset_state_witness :
    (samPdcConsts.Sound ∧ samXdmacConsts.XDMAC_GID_ID0 = 1 ∧
      usart0Hw.xdmaRxChannelNumber < 32 ∧ usart0Hw.xdmaTxChannelNumber < 32 ∧
      usart0Hw.xdmaRxChannelNumber ≠ usart0Hw.xdmaTxChannelNumber) ∧
    ((pdcBusy 5 7).regs.rxten = true ∧
      (DMA_PDC.reset samPdcConsts (pdcBusy 5 7)).regs.rxten = false ∧
      (DMA_PDC.reset samPdcConsts (pdcBusy 5 7)).regs.PERIPH_RPR = 0) ∧
    ((xdmacAll 0x20000000 5 3).enabled 1 = true ∧
      (DMA_XDMAC.reset samXdmacConsts usart0Hw (xdmacAll 0x20000000 5 3)).enabled 1 = false ∧
      (DMA_XDMAC.xdmaRxChannel usart0Hw
        (DMA_XDMAC.reset samXdmacConsts usart0Hw (xdmacAll 0x20000000 5 3))).XDMAC_CUBC = 0) :=
  have h := C9_reset_state samPdcConsts samXdmacConsts usart0Hw (by decide) rfl (by decide)
    (by decide) (by decide)
  ⟨⟨by decide, rfl, by decide, by decide, by decide⟩,
   ⟨rfl, (h.1 (pdcBusy 5 7)).1, (h.1 (pdcBusy 5 7)).2.2.1⟩,
   ⟨by decide, (h.2 (xdmacAll 0x20000000 5 3)).1.1, (h.2 (xdmacAll 0x20000000 5 3)).2.1.1⟩⟩

/-- C10: `reset()` is idempotent on both backends: for every state, the register
state after `reset(); reset()` is the register state after one `reset()`, and
`leftToRead`, `leftToWrite`, `doneReading`, `doneWriting` (for either value of
`include_next`), `getRXTransferPosition` and `getTXTransferPosition` give the same
answer in both. -/
theorem C10_reset_idempotent (k : PdcConsts) (xk : XdmacConsts) (hw : XdmacHw) :
    (∀ (m : Pdc) (include_next : Bool),
      (DMA_PDC.reset k (DMA_PDC.reset k m)).regs = (DMA_PDC.reset k m).regs ∧
      DMA_PDC.leftToRead include_next (DMA_PDC.reset k (DMA_PDC.reset k m))
        = DMA_PDC.leftToRead include_next (DMA_PDC.reset k m) ∧
      DMA_PDC.leftToWrite include_next (DMA_PDC.reset k (DMA_PDC.reset k m))
        = DMA_PDC.leftToWrite include_next (DMA_PDC.reset k m) ∧
      DMA_PDC.doneReading include_next (DMA_PDC.reset k (DMA_PDC.reset k m))
        = DMA_PDC.doneReading include_next (DMA_PDC.reset k m) ∧
      DMA_PDC.doneWriting include_next (DMA_PDC.reset k (DMA_PDC.reset k m))
        = DMA_PDC.doneWriting include_next (DMA_PDC.reset k m) ∧
      DMA_PDC.getRXTransferPosition (DMA_PDC.reset k (DMA_PDC.reset k m))
        = DMA_PDC.getRXTransferPosition (DMA_PDC.reset k m) ∧
      DMA_PDC.getTXTransferPosition (DMA_PDC.reset k (DMA_PDC.reset k m))
        = DMA_PDC.getTXTransferPosition (DMA_PDC.reset k m)) ∧
    (∀ (m : Xdmac) (include_next : Bool),
      (DMA_XDMAC.reset xk hw (DMA_XDMAC.reset xk hw m)).regs = (DMA_XDMAC.reset xk hw m).regs ∧
      DMA_XDMAC.leftToRead hw include_next (DMA_XDMAC.reset xk hw (DMA_XDMAC.reset xk hw m))
        = DMA_XDMAC.leftToRead hw include_next (DMA_XDMAC.reset xk hw m) ∧
      DMA_XDMAC.leftToWrite hw include_next (DMA_XDMAC.reset xk hw (DMA_XDMAC.reset xk hw m))
        = DMA_XDMAC.leftToWrite hw include_next (DMA_XDMAC.reset xk hw m) ∧
      DMA_XDMAC.doneReading hw include_next (DMA_XDMAC.reset xk hw (DMA_XDMAC.reset xk hw m))
        = DMA_XDMAC.doneReading hw include_next (DMA_XDMAC.reset xk hw m) ∧
      DMA_XDMAC.doneWriting hw include_next (DMA_XDMAC.reset xk hw (DMA_XDMAC.reset xk hw m))
        = DMA_XDMAC.doneWriting hw include_next (DMA_XDMAC.reset xk hw m) ∧
      DMA_XDMAC.getRXTransferPosition hw (DMA_XDMAC.reset xk hw (DMA_XDMAC.reset xk hw m))
        = DMA_XDMAC.getRXTransferPosition hw (DMA_XDMAC.reset xk hw m) ∧
      DMA_XDMAC.getTXTransferPosition hw (DMA_XDMAC.reset xk hw (DMA_XDMAC.reset xk hw m))
        = DMA_XDMAC.getTXTransferPosition hw (DMA_XDMAC.reset xk hw m)) :=
  ⟨fun m b => ⟨pdc_reset_idem k m, pdc_reset_idem_queries k m b⟩,
   fun m b => ⟨xdmac_reset_idem xk hw m, xdmac_reset_idem_queries xk hw m b⟩⟩

/-! ## `flushRead` -/

section PdcLemmas
open DMA_PDC

theorem pdc_flushRead_then_start (k : PdcConsts) (m : Pdc) (buffer length : Nat) (hi nx : Bool)
    (hne : length ≠ 0) (hlen : length < 2 ^ 32) (hbuf : buffer < 2 ^ 32) :
    leftToRead false (flushRead k m) = 0 ∧ leftToRead true (flushRead k m) = 0 ∧
    (startRXTransfer k buffer length hi nx (flushRead k m)).1 = true ∧
    (startRXTransfer k buffer length hi nx (flushRead k m)).2.regs.PERIPH_RPR = buffer ∧
    (startRXTransfer k buffer length hi nx (flushRead k m)).2.regs.PERIPH_RCR = length := by
  have hb := mod_word_of_lt hbuf
  have hl := mod_word_of_lt hlen
  cases hi <;>
  simp [startRXTransfer, doneReading, leftToRead, flushRead, hne, setRx, enableRx,
    startRxDoneInterrupts, stopRxDoneInterrupts, Pdc.write, hwWrite, hb, hl]

end PdcLemmas

section XdmacLemmas
open DMA_XDMAC

theorem xdmac_flushRead_then_start (k : XdmacConsts) (hw : XdmacHw) (m : Xdmac)
    (buffer length : Nat) (hi nx : Bool)
    (hne : length ≠ 0) (hlen : length < 2 ^ 32) (hbuf : buffer < 2 ^ 32) :
    leftToRead hw false (flushRead hw m) = 0 ∧ leftToRead hw true (flushRead hw m) = 0 ∧
    (startRXTransfer k hw buffer length hi nx (flushRead hw m)).1 = true ∧
    (xdmaRxChannel hw (startRXTransfer k hw buffer length hi nx (flushRead hw m)).2).XDMAC_CDA
      = buffer ∧
    (xdmaRxChannel hw (startRXTransfer k hw buffer length hi nx (flushRead hw m)).2).XDMAC_CUBC
      = length := by
  have hb := mod_word_of_lt hbuf
  have hl := mod_word_of_lt hlen
  cases hi <;>
  simp [startRXTransfer, doneReading, leftToRead, flushRead, xdmaRxChannel, hne, setRx, enableRx,
    startRxDoneInterrupts, stopRxDoneInterrupts, Xdmac.write, xdmacHwWrite,
    XdmacRegs.onChannel, hb, hl]

end XdmacLemmas

/-- C11: on both backends, from every receive state (any partially transferred
current buffer, any queued next buffer), after `flushRead()` both
`leftToRead(false)` and `leftToRead(true)` are 0, and a following
`startRXTransfer` with any buffer and any non-zero length returns `true` and
installs that buffer as the current transfer (current pointer `buffer`, current
count `length`). -/
theorem C11_flushRead_then_start (k : PdcConsts) (xk : XdmacConsts) (hw : XdmacHw) :
    (∀ (m : Pdc) (buffer length : Nat) (hi nx : Bool),
      length ≠ 0 → length < 2 ^ 32 → buffer < 2 ^ 32 →
      DMA_PDC.leftToRead false (DMA_PDC.flushRead k m) = 0 ∧
      DMA_PDC.leftToRead true (DMA_PDC.flushRead k m) = 0 ∧
      (DMA_PDC.startRXTransfer k buffer length hi nx (DMA_PDC.flushRead k m)).1 = true ∧
      (DMA_PDC.startRXTransfer k buffer length hi nx (DMA_PDC.flushRead k m)).2.regs.PERIPH_RPR
        = buffer ∧
      (DMA_PDC.startRXTransfer k buffer length hi nx (DMA_PDC.flushRead k m)).2.regs.PERIPH_RCR
        = length) ∧
    (∀ (m : Xdmac) (buffer length : Nat) (hi nx : Bool),
      length ≠ 0 → length < 2 ^ 32 → buffer < 2 ^ 32 →
      DMA_XDMAC.leftToRead hw false (DMA_XDMAC.flushRead hw m) = 0 ∧
      DMA_XDMAC.leftToRead hw true (DMA_XDMAC.flushRead hw m) = 0 ∧
      (DMA_XDMAC.startRXTransfer xk hw buffer length hi nx (DMA_XDMAC.flushRead hw m)).1
        = true ∧
      (DMA_XDMAC.xdmaRxChannel hw (DMA_XDMAC.startRXTransfer xk hw buffer length hi nx
        (DMA_XDMAC.flushRead hw m)).2).XDMAC_CDA = buffer ∧
      (DMA_XDMAC.xdmaRxChannel hw (DMA_XDMAC.startRXTransfer xk hw buffer length hi nx
        (DMA_XDMAC.flushRead hw m)).2).XDMAC_CUBC = length) :=
  ⟨fun m b l hi nx h1 h2 h3 => pdc_flushRead_then_start k m b l hi nx h1 h2 h3,
   fun m b l hi nx h1 h2 h3 => xdmac_flushRead_then_start xk hw m b l hi nx h1 h2 h3⟩

/-- Instance of C11: 60 of 100 units still to read and 7 queued on the PDC; after
`flushRead()` nothing is left and a new 8-unit receive starts at once. -/
theorem C11_flushRead_then_start_witness :
    (8 ≠ 0 ∧ 8 < 2 ^ 32 ∧ 0x20001000 < 2 ^ 32) ∧
    DMA_PDC.leftToRead false (pdcBusy 60 7) = 60 ∧
    DMA_PDC.leftToRead true (DMA_PDC.flushRead samPdcConsts (pdcBusy 60 7)) = 0 ∧
    (DMA_PDC.startRXTransfer samPdcConsts 0x20001000 8 true false
      (DMA_PDC.flushRead samPdcConsts (pdcBusy 60 7))).1 = true ∧
    (DMA_PDC.startRXTransfer samPdcConsts 0x20001000 8 true false
      (DMA_PDC.flushRead samPdcConsts (pdcBusy 60 7))).2.regs.PERIPH_RPR = 0x20001000 :=
  have h := (C11_flushRead_then_start samPdcConsts samXdmacConsts usart0Hw).1 (pdcBusy 60 7)
    0x20001000 8 true false (by decide) (by decide) (by decide)
  ⟨⟨by decide, by decide, by decide⟩, rfl, h.2.1, h.2.2.1, h.2.2.2.1⟩

/-! ## Hardware promotion (PDC) -/

section PdcLemmas
open DMA_PDC

theorem pdc_rx_promotion_scenario (k : PdcConsts) (m : Pdc) (A a B b : Nat)
    (hi1 nx1 hi2 : Bool) (hcur : m.regs.PERIPH_RCR = 0) (hnext : m.regs.PERIPH_RNCR = 0)
    (ha : a ≠ 0) (ha32 : a < 2 ^ 32) (hb : b ≠ 0) (hb32 : b < 2 ^ 32) (hB : B < 2 ^ 32) :
    (startRXTransfer k A a hi1 nx1 m).1 = true ∧
    (startRXTransfer k B b hi2 true (startRXTransfer k A a hi1 nx1 m).2).1 = true ∧
    leftToRead true (startRXTransfer k B b hi2 true (startRXTransfer k A a hi1 nx1 m).2).2
      = (a + b) % WORD ∧
    (∀ w : Nat, w < 32 → a < 2 ^ w → b < 2 ^ w →
      leftToRead true (startRXTransfer k B b hi2 true (startRXTransfer k A a hi1 nx1 m).2).2
        = a + b) ∧
    (∀ (p C c : Nat) (hi3 : Bool), C < 2 ^ 32 → c < 2 ^ 32 →
      leftToRead false (hwRxPromote (hwRxFinishCurrent p
        (startRXTransfer k B b hi2 true (startRXTransfer k A a hi1 nx1 m).2).2)) = b ∧
      getRXTransferPosition (hwRxPromote (hwRxFinishCurrent p
        (startRXTransfer k B b hi2 true (startRXTransfer k A a hi1 nx1 m).2).2)) = B ∧
      (startRXTransfer k C c hi3 true (hwRxPromote (hwRxFinishCurrent p
        (startRXTransfer k B b hi2 true (startRXTransfer k A a hi1 nx1 m).2).2))).1 = true ∧
      (startRXTransfer k C c hi3 true (hwRxPromote (hwRxFinishCurrent p
        (startRXTransfer k B b hi2 true (startRXTransfer k A a hi1 nx1 m).2).2))).2.regs.PERIPH_RNPR
        = C ∧
      (startRXTransfer k C c hi3 true (hwRxPromote (hwRxFinishCurrent p
        (startRXTransfer k B b hi2 true (startRXTransfer k A a hi1 nx1 m).2).2))).2.regs.PERIPH_RNCR
        = c) := by
  have hma := mod_word_of_lt ha32
  have hmb := mod_word_of_lt hb32
  have hmB := mod_word_of_lt hB
  have h2 : (startRXTransfer k B b hi2 true (startRXTransfer k A a hi1 nx1 m).2)
      = (true, setNextRx k B b (startRXTransfer k A a hi1 nx1 m).2) := by
    cases hi1 <;>
    simp [startRXTransfer, doneReading, doneReadingNext, leftToRead, leftToReadNext, hcur, hnext,
      ha, setRx, enableRx, startRxDoneInterrupts, stopRxDoneInterrupts, Pdc.write, hwWrite, hma]
  have hsum : leftToRead true (setNextRx k B b (startRXTransfer k A a hi1 nx1 m).2)
      = (a + b) % WORD := by
    cases hi1 <;>
    simp [startRXTransfer, doneReading, leftToRead, hcur, ha, setRx, setNextRx, enableRx,
      startRxDoneInterrupts, stopRxDoneInterrupts, Pdc.write, hwWrite, hma, hmb]
  rw [h2]
  refine ⟨?_, rfl, hsum, ?_, ?_⟩
  · cases hi1 <;> simp [startRXTransfer, doneReading, leftToRead, hcur, ha]
  · intro w hw haw hbw
    have hpow : 2 ^ w ≤ 2 ^ 31 := Nat.pow_le_pow_right (by decide) (by omega)
    rw [hsum]
    exact Nat.mod_eq_of_lt (by simp only [WORD]; omega)
  · intro p C c hi3 hC hc
    have hmC := mod_word_of_lt hC
    have hmc := mod_word_of_lt hc
    cases hi1 <;>
    simp [startRXTransfer, doneReading, doneReadingNext, leftToRead, leftToReadNext,
      getRXTransferPosition, hwRxPromote, hwRxFinishCurrent, hcur, ha, hb, setRx, setNextRx,
      enableRx, startRxDoneInterrupts, stopRxDoneInterrupts, Pdc.write, hwWrite, hma, hmb, hmB,
      hmC, hmc]


theorem pdc_tx_promotion_scenario (k : PdcConsts) (m : Pdc) (A a B b : Nat)
    (hi1 nx1 hi2 : Bool) (hcur : m.regs.PERIPH_TCR = 0) (hnext : m.regs.PERIPH_TNCR = 0)
    (ha : a ≠ 0) (ha32 : a < 2 ^ 32) (hb : b ≠ 0) (hb32 : b < 2 ^ 32) (hB : B < 2 ^ 32) :
    (startTXTransfer k A a hi1 nx1 m).1 = true ∧
    (startTXTransfer k B b hi2 true (startTXTransfer k A a hi1 nx1 m).2).1 = true ∧
    leftToWrite true (startTXTransfer k B b hi2 true (startTXTransfer k A a hi1 nx1 m).2).2
      = (a + b) % WORD ∧
    (∀ w : Nat, w < 32 → a < 2 ^ w → b < 2 ^ w →
      leftToWrite true (startTXTransfer k B b hi2 true (startTXTransfer k A a hi1 nx1 m).2).2
        = a + b) ∧
    (∀ (p C c : Nat) (hi3 : Bool), C < 2 ^ 32 → c < 2 ^ 32 →
      leftToWrite false (hwTxPromote (hwTxFinishCurrent p
        (startTXTransfer k B b hi2 true (startTXTransfer k A a hi1 nx1 m).2).2)) = b ∧
      getTXTransferPosition (hwTxPromote (hwTxFinishCurrent p
        (startTXTransfer k B b hi2 true (startTXTransfer k A a hi1 nx1 m).2).2)) = B ∧
      (startTXTransfer k C c hi3 true (hwTxPromote (hwTxFinishCurrent p
        (startTXTransfer k B b hi2 true (startTXTransfer k A a hi1 nx1 m).2).2))).1 = true ∧
      (startTXTransfer k C c hi3 true (hwTxPromote (hwTxFinishCurrent p
        (startTXTransfer k B b hi2 true (startTXTransfer k A a hi1 nx1 m).2).2))).2.regs.PERIPH_TNPR
        = C ∧
      (startTXTransfer k C c hi3 true (hwTxPromote (hwTxFinishCurrent p
        (startTXTransfer k B b hi2 true (startTXTransfer k A a hi1 nx1 m).2).2))).2.regs.PERIPH_TNCR
        = c) := by
  have hma := mod_word_of_lt ha32
  have hmb := mod_word_of_lt hb32
  have hmB := mod_word_of_lt hB
  have h2 : (startTXTransfer k B b hi2 true (startTXTransfer k A a hi1 nx1 m).2)
      = (true, setNextTx k B b (startTXTransfer k A a hi1 nx1 m).2) := by
    cases hi1 <;>
    simp [startTXTransfer, doneWriting, doneWritingNext, leftToWrite, leftToWriteNext, hcur, hnext,
      ha, setTx, enableTx, startTxDoneInterrupts, stopTxDoneInterrupts, Pdc.write, hwWrite, hma]
  have hsum : leftToWrite true (setNextTx k B b (startTXTransfer k A a hi1 nx1 m).2)
      = (a + b) % WORD := by
    cases hi1 <;>
    simp [startTXTransfer, doneWriting, leftToWrite, hcur, ha, setTx, setNextTx, enableTx,
      startTxDoneInterrupts, stopTxDoneInterrupts, Pdc.write, hwWrite, hma, hmb]
  rw [h2]
  refine ⟨?_, rfl, hsum, ?_, ?_⟩
  · cases hi1 <;> simp [startTXTransfer, doneWriting, leftToWrite, hcur, ha]
  · intro w hw haw hbw
    have hpow : 2 ^ w ≤ 2 ^ 31 := Nat.pow_le_pow_right (by decide) (by omega)
    rw [hsum]
    exact Nat.mod_eq_of_lt (by simp only [WORD]; omega)
  · intro p C c hi3 hC hc
    have hmC := mod_word_of_lt hC
    have hmc := mod_word_of_lt hc
    cases hi1 <;>
    simp [startTXTransfer, doneWriting, doneWritingNext, leftToWrite, leftToWriteNext,
      getTXTransferPosition, hwTxPromote, hwTxFinishCurrent, hcur, ha, hb, setTx, setNextTx,
      enableTx, startTxDoneInterrupts, stopTxDoneInterrupts, Pdc.write, hwWrite, hma, hmb, hmB,
      hmC, hmc]


end PdcLemmas

/-- C12: on the PDC backend, in both directions, with hardware promotion modelled
as the step `hwRxPromote` / `hwTxPromote`: from a channel with current and next
count 0, `start(A, a)` then `start(B, b, include_next = true)` with `a, b > 0`
both return `true` and `remaining(true)` is `a + b` (as the `uint32_t` sum, and
exactly whenever `a` and `b` fit a count register of `w < 32` bits); after the
hardware has driven the current count to 0 (leaving the pointer anywhere) and
performed the promotion step, `remaining(false) == b`, the current pointer is `B`,
and a following `start(C, c, include_next = true)` returns `true` and stores
`(C, c)` in the pending slot. -/
theorem C12_pdc_promotion_scenario (k : PdcConsts) :
    (∀ (m : Pdc) (A a B b : Nat) (hi1 nx1 hi2 : Bool),
      m.regs.PERIPH_RCR = 0 → m.regs.PERIPH_RNCR = 0 →
      a ≠ 0 → a < 2 ^ 32 → b ≠ 0 → b < 2 ^ 32 → B < 2 ^ 32 →
      (DMA_PDC.startRXTransfer k A a hi1 nx1 m).1 = true ∧
      (DMA_PDC.startRXTransfer k B b hi2 true (DMA_PDC.startRXTransfer k A a hi1 nx1 m).2).1 = true ∧
      DMA_PDC.leftToRead true (DMA_PDC.startRXTransfer k B b hi2 true (DMA_PDC.startRXTransfer k A a hi1 nx1 m).2).2
        = (a + b) % WORD ∧
      (∀ w : Nat, w < 32 → a < 2 ^ w → b < 2 ^ w →
        DMA_PDC.leftToRead true (DMA_PDC.startRXTransfer k B b hi2 true (DMA_PDC.startRXTransfer k A a hi1 nx1 m).2).2
          = a + b) ∧
      (∀ (p C c : Nat) (hi3 : Bool), C < 2 ^ 32 → c < 2 ^ 32 →
        DMA_PDC.leftToRead false (hwRxPromote (hwRxFinishCurrent p
          (DMA_PDC.startRXTransfer k B b hi2 true (DMA_PDC.startRXTransfer k A a hi1 nx1 m).2).2)) = b ∧
        DMA_PDC.getRXTransferPosition (hwRxPromote (hwRxFinishCurrent p
          (DMA_PDC.startRXTransfer k B b hi2 true (DMA_PDC.startRXTransfer k A a hi1 nx1 m).2).2)) = B ∧
        (DMA_PDC.startRXTransfer k C c hi3 true (hwRxPromote (hwRxFinishCurrent p
          (DMA_PDC.startRXTransfer k B b hi2 true (DMA_PDC.startRXTransfer k A a hi1 nx1 m).2).2))).1 = true ∧
        (DMA_PDC.startRXTransfer k C c hi3 true (hwRxPromote (hwRxFinishCurrent p
          (DMA_PDC.startRXTransfer k B b hi2 true (DMA_PDC.startRXTransfer k A a hi1 nx1 m).2).2))).2.regs.PERIPH_RNPR
          = C ∧
        (DMA_PDC.startRXTransfer k C c hi3 true (hwRxPromote (hwRxFinishCurrent p
          (DMA_PDC.startRXTransfer k B b hi2 true (DMA_PDC.startRXTransfer k A a hi1 nx1 m).2).2))).2.regs.PERIPH_RNCR
          = c)) ∧
    (∀ (m : Pdc) (A a B b : Nat) (hi1 nx1 hi2 : Bool),
      m.regs.PERIPH_TCR = 0 → m.regs.PERIPH_TNCR = 0 →
      a ≠ 0 → a < 2 ^ 32 → b ≠ 0 → b < 2 ^ 32 → B < 2 ^ 32 →
      (DMA_PDC.startTXTransfer k A a hi1 nx1 m).1 = true ∧
      (DMA_PDC.startTXTransfer k B b hi2 true (DMA_PDC.startTXTransfer k A a hi1 nx1 m).2).1 = true ∧
      DMA_PDC.leftToWrite true (DMA_PDC.startTXTransfer k B b hi2 true (DMA_PDC.startTXTransfer k A a hi1 nx1 m).2).2
        = (a + b) % WORD ∧
      (∀ w : Nat, w < 32 → a < 2 ^ w → b < 2 ^ w →
        DMA_PDC.leftToWrite true (DMA_PDC.startTXTransfer k B b hi2 true (DMA_PDC.startTXTransfer k A a hi1 nx1 m).2).2
          = a + b) ∧
      (∀ (p C c : Nat) (hi3 : Bool), C < 2 ^ 32 → c < 2 ^ 32 →
        DMA_PDC.leftToWrite false (hwTxPromote (hwTxFinishCurrent p
          (DMA_PDC.startTXTransfer k B b hi2 true (DMA_PDC.startTXTransfer k A a hi1 nx1 m).2).2)) = b ∧
        DMA_PDC.getTXTransferPosition (hwTxPromote (hwTxFinishCurrent p
          (DMA_PDC.startTXTransfer k B b hi2 true (DMA_PDC.startTXTransfer k A a hi1 nx1 m).2).2)) = B ∧
        (DMA_PDC.startTXTransfer k C c hi3 true (hwTxPromote (hwTxFinishCurrent p
          (DMA_PDC.startTXTransfer k B b hi2 true (DMA_PDC.startTXTransfer k A a hi1 nx1 m).2).2))).1 = true ∧
        (DMA_PDC.startTXTransfer k C c hi3 true (hwTxPromote (hwTxFinishCurrent p
          (DMA_PDC.startTXTransfer k B b hi2 true (DMA_PDC.startTXTransfer k A a hi1 nx1 m).2).2))).2.regs.PERIPH_TNPR
          = C ∧
        (DMA_PDC.startTXTransfer k C c hi3 true (hwTxPromote (hwTxFinishCurrent p
          (DMA_PDC.startTXTransfer k B b hi2 true (DMA_PDC.startTXTransfer k A a hi1 nx1 m).2).2))).2.regs.PERIPH_TNCR
          = c)) :=
  ⟨fun m A a B b hi1 nx1 hi2 h1 h2 h3 h4 h5 h6 h7 =>
     pdc_rx_promotion_scenario k m A a B b hi1 nx1 hi2 h1 h2 h3 h4 h5 h6 h7,
   fun m A a B b hi1 nx1 hi2 h1 h2 h3 h4 h5 h6 h7 =>
     pdc_tx_promotion_scenario k m A a B b hi1 nx1 hi2 h1 h2 h3 h4 h5 h6 h7⟩

/-- Instance of C12: `start(A, 100)`, `start(B, 50, include_next = true)`, the
hardware finishes A and promotes B, then `start(C, 20, include_next = true)`. -/
theorem C12_pdc_promotion_scenario_witness :
    (pdcZero.regs.PERIPH_RCR = 0 ∧ pdcZero.regs.PERIPH_RNCR = 0 ∧ 100 ≠ 0 ∧ 100 < 2 ^ 32 ∧
      50 ≠ 0 ∧ 50 < 2 ^ 32 ∧ 0x20002000 < 2 ^ 32 ∧ 16 < 32 ∧ 100 < 2 ^ 16 ∧ 50 < 2 ^ 16 ∧
      0x20003000 < 2 ^ 32 ∧ 20 < 2 ^ 32) ∧
    DMA_PDC.leftToRead false
      (DMA_PDC.startRXTransfer samPdcConsts 0x20001000 100 true false pdcZero).2 = 100 ∧
    DMA_PDC.leftToRead true (DMA_PDC.startRXTransfer samPdcConsts 0x20002000 50 true true
      (DMA_PDC.startRXTransfer samPdcConsts 0x20001000 100 true false pdcZero).2).2 = 100 + 50 ∧
    DMA_PDC.leftToRead false (hwRxPromote (hwRxFinishCurrent 0x20001064
      (DMA_PDC.startRXTransfer samPdcConsts 0x20002000 50 true true
        (DMA_PDC.startRXTransfer samPdcConsts 0x20001000 100 true false pdcZero).2).2)) = 50 ∧
    (DMA_PDC.startRXTransfer samPdcConsts 0x20003000 20 true true
      (hwRxPromote (hwRxFinishCurrent 0x20001064
        (DMA_PDC.startRXTransfer samPdcConsts 0x20002000 50 true true
          (DMA_PDC.startRXTransfer samPdcConsts 0x20001000 100 true false pdcZero).2).2))).1
      = true :=
  have h := (C12_pdc_promotion_scenario samPdcConsts).1 pdcZero 0x20001000 100 0x20002000 50
    true false true rfl rfl (by decide) (by decide) (by decide) (by decide) (by decide)
  have h3 := h.2.2.2.2 0x20001064 0x20003000 20 true (by decide) (by decide)
  ⟨⟨rfl, rfl, by decide, by decide, by decide, by decide, by decide, by decide, by decide,
    by decide, by decide, by decide⟩,
   by decide, h.2.2.2.1 16 (by decide) (by decide) (by decide), h3.1, h3.2.2.1⟩

/-! ## Transfer position after `start` -/

section PdcLemmas
open DMA_PDC

theorem pdc_startRX_position (k : PdcConsts) (m : Pdc) (buffer length : Nat) (hi nx : Bool)
    (hidle : m.regs.PERIPH_RCR = 0) (hbuf : buffer < 2 ^ 32) :
    getRXTransferPosition (startRXTransfer k buffer length hi nx m).2 = buffer := by
  have hb := mod_word_of_lt hbuf
  by_cases h0 : length = 0 <;> cases hi <;>
  simp [startRXTransfer, doneReading, leftToRead, getRXTransferPosition, hidle, h0, setRx,
    enableRx, startRxDoneInterrupts, stopRxDoneInterrupts, Pdc.write, hwWrite, hb]

theorem pdc_startTX_position (k : PdcConsts) (m : Pdc) (buffer length : Nat) (hi nx : Bool)
    (hidle : m.regs.PERIPH_TCR = 0) (hbuf : buffer < 2 ^ 32) :
    getTXTransferPosition (startTXTransfer k buffer length hi nx m).2 = buffer := by
  have hb := mod_word_of_lt hbuf
  by_cases h0 : length = 0 <;> cases hi <;>
  simp [startTXTransfer, doneWriting, leftToWrite, getTXTransferPosition, hidle, h0, setTx,
    enableTx, startTxDoneInterrupts, stopTxDoneInterrupts, Pdc.write, hwWrite, hb]

end PdcLemmas

section XdmacLemmas
open DMA_XDMAC

theorem xdmac_startRX_position (k : XdmacConsts) (hw : XdmacHw) (m : Xdmac)
    (buffer length : Nat) (hi nx : Bool)
    (hidle : (xdmaRxChannel hw m).XDMAC_CUBC = 0) (hbuf : buffer < 2 ^ 32) :
    getRXTransferPosition hw (startRXTransfer k hw buffer length hi nx m).2 = buffer := by
  have hb := mod_word_of_lt hbuf
  simp only [xdmaRxChannel] at hidle
  by_cases h0 : length = 0 <;> cases hi <;>
  simp [startRXTransfer, doneReading, leftToRead, getRXTransferPosition, xdmaRxChannel, hidle,
    h0, setRx, enableRx, startRxDoneInterrupts, stopRxDoneInterrupts, Xdmac.write, xdmacHwWrite,
    XdmacRegs.onChannel, hb]

theorem xdmac_startTX_position_unchanged (k : XdmacConsts) (hw : XdmacHw) (m : Xdmac)
    (buffer length : Nat) (hi nx : Bool) :
    getTXTransferPosition hw (startTXTransfer k hw buffer length hi nx m).2
      = getTXTransferPosition hw m := by
  by_cases h : (m.regs.XDMAC_CHID hw.xdmaTxChannelNumber).XDMAC_CUBC = 0 <;>
  by_cases h0 : length = 0 <;> cases hi <;> cases nx <;>
  simp [startTXTransfer, doneWriting, doneWritingNext, leftToWrite, leftToWriteNext,
    getTXTransferPosition, xdmaTxChannel, h, h0, setTx, setNextTx, enableTx,
    startTxDoneInterrupts, stopTxDoneInterrupts, Xdmac.write, xdmacHwWrite, XdmacRegs.onChannel]

end XdmacLemmas

/-- C13, evaluated on the XDMAC transmit side.  `getTXTransferPosition` reads
`XDMAC_CDA` of the transmit channel while `setTx` stores the buffer in
`XDMAC_CSA`, so `startTXTransfer` never changes what `getTXTransferPosition`
returns.  After `reset()` for USART 0, `startTXTransfer(0x20001000, 8)` on the
idle channel returns `true` and stores the buffer address in `XDMAC_CSA`, and
`getTXTransferPosition()` returns `0x4002401C`, the address of the transmit
holding register, not the buffer address. -/
theorem C13_xdmac_tx_position_is_not_the_buffer :
    (∀ (k : XdmacConsts) (hw : XdmacHw) (m : Xdmac) (buffer length : Nat) (hi nx : Bool),
      DMA_XDMAC.getTXTransferPosition hw (DMA_XDMAC.startTXTransfer k hw buffer length hi nx m).2
        = DMA_XDMAC.getTXTransferPosition hw m) ∧
    (DMA_XDMAC.xdmaTxChannel usart0Hw
      (DMA_XDMAC.reset samXdmacConsts usart0Hw (xdmacAll 0 0 0))).XDMAC_CUBC = 0 ∧
    (DMA_XDMAC.startTXTransfer samXdmacConsts usart0Hw 0x20001000 8 true false
      (DMA_XDMAC.reset samXdmacConsts usart0Hw (xdmacAll 0 0 0))).1 = true ∧
    (DMA_XDMAC.xdmaTxChannel usart0Hw
      (DMA_XDMAC.startTXTransfer samXdmacConsts usart0Hw 0x20001000 8 true false
        (DMA_XDMAC.reset samXdmacConsts usart0Hw (xdmacAll 0 0 0))).2).XDMAC_CSA = 0x20001000 ∧
    DMA_XDMAC.getTXTransferPosition usart0Hw
      (DMA_XDMAC.startTXTransfer samXdmacConsts usart0Hw 0x20001000 8 true false
        (DMA_XDMAC.reset samXdmacConsts usart0Hw (xdmacAll 0 0 0))).2 = 0x4002401C ∧
    DMA_XDMAC.getTXTransferPosition usart0Hw
      (DMA_XDMAC.startTXTransfer samXdmacConsts usart0Hw 0x20001000 8 true false
        (DMA_XDMAC.reset samXdmacConsts usart0Hw (xdmacAll 0 0 0))).2 ≠ 0x20001000 :=
  ⟨xdmac_startTX_position_unchanged, by decide, by decide, by decide, by decide, by decide⟩

/-! ## Bit facts for the interrupt mask -/

theorem testBit_lt_of_lt_word {t i : Nat} (ht : t < WORD) (h : t.testBit i = true) : i < 32 := by
  by_contra hge
  have hle : 2 ^ 32 ≤ 2 ^ i := Nat.pow_le_pow_right (by decide) (by omega)
  have hlt : t < 2 ^ i := by unfold WORD at ht; omega
  rw [Nat.testBit_lt_two_pow hlt] at h
  exact Bool.false_ne_true h

theorem testBit_disjoint {r t : Nat} (hd : r &&& t = 0) (i : Nat) :
    (r.testBit i && t.testBit i) = false := by
  have h := congrArg (fun n => n.testBit i) hd
  simpa [Nat.testBit_and] using h

theorem lor_mod_word_land_self (x r : Nat) (hr : r < WORD) : ((x ||| r) % WORD) &&& r = r := by
  apply Nat.eq_of_testBit_eq
  intro i
  unfold WORD
  rw [Nat.testBit_and, Nat.testBit_mod_two_pow, Nat.testBit_or]
  cases hri : r.testBit i
  · simp
  · have := testBit_lt_of_lt_word hr hri
    simp [this]

theorem clearBits_land_self (a r : Nat) : clearBits a r &&& r = 0 := by
  apply Nat.eq_of_testBit_eq
  intro i
  rw [Nat.testBit_and, testBit_clearBits, Nat.zero_testBit]
  cases a.testBit i <;> cases r.testBit i <;> rfl

theorem lor_mod_word_land_disjoint (x r t : Nat) (ht : t < WORD) (hd : r &&& t = 0) :
    ((x ||| r) % WORD) &&& t = x &&& t := by
  apply Nat.eq_of_testBit_eq
  intro i
  have hdi := testBit_disjoint hd i
  unfold WORD
  rw [Nat.testBit_and, Nat.testBit_mod_two_pow, Nat.testBit_or, Nat.testBit_and]
  cases hti : t.testBit i
  · simp
  · have := testBit_lt_of_lt_word ht hti
    rw [hti] at hdi
    simp at hdi
    simp [this, hdi]

theorem clearBits_land_disjoint (x r t : Nat) (hd : r &&& t = 0) :
    clearBits x r &&& t = x &&& t := by
  apply Nat.eq_of_testBit_eq
  intro i
  have hdi := testBit_disjoint hd i
  rw [Nat.testBit_and, testBit_clearBits, Nat.testBit_and]
  revert hdi
  cases x.testBit i <;> cases r.testBit i <;> cases t.testBit i <;> simp

/-! ## The completion interrupt across `start` (PDC) -/

section PdcLemmas
open DMA_PDC

theorem pdc_startRX_rearms (k : PdcConsts) (hk : k.IrqSound) (m : Pdc) (buffer length : Nat)
    (nx : Bool) (harm : m.rxArmed k = true)
    (h : length ≠ 0 ∨ m.regs.PERIPH_RCR ≠ 0) :
    (startRXTransfer k buffer length true nx m).2.rxArmed k = true := by
  obtain ⟨he, hd, _, _, _, _, hlt, _, hne, _, _⟩ := hk
  have hmod : k.IMR_RXBUFF % WORD = k.IMR_RXBUFF := Nat.mod_eq_of_lt hlt
  simp only [Pdc.rxArmed, decide_eq_true_eq] at harm ⊢
  by_cases hc : m.regs.PERIPH_RCR = 0
  · have h0 : length ≠ 0 := by
      rcases h with h | h
      · exact h
      · exact absurd hc h
    simp [startRXTransfer, doneReading, leftToRead, hc, h0, setRx, enableRx,
      startRxDoneInterrupts, stopRxDoneInterrupts, Pdc.write, hwWrite, he, hd, hmod,
      lor_mod_word_land_self _ _ hlt, hne]
  · by_cases hn : m.regs.PERIPH_RNCR = 0 <;> cases nx <;>
    simp [startRXTransfer, doneReading, doneReadingNext, leftToRead, leftToReadNext, hc, hn,
      setNextRx, Pdc.write, hwWrite, harm]

theorem pdc_startRX_zero_masks (k : PdcConsts) (hk : k.IrqSound) (m : Pdc) (buffer : Nat)
    (nx : Bool) (hidle : m.regs.PERIPH_RCR = 0) :
    (startRXTransfer k buffer 0 true nx m).2.rxArmed k = false := by
  obtain ⟨_, hd, _, _, _, _, hlt, _, _, _, _⟩ := hk
  have hmod : k.IMR_RXBUFF % WORD = k.IMR_RXBUFF := Nat.mod_eq_of_lt hlt
  simp [Pdc.rxArmed, startRXTransfer, doneReading, leftToRead, hidle, setRx,
    stopRxDoneInterrupts, Pdc.write, hwWrite, hd, hmod, clearBits_land_self]

theorem pdc_startTX_rearms (k : PdcConsts) (hk : k.IrqSound) (m : Pdc) (buffer length : Nat)
    (nx : Bool) (harm : m.txArmed k = true)
    (h : length ≠ 0 ∨ m.regs.PERIPH_TCR ≠ 0) :
    (startTXTransfer k buffer length true nx m).2.txArmed k = true := by
  obtain ⟨_, _, _, he, hd, _, _, hlt, _, hne, _⟩ := hk
  have hmod : k.IMR_TXBUFE % WORD = k.IMR_TXBUFE := Nat.mod_eq_of_lt hlt
  simp only [Pdc.txArmed, decide_eq_true_eq] at harm ⊢
  by_cases hc : m.regs.PERIPH_TCR = 0
  · have h0 : length ≠ 0 := by
      rcases h with h | h
      · exact h
      · exact absurd hc h
    simp [startTXTransfer, doneWriting, leftToWrite, hc, h0, setTx, enableTx,
      startTxDoneInterrupts, stopTxDoneInterrupts, Pdc.write, hwWrite, he, hd, hmod,
      lor_mod_word_land_self _ _ hlt, hne]
  · by_cases hn : m.regs.PERIPH_TNCR = 0 <;> cases nx <;>
    simp [startTXTransfer, doneWriting, doneWritingNext, leftToWrite, leftToWriteNext, hc, hn,
      setNextTx, Pdc.write, hwWrite, harm]

theorem pdc_startTX_zero_masks (k : PdcConsts) (hk : k.IrqSound) (m : Pdc) (buffer : Nat)
    (nx : Bool) (hidle : m.regs.PERIPH_TCR = 0) :
    (startTXTransfer k buffer 0 true nx m).2.txArmed k = false := by
  obtain ⟨_, _, _, _, hd, _, _, hlt, _, _, _⟩ := hk
  have hmod : k.IMR_TXBUFE % WORD = k.IMR_TXBUFE := Nat.mod_eq_of_lt hlt
  simp [Pdc.txArmed, startTXTransfer, doneWriting, leftToWrite, hidle, setTx,
    stopTxDoneInterrupts, Pdc.write, hwWrite, hd, hmod, clearBits_land_self]

end PdcLemmas

/-- C14, as stated, fails: on an idle PDC receive channel whose completion
interrupt is armed, `startRXTransfer(buffer, 0, handle_interrupts = true)` masks
the interrupt, finds `length == 0` and returns without arming it again. -/
theorem C14_zero_length_returns_masked :
    (pdcBusy 0 0).rxArmed samPdcConsts = true ∧
    ¬ ((DMA_PDC.startRXTransfer samPdcConsts 0x20001000 0 true false (pdcBusy 0 0)).2.rxArmed
        samPdcConsts = true) := by
  decide

/-- C14, amended: on the PDC backend, in both directions, with the interrupt
constants as the data sheet gives them: if the completion interrupt of the
direction was armed before a `start` call with `handle_interrupts = true`, it is
armed when the call returns, for every state, buffer and `include_next`, provided
`length != 0` or the current count is non-zero at the call; a zero-length request
on a channel whose current count is zero returns with the interrupt masked. -/
theorem C14_interrupt_rearmed (k : PdcConsts) (hk : k.IrqSound) :
    (∀ (m : Pdc) (buffer length : Nat) (nx : Bool), m.rxArmed k = true →
      (length ≠ 0 ∨ m.regs.PERIPH_RCR ≠ 0) →
      (DMA_PDC.startRXTransfer k buffer length true nx m).2.rxArmed k = true) ∧
    (∀ (m : Pdc) (buffer : Nat) (nx : Bool), m.regs.PERIPH_RCR = 0 →
      (DMA_PDC.startRXTransfer k buffer 0 true nx m).2.rxArmed k = false) ∧
    (∀ (m : Pdc) (buffer length : Nat) (nx : Bool), m.txArmed k = true →
      (length ≠ 0 ∨ m.regs.PERIPH_TCR ≠ 0) →
      (DMA_PDC.startTXTransfer k buffer length true nx m).2.txArmed k = true) ∧
    (∀ (m : Pdc) (buffer : Nat) (nx : Bool), m.regs.PERIPH_TCR = 0 →
      (DMA_PDC.startTXTransfer k buffer 0 true nx m).2.txArmed k = false) :=
  ⟨fun m b l nx h1 h2 => pdc_startRX_rearms k hk m b l nx h1 h2,
   fun m b nx h => pdc_startRX_zero_masks k hk m b nx h,
   fun m b l nx h1 h2 => pdc_startTX_rearms k hk m b l nx h1 h2,
   fun m b nx h => pdc_startTX_zero_masks k hk m b nx h⟩

/-- Instance of C14 (amended): the SAM constants, an idle receive channel with the
interrupt armed and an 8-unit request. -/
theorem C14_interrupt_rearmed_witness :
    samPdcConsts.IrqSound ∧
    ((pdcBusy 0 0).rxArmed samPdcConsts = true ∧ (8 ≠ 0 ∨ (pdcBusy 0 0).regs.PERIPH_RCR ≠ 0)) ∧
    (DMA_PDC.startRXTransfer samPdcConsts 0x20001000 8 true false (pdcBusy 0 0)).2.rxArmed
      samPdcConsts = true :=
  ⟨by decide, ⟨by decide, Or.inl (by decide)⟩,
   (C14_interrupt_rearmed samPdcConsts (by decide)).1 (pdcBusy 0 0) 0x20001000 8 false
     (by decide) (Or.inl (by decide))⟩

/-! ## Independence of the two directions -/

theorem testBit_enable_other (g a b : Nat) (hab : a ≠ b) (hb : b < 32) :
    ((g ||| (1 <<< a) % WORD) % WORD).testBit b = g.testBit b := by
  unfold WORD
  rw [Nat.testBit_mod_two_pow, Nat.testBit_or, Nat.testBit_mod_two_pow, Nat.one_shiftLeft,
    Nat.testBit_two_pow_of_ne hab]
  simp [hb]

theorem testBit_disable_other (g a b : Nat) (hab : a ≠ b) :
    (clearBits g ((1 <<< a) % WORD)).testBit b = g.testBit b := by
  unfold WORD
  rw [testBit_clearBits, Nat.testBit_mod_two_pow, Nat.one_shiftLeft,
    Nat.testBit_two_pow_of_ne hab]
  simp

section PdcLemmas
open DMA_PDC

theorem pdc_rx_ops_keep_txSide (k : PdcConsts) (hk : k.Sound) (hq : k.IrqSound) (m : Pdc)
    (buffer length : Nat) (hi nx : Bool) :
    (startRXTransfer k buffer length hi nx m).2.txSide k = m.txSide k ∧
    (setRx k buffer length m).txSide k = m.txSide k ∧
    (setNextRx k buffer length m).txSide k = m.txSide k ∧
    (flushRead k m).txSide k = m.txSide k ∧
    (enableRx k m).txSide k = m.txSide k ∧
    (disableRx k m).txSide k = m.txSide k := by
  obtain ⟨h1, h2, _, _, _, _, _, _, _, h10, h11, h12, h13, _⟩ := hk
  obtain ⟨he, hd, _, _, _, _, hlr, hlt, _, _, hdis⟩ := hq
  have m1 : k.PERIPH_PTCR_RXTEN % WORD = k.PERIPH_PTCR_RXTEN := Nat.mod_eq_of_lt h1
  have m2 : k.PERIPH_PTCR_RXTDIS % WORD = k.PERIPH_PTCR_RXTDIS := Nat.mod_eq_of_lt h2
  have m3 : k.IMR_RXBUFF % WORD = k.IMR_RXBUFF := Nat.mod_eq_of_lt hlr
  have e1 := lor_mod_word_land_disjoint m.regs.IMR k.IMR_RXBUFF k.IMR_TXBUFE hlt hdis
  have e2 := clearBits_land_disjoint m.regs.IMR k.IMR_RXBUFF k.IMR_TXBUFE hdis
  have e3 := lor_mod_word_land_disjoint (clearBits m.regs.IMR k.IMR_RXBUFF) k.IMR_RXBUFF
    k.IMR_TXBUFE hlt hdis
  refine ⟨?_, ?_, ?_, ?_, ?_, ?_⟩
  · by_cases hc : m.regs.PERIPH_RCR = 0 <;> by_cases hn : m.regs.PERIPH_RNCR = 0 <;>
      by_cases h0 : length = 0 <;> cases hi <;> cases nx <;>
      simp [Pdc.txSide, startRXTransfer, doneReading, doneReadingNext, leftToRead,
        leftToReadNext, hc, hn, h0, setRx, setNextRx, enableRx, startRxDoneInterrupts,
        stopRxDoneInterrupts, Pdc.write, hwWrite, he, hd, m1, m3, h10, h11, e1, e2, e3]
  · simp [Pdc.txSide, setRx, Pdc.write, hwWrite]
  · simp [Pdc.txSide, setNextRx, Pdc.write, hwWrite]
  · simp [Pdc.txSide, flushRead, Pdc.write, hwWrite]
  · simp [Pdc.txSide, enableRx, Pdc.write, hwWrite, m1, h10, h11]
  · simp [Pdc.txSide, disableRx, Pdc.write, hwWrite, m2, h12, h13]

theorem pdc_tx_ops_keep_rxSide (k : PdcConsts) (hk : k.Sound) (hq : k.IrqSound) (m : Pdc)
    (buffer length : Nat) (hi nx : Bool) :
    (startTXTransfer k buffer length hi nx m).2.rxSide k = m.rxSide k ∧
    (setTx k buffer length m).rxSide k = m.rxSide k ∧
    (setNextTx k buffer length m).rxSide k = m.rxSide k ∧
    (enableTx k m).rxSide k = m.rxSide k ∧
    (disableTx k m).rxSide k = m.rxSide k := by
  obtain ⟨_, _, h3, h4, _, _, _, _, _, h10, h11, h12, h13, _⟩ := hk
  obtain ⟨_, _, _, he, hd, _, hlr, hlt, _, _, hdis⟩ := hq
  have m1 : k.PERIPH_PTCR_TXTEN % WORD = k.PERIPH_PTCR_TXTEN := Nat.mod_eq_of_lt h3
  have m2 : k.PERIPH_PTCR_TXTDIS % WORD = k.PERIPH_PTCR_TXTDIS := Nat.mod_eq_of_lt h4
  have m3 : k.IMR_TXBUFE % WORD = k.IMR_TXBUFE := Nat.mod_eq_of_lt hlt
  have c10 : k.PERIPH_PTCR_TXTEN &&& k.PERIPH_PTCR_RXTEN = 0 := by rw [Nat.land_comm]; exact h10
  have c11 : k.PERIPH_PTCR_TXTDIS &&& k.PERIPH_PTCR_RXTEN = 0 := by rw [Nat.land_comm]; exact h11
  have c12 : k.PERIPH_PTCR_TXTEN &&& k.PERIPH_PTCR_RXTDIS = 0 := by rw [Nat.land_comm]; exact h12
  have c13 : k.PERIPH_PTCR_TXTDIS &&& k.PERIPH_PTCR_RXTDIS = 0 := by
    rw [Nat.land_comm]; exact h13
  have hdis2 : k.IMR_TXBUFE &&& k.IMR_RXBUFF = 0 := by rw [Nat.land_comm]; exact hdis
  have e1 := lor_mod_word_land_disjoint m.regs.IMR k.IMR_TXBUFE k.IMR_RXBUFF hlr hdis2
  have e2 := clearBits_land_disjoint m.regs.IMR k.IMR_TXBUFE k.IMR_RXBUFF hdis2
  have e3 := lor_mod_word_land_disjoint (clearBits m.regs.IMR k.IMR_TXBUFE) k.IMR_TXBUFE
    k.IMR_RXBUFF hlr hdis2
  refine ⟨?_, ?_, ?_, ?_, ?_⟩
  · by_cases hc : m.regs.PERIPH_TCR = 0 <;> by_cases hn : m.regs.PERIPH_TNCR = 0 <;>
      by_cases h0 : length = 0 <;> cases hi <;> cases nx <;>
      simp [Pdc.rxSide, startTXTransfer, doneWriting, doneWritingNext, leftToWrite,
        leftToWriteNext, hc, hn, h0, setTx, setNextTx, enableTx, startTxDoneInterrupts,
        stopTxDoneInterrupts, Pdc.write, hwWrite, he, hd, m1, m3, c10, c12, e1, e2, e3]
  · simp [Pdc.rxSide, setTx, Pdc.write, hwWrite]
  · simp [Pdc.rxSide, setNextTx, Pdc.write, hwWrite]
  · simp [Pdc.rxSide, enableTx, Pdc.write, hwWrite, m1, c10, c12]
  · simp [Pdc.rxSide, disableTx, Pdc.write, hwWrite, m2, c11, c13]

end PdcLemmas

section XdmacLemmas
open DMA_XDMAC

theorem xdmac_rx_ops_keep_txSide (k : XdmacConsts) (hw : XdmacHw) (hk : k.Sound)
    (hne : hw.xdmaRxChannelNumber ≠ hw.xdmaTxChannelNumber) (htx : hw.xdmaTxChannelNumber < 32)
    (m : Xdmac) (buffer length : Nat) (hi nx : Bool) :
    (startRXTransfer k hw buffer length hi nx m).2.txSide hw = m.txSide hw ∧
    (setRx hw buffer length m).txSide hw = m.txSide hw ∧
    (setNextRx hw buffer length m).txSide hw = m.txSide hw ∧
    (flushRead hw m).txSide hw = m.txSide hw ∧
    (enableRx k hw m).txSide hw = m.txSide hw ∧
    (disableRx k hw m).txSide hw = m.txSide hw := by
  obtain ⟨hd, he⟩ := hk
  have hne2 : hw.xdmaTxChannelNumber ≠ hw.xdmaRxChannelNumber := fun e => hne e.symm
  have e1 := testBit_enable_other m.regs.XDMAC_GS _ _ hne htx
  have e2 := testBit_disable_other m.regs.XDMAC_GS _ _ hne
  refine ⟨?_, ?_, ?_, ?_, ?_, ?_⟩
  · by_cases hc : (m.regs.XDMAC_CHID hw.xdmaRxChannelNumber).XDMAC_CUBC = 0 <;>
      by_cases h0 : length = 0 <;> cases hi <;> cases nx <;>
      simp [Xdmac.txSide, Xdmac.enabled, startRXTransfer, doneReading, doneReadingNext,
        leftToRead, leftToReadNext, xdmaRxChannel, hc, h0, setRx, setNextRx, enableRx,
        startRxDoneInterrupts, stopRxDoneInterrupts, Xdmac.write, xdmacHwWrite,
        XdmacRegs.onChannel, Function.update, hne2, he, e1]
  · simp [Xdmac.txSide, Xdmac.enabled, setRx, Xdmac.write, xdmacHwWrite, XdmacRegs.onChannel,
      Function.update, hne2]
  · simp [Xdmac.txSide, setNextRx]
  · simp [Xdmac.txSide, Xdmac.enabled, flushRead, Xdmac.write, xdmacHwWrite,
      XdmacRegs.onChannel, Function.update, hne2]
  · simp [Xdmac.txSide, Xdmac.enabled, enableRx, Xdmac.write, xdmacHwWrite, he, e1]
  · simp [Xdmac.txSide, Xdmac.enabled, disableRx, Xdmac.write, xdmacHwWrite, hd, e2]

theorem xdmac_tx_ops_keep_rxSide (k : XdmacConsts) (hw : XdmacHw) (hk : k.Sound)
    (hne : hw.xdmaRxChannelNumber ≠ hw.xdmaTxChannelNumber) (hrx : hw.xdmaRxChannelNumber < 32)
    (m : Xdmac) (buffer length : Nat) (hi nx : Bool) :
    (startTXTransfer k hw buffer length hi nx m).2.rxSide hw = m.rxSide hw ∧
    (setTx hw buffer length m).rxSide hw = m.rxSide hw ∧
    (setNextTx hw buffer length m).rxSide hw = m.rxSide hw ∧
    (enableTx k hw m).rxSide hw = m.rxSide hw ∧
    (disableTx k hw m).rxSide hw = m.rxSide hw := by
  obtain ⟨hd, he⟩ := hk
  have hne2 : hw.xdmaTxChannelNumber ≠ hw.xdmaRxChannelNumber := fun e => hne e.symm
  have e1 := testBit_enable_other m.regs.XDMAC_GS _ _ hne2 hrx
  have e2 := testBit_disable_other m.regs.XDMAC_GS _ _ hne2
  refine ⟨?_, ?_, ?_, ?_, ?_⟩
  · by_cases hc : (m.regs.XDMAC_CHID hw.xdmaTxChannelNumber).XDMAC_CUBC = 0 <;>
      by_cases h0 : length = 0 <;> cases hi <;> cases nx <;>
      simp [Xdmac.rxSide, Xdmac.enabled, startTXTransfer, doneWriting, doneWritingNext,
        leftToWrite, leftToWriteNext, xdmaTxChannel, hc, h0, setTx, setNextTx, enableTx,
        startTxDoneInterrupts, stopTxDoneInterrupts, Xdmac.write, xdmacHwWrite,
        XdmacRegs.onChannel, Function.update, hne, he, e1]
  · simp [Xdmac.rxSide, Xdmac.enabled, setTx, Xdmac.write, xdmacHwWrite, XdmacRegs.onChannel,
      Function.update, hne]
  · simp [Xdmac.rxSide, setNextTx]
  · simp [Xdmac.rxSide, Xdmac.enabled, enableTx, Xdmac.write, xdmacHwWrite, he, e1]
  · simp [Xdmac.rxSide, Xdmac.enabled, disableTx, Xdmac.write, xdmacHwWrite, hd, e2]

end XdmacLemmas

theorem valid_instance_channels (p : PeriphKind) (n : Nat) (h : validInstance p n) :
    xdmaChannelNumber p n .Receive ≠ xdmaChannelNumber p n .Transmit ∧
    xdmaChannelNumber p n .Receive < 23 ∧ xdmaChannelNumber p n .Transmit < 23 := by
  cases p <;> simp only [validInstance] at h <;> interval_cases n <;> decide

/-- C15: the two directions of one peripheral instance share no state.  With the
header constants as the data sheet gives them: on the PDC backend every
receive-side operation (`startRXTransfer`, `setRx`, `setNextRx`, `flushRead`,
`enableRx`, `disableRx`) leaves the transmit side (the four transmit descriptor
registers, the transmit enable state, the transmit bits of the interrupt mask)
unchanged, and every transmit-side operation leaves the receive side unchanged;
on the XDMAC backend the same holds for the channel register block and the enable
state of the other direction whenever the two channel numbers differ (and are
below 32), which is the case for every valid instance (USART 0..2, UART 0..4). -/
theorem C15_directions_independent (k : PdcConsts) (xk : XdmacConsts) (hw : XdmacHw)
    (hk : k.Sound) (hq : k.IrqSound) (hx : xk.Sound)
    (hne : hw.xdmaRxChannelNumber ≠ hw.xdmaTxChannelNumber)
    (hrx : hw.xdmaRxChannelNumber < 32) (htx : hw.xdmaTxChannelNumber < 32) :
    (∀ (m : Pdc) (buffer length : Nat) (hi nx : Bool),
      (DMA_PDC.startRXTransfer k buffer length hi nx m).2.txSide k = m.txSide k ∧
      (DMA_PDC.setRx k buffer length m).txSide k = m.txSide k ∧
      (DMA_PDC.setNextRx k buffer length m).txSide k = m.txSide k ∧
      (DMA_PDC.flushRead k m).txSide k = m.txSide k ∧
      (DMA_PDC.enableRx k m).txSide k = m.txSide k ∧
      (DMA_PDC.disableRx k m).txSide k = m.txSide k) ∧
    (∀ (m : Pdc) (buffer length : Nat) (hi nx : Bool),
      (DMA_PDC.startTXTransfer k buffer length hi nx m).2.rxSide k = m.rxSide k ∧
      (DMA_PDC.setTx k buffer length m).rxSide k = m.rxSide k ∧
      (DMA_PDC.setNextTx k buffer length m).rxSide k = m.rxSide k ∧
      (DMA_PDC.enableTx k m).rxSide k = m.rxSide k ∧
      (DMA_PDC.disableTx k m).rxSide k = m.rxSide k) ∧
    (∀ (m : Xdmac) (buffer length : Nat) (hi nx : Bool),
      (DMA_XDMAC.startRXTransfer xk hw buffer length hi nx m).2.txSide hw = m.txSide hw ∧
      (DMA_XDMAC.setRx hw buffer length m).txSide hw = m.txSide hw ∧
      (DMA_XDMAC.setNextRx hw buffer length m).txSide hw = m.txSide hw ∧
      (DMA_XDMAC.flushRead hw m).txSide hw = m.txSide hw ∧
      (DMA_XDMAC.enableRx xk hw m).txSide hw = m.txSide hw ∧
      (DMA_XDMAC.disableRx xk hw m).txSide hw = m.txSide hw) ∧
    (∀ (m : Xdmac) (buffer length : Nat) (hi nx : Bool),
      (DMA_XDMAC.startTXTransfer xk hw buffer length hi nx m).2.rxSide hw = m.rxSide hw ∧
      (DMA_XDMAC.setTx hw buffer length m).rxSide hw = m.rxSide hw ∧
      (DMA_XDMAC.setNextTx hw buffer length m).rxSide hw = m.rxSide hw ∧
      (DMA_XDMAC.enableTx xk hw m).rxSide hw = m.rxSide hw ∧
      (DMA_XDMAC.disableTx xk hw m).rxSide hw = m.rxSide hw) ∧
    (∀ (p : PeriphKind) (n : Nat), validInstance p n →
      xdmaChannelNumber p n .Receive ≠ xdmaChannelNumber p n .Transmit ∧
      xdmaChannelNumber p n .Receive < 23 ∧ xdmaChannelNumber p n .Transmit < 23) :=
  ⟨fun m b l hi nx => pdc_rx_ops_keep_txSide k hk hq m b l hi nx,
   fun m b l hi nx => pdc_tx_ops_keep_rxSide k hk hq m b l hi nx,
   fun m b l hi nx => xdmac_rx_ops_keep_txSide xk hw hx hne htx m b l hi nx,
   fun m b l hi nx => xdmac_tx_ops_keep_rxSide xk hw hx hne hrx m b l hi nx,
   valid_instance_channels⟩

/-- Instance of C15: the SAM constants and USART 0; a receive start on a PDC with
an idle receive channel, and a receive start on the XDMAC, leave the transmit side as
it was. -/
theorem C15_directions_independent_witness :
    (samPdcConsts.Sound ∧ samPdcConsts.IrqSound ∧ samXdmacConsts.Sound ∧
      usart0Hw.xdmaRxChannelNumber ≠ usart0Hw.xdmaTxChannelNumber ∧
      usart0Hw.xdmaRxChannelNumber < 32 ∧ usart0Hw.xdmaTxChannelNumber < 32) ∧
    (DMA_PDC.startRXTransfer samPdcConsts 0x20001000 8 true false (pdcBusy 0 0)).2.txSide
      samPdcConsts = (pdcBusy 0 0).txSide samPdcConsts ∧
    (DMA_XDMAC.startRXTransfer samXdmacConsts usart0Hw 0x20001000 8 true false
      (xdmacAll 0 0 0)).2.txSide usart0Hw = (xdmacAll 0 0 0).txSide usart0Hw :=
  have h := C15_directions_independent samPdcConsts samXdmacConsts usart0Hw (by decide)
    (by decide) (by decide) (by decide) (by decide) (by decide)
  ⟨⟨by decide, by decide, by decide, by decide, by decide, by decide⟩,
   (h.1 (pdcBusy 0 0) 0x20001000 8 true false).1,
   (h.2.2.1 (xdmacAll 0 0 0) 0x20001000 8 true false).1⟩

/-! ## XDMAC channel assignment -/

theorem channel_numbers_injective (p1 : PeriphKind) (n1 : Nat) (d1 : Direction)
    (p2 : PeriphKind) (n2 : Nat) (d2 : Direction)
    (h1 : validInstance p1 n1) (h2 : validInstance p2 n2)
    (heq : xdmaChannelNumber p1 n1 d1 = xdmaChannelNumber p2 n2 d2) :
    p1 = p2 ∧ n1 = n2 ∧ d1 = d2 := by
  cases p1 <;> cases p2 <;> simp only [validInstance] at h1 h2 <;>
    interval_cases n1 <;> interval_cases n2 <;> cases d1 <;> cases d2 <;>
    first
      | exact ⟨rfl, rfl, rfl⟩
      | exact absurd heq (by decide)

theorem channel_numbers_bounded (p : PeriphKind) (n : Nat) (d : Direction)
    (h : validInstance p n) : xdmaChannelNumber p n d < 23 := by
  cases p <;> simp only [validInstance] at h <;> interval_cases n <;> cases d <;> decide

/-- C16: XDMAC channels are assigned uniquely.  Over all valid (peripheral kind,
instance, direction) triples (USART instances 0..2 and UART instances 0..4,
receive and transmit), the channel number returned by `xdmaRxChannelNumber()` /
`xdmaTxChannelNumber()` is injective, and every returned channel number is less
than 23. -/
theorem C16_channel_assignment_unique (p1 : PeriphKind) (n1 : Nat) (d1 : Direction)
    (p2 : PeriphKind) (n2 : Nat) (d2 : Direction)
    (h1 : validInstance p1 n1) (h2 : validInstance p2 n2) :
    (xdmaChannelNumber p1 n1 d1 = xdmaChannelNumber p2 n2 d2 → p1 = p2 ∧ n1 = n2 ∧ d1 = d2) ∧
    xdmaChannelNumber p1 n1 d1 < 23 ∧ xdmaChannelNumber p2 n2 d2 < 23 :=
  ⟨fun heq => channel_numbers_injective p1 n1 d1 p2 n2 d2 h1 h2 heq,
   channel_numbers_bounded p1 n1 d1 h1, channel_numbers_bounded p2 n2 d2 h2⟩

/-- Instance of C16: USART 2 receive (channel 5) and UART 0 transmit (channel 6). -/
theorem C16_channel_assignment_unique_witness :
    (validInstance .Usart 2 ∧ validInstance .Uart 0) ∧
    xdmaChannelNumber .Usart 2 .Receive = 5 ∧ xdmaChannelNumber .Uart 0 .Transmit = 6 ∧
    xdmaChannelNumber .Usart 2 .Receive < 23 ∧ xdmaChannelNumber .Uart 0 .Transmit < 23 :=
  have h := C16_channel_assignment_unique .Usart 2 .Receive .Uart 0 .Transmit
    (by decide) (by decide)
  ⟨⟨by decide, by decide⟩, rfl, rfl, h.2.1, h.2.2⟩

/-! ## The pending-slot operations of the XDMAC backend -/

/-- C17: on the XDMAC backend the pending-slot operations are a fixed zero /
no-op: for every state, buffer and length, `setNextRx` and `setNextTx` leave the
machine state unchanged, `leftToReadNext()` and `leftToWriteNext()` return 0,
`doneReadingNext()` and `doneWritingNext()` return `true`, and
`leftToRead(true) == leftToRead(false)`, `leftToWrite(true) == leftToWrite(false)`. -/
theorem C17_xdmac_pending_slot_is_a_stub (hw : XdmacHw) (m : Xdmac) (buffer length : Nat) :
    DMA_XDMAC.setNextRx hw buffer length m = m ∧
    DMA_XDMAC.setNextTx hw buffer length m = m ∧
    DMA_XDMAC.leftToReadNext hw m = 0 ∧
    DMA_XDMAC.leftToWriteNext hw m = 0 ∧
    DMA_XDMAC.doneReadingNext hw m = true ∧
    DMA_XDMAC.doneWritingNext hw m = true ∧
    DMA_XDMAC.leftToRead hw true m = DMA_XDMAC.leftToRead hw false m ∧
    DMA_XDMAC.leftToWrite hw true m = DMA_XDMAC.leftToWrite hw false m :=
  ⟨rfl, rfl, rfl, rfl, rfl, rfl, rfl, rfl⟩

/-! ## The register writes made by `start` (PDC) -/

section PdcLemmas
open DMA_PDC

theorem pdc_startRX_idle_log (k : PdcConsts) (m : Pdc) (buffer length : Nat) (nx : Bool)
    (hidle : m.regs.PERIPH_RCR = 0) (hne : length ≠ 0) :
    (startRXTransfer k buffer length true nx m).2.log
      = m.log ++ [(PdcReg.IDR, k.IDR_RXBUFF % WORD), (PdcReg.RPR, buffer % WORD),
          (PdcReg.RCR, length % WORD), (PdcReg.IER, k.IER_RXBUFF % WORD),
          (PdcReg.PTCR, k.PERIPH_PTCR_RXTEN % WORD)] ∧
    (startRXTransfer k buffer length false nx m).2.log
      = m.log ++ [(PdcReg.RPR, buffer % WORD), (PdcReg.RCR, length % WORD),
          (PdcReg.PTCR, k.PERIPH_PTCR_RXTEN % WORD)] := by
  constructor <;>
  simp [startRXTransfer, doneReading, leftToRead, hidle, hne, setRx, enableRx,
    startRxDoneInterrupts, stopRxDoneInterrupts, Pdc.write]

theorem pdc_startTX_idle_log (k : PdcConsts) (m : Pdc) (buffer length : Nat) (nx : Bool)
    (hidle : m.regs.PERIPH_TCR = 0) (hne : length ≠ 0) :
    (startTXTransfer k buffer length true nx m).2.log
      = m.log ++ [(PdcReg.IDR, k.IDR_TXBUFE % WORD), (PdcReg.TPR, buffer % WORD),
          (PdcReg.TCR, length % WORD), (PdcReg.IER, k.IER_TXBUFE % WORD),
          (PdcReg.PTCR, k.PERIPH_PTCR_TXTEN % WORD)] ∧
    (startTXTransfer k buffer length false nx m).2.log
      = m.log ++ [(PdcReg.TPR, buffer % WORD), (PdcReg.TCR, length % WORD),
          (PdcReg.PTCR, k.PERIPH_PTCR_TXTEN % WORD)] := by
  constructor <;>
  simp [startTXTransfer, doneWriting, leftToWrite, hidle, hne, setTx, enableTx,
    startTxDoneInterrupts, stopTxDoneInterrupts, Pdc.write]

theorem pdc_startRX_pending_path (k : PdcConsts) (m : Pdc) (buffer length : Nat) (hi : Bool)
    (hbusy : m.regs.PERIPH_RCR ≠ 0) (hfree : m.regs.PERIPH_RNCR = 0) :
    (startRXTransfer k buffer length hi true m).2.log
      = m.log ++ [(PdcReg.RNPR, buffer % WORD), (PdcReg.RNCR, length % WORD)] ∧
    (startRXTransfer k buffer length hi true m).2.regs
      = { m.regs with PERIPH_RNPR := buffer % WORD, PERIPH_RNCR := length % WORD } := by
  constructor <;>
  simp [startRXTransfer, doneReading, doneReadingNext, leftToRead, leftToReadNext, hbusy, hfree,
    setNextRx, Pdc.write, hwWrite]

theorem pdc_startTX_pending_path (k : PdcConsts) (m : Pdc) (buffer length : Nat) (hi : Bool)
    (hbusy : m.regs.PERIPH_TCR ≠ 0) (hfree : m.regs.PERIPH_TNCR = 0) :
    (startTXTransfer k buffer length hi true m).2.log
      = m.log ++ [(PdcReg.TNPR, buffer % WORD), (PdcReg.TNCR, length % WORD)] ∧
    (startTXTransfer k buffer length hi true m).2.regs
      = { m.regs with PERIPH_TNPR := buffer % WORD, PERIPH_TNCR := length % WORD } := by
  constructor <;>
  simp [startTXTransfer, doneWriting, doneWritingNext, leftToWrite, leftToWriteNext, hbusy, hfree,
    setNextTx, Pdc.write, hwWrite]

end PdcLemmas

/-- C18: on the PDC backend, for a channel whose current count is zero and
`length != 0`, the ordered sequence of register writes made by `start` with
`handle_interrupts = true` is exactly: completion-interrupt disable, current
pointer := buffer, current count := length, completion-interrupt enable,
direction enable; with `handle_interrupts = false` it is the same sequence without
the two interrupt writes.  Both directions; every value is the stored `uint32_t`. -/
theorem C18_pdc_start_write_order (k : PdcConsts) :
    (∀ (m : Pdc) (buffer length : Nat) (nx : Bool), m.regs.PERIPH_RCR = 0 → length ≠ 0 →
      (DMA_PDC.startRXTransfer k buffer length true nx m).2.log
        = m.log ++ [(PdcReg.IDR, k.IDR_RXBUFF % WORD), (PdcReg.RPR, buffer % WORD),
            (PdcReg.RCR, length % WORD), (PdcReg.IER, k.IER_RXBUFF % WORD),
            (PdcReg.PTCR, k.PERIPH_PTCR_RXTEN % WORD)] ∧
      (DMA_PDC.startRXTransfer k buffer length false nx m).2.log
        = m.log ++ [(PdcReg.RPR, buffer % WORD), (PdcReg.RCR, length % WORD),
            (PdcReg.PTCR, k.PERIPH_PTCR_RXTEN % WORD)]) ∧
    (∀ (m : Pdc) (buffer length : Nat) (nx : Bool), m.regs.PERIPH_TCR = 0 → length ≠ 0 →
      (DMA_PDC.startTXTransfer k buffer length true nx m).2.log
        = m.log ++ [(PdcReg.IDR, k.IDR_TXBUFE % WORD), (PdcReg.TPR, buffer % WORD),
            (PdcReg.TCR, length % WORD), (PdcReg.IER, k.IER_TXBUFE % WORD),
            (PdcReg.PTCR, k.PERIPH_PTCR_TXTEN % WORD)] ∧
      (DMA_PDC.startTXTransfer k buffer length false nx m).2.log
        = m.log ++ [(PdcReg.TPR, buffer % WORD), (PdcReg.TCR, length % WORD),
            (PdcReg.PTCR, k.PERIPH_PTCR_TXTEN % WORD)]) :=
  ⟨fun m b l nx h1 h2 => pdc_startRX_idle_log k m b l nx h1 h2,
   fun m b l nx h1 h2 => pdc_startTX_idle_log k m b l nx h1 h2⟩

/-- Instance of C18: the five writes of an 8-unit receive start on a zeroed PDC
with the SAM constants. -/
theorem C18_pdc_start_write_order_witness :
    (pdcZero.regs.PERIPH_RCR = 0 ∧ 8 ≠ 0) ∧
    (DMA_PDC.startRXTransfer samPdcConsts 0x20001000 8 true false pdcZero).2.log
      = [(PdcReg.IDR, 0x1000), (PdcReg.RPR, 0x20001000), (PdcReg.RCR, 8),
         (PdcReg.IER, 0x1000), (PdcReg.PTCR, 1)] :=
  ⟨⟨rfl, by decide⟩,
   ((C18_pdc_start_write_order samPdcConsts).1 pdcZero 0x20001000 8 false rfl
      (by decide)).1.trans (by decide)⟩

/-- C19: on the PDC backend, when `start` takes the pending-slot path (current
count non-zero, `include_next = true`, next count zero), it writes exactly the
next-pointer and the next-count register of that direction, in this order, and
nothing else: the register state at return is the state at the call with those
two registers replaced, so the interrupt mask, the enable state of both
directions and the current pointer and count are unchanged, for either value of
`handle_interrupts`. -/
theorem C19_pdc_pending_path_writes (k : PdcConsts) :
    (∀ (m : Pdc) (buffer length : Nat) (hi : Bool),
      m.regs.PERIPH_RCR ≠ 0 → m.regs.PERIPH_RNCR = 0 →
      (DMA_PDC.startRXTransfer k buffer length hi true m).2.log
        = m.log ++ [(PdcReg.RNPR, buffer % WORD), (PdcReg.RNCR, length % WORD)] ∧
      (DMA_PDC.startRXTransfer k buffer length hi true m).2.regs
        = { m.regs with PERIPH_RNPR := buffer % WORD, PERIPH_RNCR := length % WORD }) ∧
    (∀ (m : Pdc) (buffer length : Nat) (hi : Bool),
      m.regs.PERIPH_TCR ≠ 0 → m.regs.PERIPH_TNCR = 0 →
      (DMA_PDC.startTXTransfer k buffer length hi true m).2.log
        = m.log ++ [(PdcReg.TNPR, buffer % WORD), (PdcReg.TNCR, length % WORD)] ∧
      (DMA_PDC.startTXTransfer k buffer length hi true m).2.regs
        = { m.regs with PERIPH_TNPR := buffer % WORD, PERIPH_TNCR := length % WORD }) :=
  ⟨fun m b l hi h1 h2 => pdc_startRX_pending_path k m b l hi h1 h2,
   fun m b l hi h1 h2 => pdc_startTX_pending_path k m b l hi h1 h2⟩

/-- Instance of C19: queuing 50 units behind 100 in flight on the receive side
keeps the interrupt mask, the enable state and the current descriptor. -/
theorem C19_pdc_pending_path_writes_witness :
    ((pdcBusy 100 0).regs.PERIPH_RCR ≠ 0 ∧ (pdcBusy 100 0).regs.PERIPH_RNCR = 0) ∧
    (DMA_PDC.startRXTransfer samPdcConsts 0x20001000 50 true true (pdcBusy 100 0)).2.log
      = [(PdcReg.RNPR, 0x20001000), (PdcReg.RNCR, 50)] ∧
    (DMA_PDC.startRXTransfer samPdcConsts 0x20001000 50 true true (pdcBusy 100 0)).2.regs
      = { (pdcBusy 100 0).regs with PERIPH_RNPR := 0x20001000, PERIPH_RNCR := 50 } :=
  have h := (C19_pdc_pending_path_writes samPdcConsts).1 (pdcBusy 100 0) 0x20001000 50 true
    (by decide) rfl
  ⟨⟨by decide, rfl⟩, h.1.trans (by decide), h.2.trans (by decide)⟩

/-! ## A zero-length `start` on a channel whose current count is zero -/

section PdcLemmas
open DMA_PDC

theorem pdc_startRX_zero_idle (k : PdcConsts) (m : Pdc) (buffer : Nat) (hi nx : Bool)
    (hidle : m.regs.PERIPH_RCR = 0) :
    (startRXTransfer k buffer 0 hi nx m).1 = false ∧
    (startRXTransfer k buffer 0 hi nx m).2.regs.rxten = m.regs.rxten ∧
    (startRXTransfer k buffer 0 hi nx m).2.regs.PERIPH_RCR = 0 := by
  cases hi <;>
  simp [startRXTransfer, doneReading, leftToRead, hidle, setRx, stopRxDoneInterrupts,
    Pdc.write, hwWrite, WORD]

theorem pdc_startTX_zero_idle (k : PdcConsts) (m : Pdc) (buffer : Nat) (hi nx : Bool)
    (hidle : m.regs.PERIPH_TCR = 0) :
    (startTXTransfer k buffer 0 hi nx m).1 = false ∧
    (startTXTransfer k buffer 0 hi nx m).2.regs.txten = m.regs.txten ∧
    (startTXTransfer k buffer 0 hi nx m).2.regs.PERIPH_TCR = 0 := by
  cases hi <;>
  simp [startTXTransfer, doneWriting, leftToWrite, hidle, setTx, stopTxDoneInterrupts,
    Pdc.write, hwWrite, WORD]

end PdcLemmas

section XdmacLemmas
open DMA_XDMAC

theorem xdmac_startRX_zero_idle (k : XdmacConsts) (hw : XdmacHw) (m : Xdmac) (buffer : Nat)
    (hi nx : Bool) (hidle : (xdmaRxChannel hw m).XDMAC_CUBC = 0) :
    (startRXTransfer k hw buffer 0 hi nx m).1 = false ∧
    (startRXTransfer k hw buffer 0 hi nx m).2.enabled hw.xdmaRxChannelNumber
      = m.enabled hw.xdmaRxChannelNumber ∧
    (xdmaRxChannel hw (startRXTransfer k hw buffer 0 hi nx m).2).XDMAC_CUBC = 0 := by
  simp only [xdmaRxChannel] at hidle
  cases hi <;>
  simp [startRXTransfer, doneReading, leftToRead, xdmaRxChannel, Xdmac.enabled, hidle, setRx,
    stopRxDoneInterrupts, Xdmac.write, xdmacHwWrite, XdmacRegs.onChannel, WORD]

theorem xdmac_startTX_zero_idle (k : XdmacConsts) (hw : XdmacHw) (m : Xdmac) (buffer : Nat)
    (hi nx : Bool) (hidle : (xdmaTxChannel hw m).XDMAC_CUBC = 0) :
    (startTXTransfer k hw buffer 0 hi nx m).1 = false ∧
    (startTXTransfer k hw buffer 0 hi nx m).2.enabled hw.xdmaTxChannelNumber
      = m.enabled hw.xdmaTxChannelNumber ∧
    (xdmaTxChannel hw (startTXTransfer k hw buffer 0 hi nx m).2).XDMAC_CUBC = 0 := by
  simp only [xdmaTxChannel] at hidle
  cases hi <;>
  simp [startTXTransfer, doneWriting, leftToWrite, xdmaTxChannel, Xdmac.enabled, hidle, setTx,
    stopTxDoneInterrupts, Xdmac.write, xdmacHwWrite, XdmacRegs.onChannel, WORD]

end XdmacLemmas

/-- C20, as stated, fails: on a PDC receive channel whose current count is zero
(the last transfer has completed) and which is still enabled,
`startRXTransfer(buffer, 0)` returns `false` and makes no write to `PERIPH_PTCR`,
so the direction is still enabled, not disabled, when the call returns. -/
theorem C20_zero_length_keeps_enabled :
    (pdcBusy 0 0).regs.PERIPH_RCR = 0 ∧
    (DMA_PDC.startRXTransfer samPdcConsts 0x20001000 0 true false (pdcBusy 0 0)).1 = false ∧
    ¬ ((DMA_PDC.startRXTransfer samPdcConsts 0x20001000 0 true false (pdcBusy 0 0)).2.regs.rxten
        = false) := by
  decide

/-- C20, amended: on both backends and in both directions, from every state whose
current count is 0, `start(buffer, 0, handle_interrupts, include_next)` returns
`false`, leaves the enable state of the direction as it was before the call (so a
direction that was disabled stays disabled), and the current count is still 0. -/
theorem C20_zero_length_on_idle (k : PdcConsts) (xk : XdmacConsts) (hw : XdmacHw) :
    (∀ (m : Pdc) (buffer : Nat) (hi nx : Bool), m.regs.PERIPH_RCR = 0 →
      (DMA_PDC.startRXTransfer k buffer 0 hi nx m).1 = false ∧
      (DMA_PDC.startRXTransfer k buffer 0 hi nx m).2.regs.rxten = m.regs.rxten ∧
      (DMA_PDC.startRXTransfer k buffer 0 hi nx m).2.regs.PERIPH_RCR = 0) ∧
    (∀ (m : Pdc) (buffer : Nat) (hi nx : Bool), m.regs.PERIPH_TCR = 0 →
      (DMA_PDC.startTXTransfer k buffer 0 hi nx m).1 = false ∧
      (DMA_PDC.startTXTransfer k buffer 0 hi nx m).2.regs.txten = m.regs.txten ∧
      (DMA_PDC.startTXTransfer k buffer 0 hi nx m).2.regs.PERIPH_TCR = 0) ∧
    (∀ (m : Xdmac) (buffer : Nat) (hi nx : Bool),
      (DMA_XDMAC.xdmaRxChannel hw m).XDMAC_CUBC = 0 →
      (DMA_XDMAC.startRXTransfer xk hw buffer 0 hi nx m).1 = false ∧
      (DMA_XDMAC.startRXTransfer xk hw buffer 0 hi nx m).2.enabled hw.xdmaRxChannelNumber
        = m.enabled hw.xdmaRxChannelNumber ∧
      (DMA_XDMAC.xdmaRxChannel hw
        (DMA_XDMAC.startRXTransfer xk hw buffer 0 hi nx m).2).XDMAC_CUBC = 0) ∧
    (∀ (m : Xdmac) (buffer : Nat) (hi nx : Bool),
      (DMA_XDMAC.xdmaTxChannel hw m).XDMAC_CUBC = 0 →
      (DMA_XDMAC.startTXTransfer xk hw buffer 0 hi nx m).1 = false ∧
      (DMA_XDMAC.startTXTransfer xk hw buffer 0 hi nx m).2.enabled hw.xdmaTxChannelNumber
        = m.enabled hw.xdmaTxChannelNumber ∧
      (DMA_XDMAC.xdmaTxChannel hw
        (DMA_XDMAC.startTXTransfer xk hw buffer 0 hi nx m).2).XDMAC_CUBC = 0) :=
  ⟨fun m b hi nx h => pdc_startRX_zero_idle k m b hi nx h,
   fun m b hi nx h => pdc_startTX_zero_idle k m b hi nx h,
   fun m b hi nx h => xdmac_startRX_zero_idle xk hw m b hi nx h,
   fun m b hi nx h => xdmac_startTX_zero_idle xk hw m b hi nx h⟩

/-- Instance of C20 (amended): a zero-length receive request on a zeroed PDC, whose
receive direction is disabled, returns `false` and leaves it disabled. -/
theorem C20_zero_length_on_idle_witness :
    (pdcZero.regs.PERIPH_RCR = 0 ∧ pdcZero.regs.rxten = false) ∧
    (DMA_PDC.startRXTransfer samPdcConsts 0x20001000 0 true false pdcZero).1 = false ∧
    (DMA_PDC.startRXTransfer samPdcConsts 0x20001000 0 true false pdcZero).2.regs.rxten = false :=
  have h := (C20_zero_length_on_idle samPdcConsts samXdmacConsts usart0Hw).1 pdcZero 0x20001000
    true false rfl
  ⟨⟨rfl, rfl⟩, h.1, h.2.1⟩

/-! ## `flushRead` and hardware promotion -/

theorem hwRxPromote_of_next_zero (m : Pdc) (h : m.regs.PERIPH_RNCR = 0) : hwRxPromote m = m := by
  simp [hwRxPromote, h]

theorem hwRxPromote_iterate_of_next_zero (n : Nat) (m : Pdc) (h : m.regs.PERIPH_RNCR = 0) :
    hwRxPromote^[n] m = m := by
  induction n with
  | zero => rfl
  | succ n ih => rw [Function.iterate_succ_apply, hwRxPromote_of_next_zero m h, ih]

theorem pdc_flushRead_with_promotion (k : PdcConsts) (n0 n1 n2 : Nat) (m : Pdc) :
    (flushReadWithPromotion k n0 n1 n2 m).regs.PERIPH_RCR = 0 ∧
    (flushReadWithPromotion k n0 n1 n2 m).regs.PERIPH_RNCR = 0 := by
  have h1 : ((hwRxPromote^[n0] m).write k .RNCR 0).regs.PERIPH_RNCR = 0 := by
    simp [Pdc.write, hwWrite]
  have h2 : ((hwRxPromote^[n1] ((hwRxPromote^[n0] m).write k .RNCR 0)).write k .RCR 0).regs.PERIPH_RNCR
      = 0 := by
    rw [hwRxPromote_iterate_of_next_zero n1 _ h1]
    simp [Pdc.write, hwWrite]
  have h3 : ((hwRxPromote^[n1] ((hwRxPromote^[n0] m).write k .RNCR 0)).write k .RCR 0).regs.PERIPH_RCR
      = 0 := by
    simp [Pdc.write, hwWrite]
  unfold flushReadWithPromotion
  rw [hwRxPromote_iterate_of_next_zero n2 _ h2]
  exact ⟨h3, h2⟩

/-- C21: PDC `flushRead()` clears the next count before the current count, and
the abort is robust to hardware promotion: for every receive state, with the
promotion step firing any number of times before, between and after the two
register writes of `flushRead`, the final state has current count 0 and next
count 0.  With no promotion step the interleaved run is `flushRead` itself, whose
two writes are next count := 0, then current count := 0. -/
theorem C21_flushRead_robust_to_promotion (k : PdcConsts) (m : Pdc) (n0 n1 n2 : Nat) :
    (flushReadWithPromotion k n0 n1 n2 m).regs.PERIPH_RCR = 0 ∧
    (flushReadWithPromotion k n0 n1 n2 m).regs.PERIPH_RNCR = 0 ∧
    flushReadWithPromotion k 0 0 0 m = DMA_PDC.flushRead k m ∧
    (DMA_PDC.flushRead k m).log = m.log ++ [(PdcReg.RNCR, 0), (PdcReg.RCR, 0)] :=
  ⟨(pdc_flushRead_with_promotion k n0 n1 n2 m).1, (pdc_flushRead_with_promotion k n0 n1 n2 m).2,
   rfl, by simp [DMA_PDC.flushRead, Pdc.write, WORD]⟩

/-! ## The completion-interrupt test (PDC) -/

section PdcLemmas
open DMA_PDC

theorem pdc_inRxBufferEmptyInterrupt_iff (k : PdcConsts) (m : Pdc) :
    inRxBufferEmptyInterrupt k m = true ↔
      (m.regs.IMR &&& k.IMR_RXBUFF ≠ 0 ∧ m.regs.SR &&& k.SR_RXBUFF ≠ 0) := by
  by_cases h : m.regs.IMR &&& k.IMR_RXBUFF = 0 <;> simp [inRxBufferEmptyInterrupt, h]

theorem pdc_inTxBufferEmptyInterrupt_iff (k : PdcConsts) (m : Pdc) :
    inTxBufferEmptyInterrupt k m = true ↔
      (m.regs.IMR &&& k.IMR_TXBUFE ≠ 0 ∧ m.regs.SR &&& k.SR_TXBUFE ≠ 0) := by
  by_cases h : m.regs.IMR &&& k.IMR_TXBUFE = 0 <;> simp [inTxBufferEmptyInterrupt, h]

theorem pdc_inRxBufferEmptyInterrupt_disarmed (k : PdcConsts) (m : Pdc)
    (h : m.rxArmed k = false) : inRxBufferEmptyInterrupt k m = false := by
  simp only [Pdc.rxArmed, decide_eq_false_iff_not, not_not] at h
  simp [inRxBufferEmptyInterrupt, h]

theorem pdc_inTxBufferEmptyInterrupt_disarmed (k : PdcConsts) (m : Pdc)
    (h : m.txArmed k = false) : inTxBufferEmptyInterrupt k m = false := by
  simp only [Pdc.txArmed, decide_eq_false_iff_not, not_not] at h
  simp [inTxBufferEmptyInterrupt, h]

end PdcLemmas

theorem land_two_pow_ne_zero_iff (a i : Nat) : a &&& 2 ^ i ≠ 0 ↔ a.testBit i = true := by
  constructor
  · intro h
    by_contra hb
    apply h
    apply Nat.eq_of_testBit_eq
    intro j
    rw [Nat.testBit_and, Nat.testBit_two_pow, Nat.zero_testBit]
    by_cases hij : i = j
    · subst hij; simp [hb]
    · simp [hij]
  · intro hb h
    have := congrArg (fun n => n.testBit i) h
    simp [Nat.testBit_and, Nat.testBit_two_pow_self, hb] at this

/-- C22: on the PDC backend, for the constants of either specialisation (USART or
UART), `inRxBufferEmptyInterrupt()` returns `true` if and only if the
receive-buffer-full bit is set in the interrupt mask register and the same
condition bit is set in the status register, likewise
`inTxBufferEmptyInterrupt()` for the transmit-buffer-empty bit; each returns
`false` whenever its completion interrupt is disarmed, whatever the status
register holds.  When a constant is the single bit `i`, the test is the test of
bit `i`. -/
theorem C22_pdc_in_buffer_empty_interrupt (k : PdcConsts) (m : Pdc) :
    (DMA_PDC.inRxBufferEmptyInterrupt k m = true ↔
      (m.regs.IMR &&& k.IMR_RXBUFF ≠ 0 ∧ m.regs.SR &&& k.SR_RXBUFF ≠ 0)) ∧
    (DMA_PDC.inTxBufferEmptyInterrupt k m = true ↔
      (m.regs.IMR &&& k.IMR_TXBUFE ≠ 0 ∧ m.regs.SR &&& k.SR_TXBUFE ≠ 0)) ∧
    (m.rxArmed k = false → DMA_PDC.inRxBufferEmptyInterrupt k m = false) ∧
    (m.txArmed k = false → DMA_PDC.inTxBufferEmptyInterrupt k m = false) ∧
    (∀ i : Nat, k.IMR_RXBUFF = 2 ^ i → k.SR_RXBUFF = 2 ^ i →
      (DMA_PDC.inRxBufferEmptyInterrupt k m = true ↔
        (m.regs.IMR.testBit i = true ∧ m.regs.SR.testBit i = true))) ∧
    (∀ i : Nat, k.IMR_TXBUFE = 2 ^ i → k.SR_TXBUFE = 2 ^ i →
      (DMA_PDC.inTxBufferEmptyInterrupt k m = true ↔
        (m.regs.IMR.testBit i = true ∧ m.regs.SR.testBit i = true))) :=
  ⟨pdc_inRxBufferEmptyInterrupt_iff k m, pdc_inTxBufferEmptyInterrupt_iff k m,
   pdc_inRxBufferEmptyInterrupt_disarmed k m, pdc_inTxBufferEmptyInterrupt_disarmed k m,
   fun i h1 h2 => by
     rw [pdc_inRxBufferEmptyInterrupt_iff, h1, h2, land_two_pow_ne_zero_iff,
       land_two_pow_ne_zero_iff],
   fun i h1 h2 => by
     rw [pdc_inTxBufferEmptyInterrupt_iff, h1, h2, land_two_pow_ne_zero_iff,
       land_two_pow_ne_zero_iff]⟩

/-- Instance of C22: with the SAM constants (receive-buffer-full is bit 12), a
state whose mask has only the transmit bit set is disarmed on the receive side
and reports `false` although the status bit is set; with bit 12 set in mask and
status the test is `true`. -/
theorem C22_pdc_in_buffer_empty_interrupt_witness :
    ({ pdcZero with regs := { pdcZero.regs with IMR := 0x800, SR := 0x1000 } } : Pdc).rxArmed
      samPdcConsts = false ∧
    DMA_PDC.inRxBufferEmptyInterrupt samPdcConsts
      { pdcZero with regs := { pdcZero.regs with IMR := 0x800, SR := 0x1000 } } = false ∧
    (samPdcConsts.IMR_RXBUFF = 2 ^ 12 ∧ samPdcConsts.SR_RXBUFF = 2 ^ 12) ∧
    (DMA_PDC.inRxBufferEmptyInterrupt samPdcConsts
      { pdcZero with regs := { pdcZero.regs with IMR := 0x1000, SR := 0x1000 } } = true ↔
      ((0x1000 : Nat).testBit 12 = true ∧ (0x1000 : Nat).testBit 12 = true)) :=
  ⟨by decide,
   (C22_pdc_in_buffer_empty_interrupt samPdcConsts
     { pdcZero with regs := { pdcZero.regs with IMR := 0x800, SR := 0x1000 } }).2.2.1 (by decide),
   ⟨by decide, by decide⟩,
   (C22_pdc_in_buffer_empty_interrupt samPdcConsts
     { pdcZero with regs := { pdcZero.regs with IMR := 0x1000, SR := 0x1000 } }).2.2.2.2.1 12
     (by decide) (by decide)⟩

/-! ## `handle_interrupts` on the XDMAC backend -/

section XdmacLemmas
open DMA_XDMAC

theorem xdmac_startRX_handle_interrupts (k : XdmacConsts) (hw : XdmacHw) (m : Xdmac)
    (buffer length : Nat) (nx : Bool) :
    startRXTransfer k hw buffer length true nx m = startRXTransfer k hw buffer length false nx m := by
  simp [startRXTransfer, stopRxDoneInterrupts, startRxDoneInterrupts]

theorem xdmac_startTX_handle_interrupts (k : XdmacConsts) (hw : XdmacHw) (m : Xdmac)
    (buffer length : Nat) (nx : Bool) :
    startTXTransfer k hw buffer length true nx m = startTXTransfer k hw buffer length false nx m := by
  simp [startTXTransfer, stopTxDoneInterrupts, startTxDoneInterrupts]

end XdmacLemmas

/-- C23: on the XDMAC backend `handle_interrupts` has no observable effect: for
every state, buffer, length and `include_next`, `startRXTransfer` /
`startTXTransfer` called with `handle_interrupts = true` and with
`handle_interrupts = false` return the same value and the same machine state
(registers and write sequence); and `inRxBufferEmptyInterrupt()` /
`inTxBufferEmptyInterrupt()` return `false` in every state. -/
theorem C23_xdmac_handle_interrupts_no_effect (k : XdmacConsts) (hw : XdmacHw) (m : Xdmac)
    (buffer length : Nat) (nx : Bool) :
    DMA_XDMAC.startRXTransfer k hw buffer length true nx m
      = DMA_XDMAC.startRXTransfer k hw buffer length false nx m ∧
    DMA_XDMAC.startTXTransfer k hw buffer length true nx m
      = DMA_XDMAC.startTXTransfer k hw buffer length false nx m ∧
    DMA_XDMAC.inRxBufferEmptyInterrupt m = false ∧
    DMA_XDMAC.inTxBufferEmptyInterrupt m = false :=
  ⟨xdmac_startRX_handle_interrupts k hw m buffer length nx,
   xdmac_startTX_handle_interrupts k hw m buffer length nx, rfl, rfl⟩

/-! ## Totals within the count-field range (PDC) -/

section PdcLemmas
open DMA_PDC

theorem pdc_leftToRead_in_range (m : Pdc) (hc : m.regs.PERIPH_RCR ≤ 0xFFFF)
    (hn : m.regs.PERIPH_RNCR ≤ 0xFFFF) :
    (doneReading true m = true ↔ (m.regs.PERIPH_RCR = 0 ∧ m.regs.PERIPH_RNCR = 0)) ∧
    leftToRead true m = m.regs.PERIPH_RCR + m.regs.PERIPH_RNCR := by
  have hsum : (m.regs.PERIPH_RCR + m.regs.PERIPH_RNCR) % WORD
      = m.regs.PERIPH_RCR + m.regs.PERIPH_RNCR :=
    Nat.mod_eq_of_lt (by simp only [WORD]; omega)
  simp only [doneReading, leftToRead, if_true, hsum, beq_iff_eq]
  exact ⟨by omega, trivial⟩

theorem pdc_leftToWrite_in_range (m : Pdc) (hc : m.regs.PERIPH_TCR ≤ 0xFFFF)
    (hn : m.regs.PERIPH_TNCR ≤ 0xFFFF) :
    (doneWriting true m = true ↔ (m.regs.PERIPH_TCR = 0 ∧ m.regs.PERIPH_TNCR = 0)) ∧
    leftToWrite true m = m.regs.PERIPH_TCR + m.regs.PERIPH_TNCR := by
  have hsum : (m.regs.PERIPH_TCR + m.regs.PERIPH_TNCR) % WORD
      = m.regs.PERIPH_TCR + m.regs.PERIPH_TNCR :=
    Nat.mod_eq_of_lt (by simp only [WORD]; omega)
  simp only [doneWriting, leftToWrite, if_true, hsum, beq_iff_eq]
  exact ⟨by omega, trivial⟩

end PdcLemmas

/-- C25: on the PDC backend, with the `uint32_t` sum of `leftToRead(true)` taken
modulo `2 ^ 32`: for every state in which the current count and the next count
are each at most `0xFFFF`, `doneReading(true)` is true if and only if the current
count is 0 and the next count is 0, and `leftToRead(true)` is the exact integer
sum of the two counts; the same holds for `doneWriting(true)` /
`leftToWrite(true)`. -/
theorem C25_pdc_totals_in_count_range :
    (∀ m : Pdc, m.regs.PERIPH_RCR ≤ 0xFFFF → m.regs.PERIPH_RNCR ≤ 0xFFFF →
      (DMA_PDC.doneReading true m = true ↔ (m.regs.PERIPH_RCR = 0 ∧ m.regs.PERIPH_RNCR = 0)) ∧
      DMA_PDC.leftToRead true m = m.regs.PERIPH_RCR + m.regs.PERIPH_RNCR) ∧
    (∀ m : Pdc, m.regs.PERIPH_TCR ≤ 0xFFFF → m.regs.PERIPH_TNCR ≤ 0xFFFF →
      (DMA_PDC.doneWriting true m = true ↔ (m.regs.PERIPH_TCR = 0 ∧ m.regs.PERIPH_TNCR = 0)) ∧
      DMA_PDC.leftToWrite true m = m.regs.PERIPH_TCR + m.regs.PERIPH_TNCR) :=
  ⟨pdc_leftToRead_in_range, pdc_leftToWrite_in_range⟩

/-- Instance of C25: both counts at the field maximum `0xFFFF`; the total is
`0x1FFFE` and the channel is not done. -/
theorem C25_pdc_totals_in_count_range_witness :
    ((pdcBusy 0xFFFF 0xFFFF).regs.PERIPH_RCR ≤ 0xFFFF ∧
      (pdcBusy 0xFFFF 0xFFFF).regs.PERIPH_RNCR ≤ 0xFFFF) ∧
    DMA_PDC.leftToRead true (pdcBusy 0xFFFF 0xFFFF) = 0xFFFF + 0xFFFF ∧
    (DMA_PDC.doneReading true (pdcBusy 0xFFFF 0xFFFF) = true ↔
      ((pdcBusy 0xFFFF 0xFFFF).regs.PERIPH_RCR = 0 ∧
        (pdcBusy 0xFFFF 0xFFFF).regs.PERIPH_RNCR = 0)) :=
  have h := C25_pdc_totals_in_count_range.1 (pdcBusy 0xFFFF 0xFFFF) (by decide) (by decide)
  ⟨⟨by decide, by decide⟩, h.2, h.1⟩

/-! ## One start procedure -/

theorem pdc_mirror_mirror (m : Pdc) : m.mirror.mirror = m := by
  cases m with
  | mk regs log =>
    simp only [Pdc.mirror, PdcRegs.mirror, List.map_map]
    congr 1
    have hf : ((fun e : PdcReg × Nat => (e.1.mirror, e.2)) ∘
        (fun e : PdcReg × Nat => (e.1.mirror, e.2))) = id := by
      funext e
      rcases e with ⟨r, v⟩
      cases r <;> rfl
    rw [hf, List.map_id]

theorem pdc_write_mirror (k : PdcConsts) (r : PdcReg) (v : Nat) (m : Pdc) :
    (m.write k r v).mirror = m.mirror.write k.mirror r.mirror v := by
  cases r <;>
    simp [Pdc.write, Pdc.mirror, PdcRegs.mirror, PdcReg.mirror, PdcConsts.mirror, hwWrite]

section PdcLemmas
open DMA_PDC

theorem pdc_startTX_is_mirror (k : PdcConsts) (m : Pdc) (buffer length : Nat) (hi nx : Bool) :
    startTXTransfer k buffer length hi nx m
      = ((startRXTransfer k.mirror buffer length hi nx m.mirror).1,
         (startRXTransfer k.mirror buffer length hi nx m.mirror).2.mirror) := by
  have hw : ∀ (r : PdcReg) (v : Nat) (s : Pdc),
      (s.write k.mirror r.mirror v).mirror = s.mirror.write k r v := by
    intro r v s
    have h := pdc_write_mirror k r v s.mirror
    rw [pdc_mirror_mirror] at h
    rw [← h, pdc_mirror_mirror]
  have w1 := hw .TPR
  have w2 := hw .TCR
  have w3 := hw .TNPR
  have w4 := hw .TNCR
  have w5 := hw .PTCR
  have w6 := hw .IER
  have w7 := hw .IDR
  simp only [PdcReg.mirror] at w1 w2 w3 w4 w5 w6 w7
  have hd : doneReading false m.mirror = doneWriting false m := rfl
  have hn : doneReadingNext m.mirror = doneWritingNext m := rfl
  have hk1 : k.mirror.IDR_RXBUFF = k.IDR_TXBUFE := rfl
  have hk2 : k.mirror.IER_RXBUFF = k.IER_TXBUFE := rfl
  have hk3 : k.mirror.PERIPH_PTCR_RXTEN = k.PERIPH_PTCR_TXTEN := rfl
  unfold startTXTransfer startRXTransfer
  rw [hd]
  by_cases h1 : doneWriting false m = true
  · by_cases h0 : length = 0 <;> cases hi <;>
      simp [h1, h0, setRx, setTx, enableRx, enableTx, startRxDoneInterrupts,
        startTxDoneInterrupts, stopRxDoneInterrupts, stopTxDoneInterrupts, w1, w2, w5, w6, w7,
        hk1, hk2, hk3, pdc_mirror_mirror]
  · by_cases h2 : doneWritingNext m = true <;> cases nx <;>
      simp [h1, h2, hn, setNextRx, setNextTx, w3, w4, pdc_mirror_mirror]

theorem pdc_start_is_generic (k : PdcConsts) (m : Pdc) (buffer length : Nat) (hi nx : Bool) :
    startRXTransfer k buffer length hi nx m = genericStart (pdcRxAdapter k) buffer length hi nx m ∧
    startTXTransfer k buffer length hi nx m
      = genericStart (pdcTxAdapter k) buffer length hi nx m :=
  ⟨rfl, rfl⟩

end PdcLemmas

theorem xdmac_chid_mirror_mirror (c : XdmacChid) : c.mirror.mirror = c := by
  cases c; rfl

theorem xdmac_mirror_mirror (m : Xdmac) : m.mirror.mirror = m := by
  cases m with
  | mk regs log =>
    cases regs with
    | mk chid gs =>
      simp only [Xdmac.mirror, XdmacRegs.mirror, List.map_map, xdmac_chid_mirror_mirror]
      congr 1
      have hf : ((fun e : XdmacReg × Nat => (e.1.mirror, e.2)) ∘
          (fun e : XdmacReg × Nat => (e.1.mirror, e.2))) = id := by
        funext e
        rcases e with ⟨r, v⟩
        cases r <;> rfl
      rw [hf, List.map_id]

theorem xdmac_onChannel_mirror (s : XdmacRegs) (ch : Nat) (f g : XdmacChid → XdmacChid)
    (hfg : ∀ c : XdmacChid, (f c).mirror = g c.mirror) :
    (s.onChannel ch f).mirror = s.mirror.onChannel ch g := by
  simp only [XdmacRegs.onChannel, XdmacRegs.mirror]
  congr 1
  funext c
  by_cases h : c = ch
  · subst h; simp [hfg]
  · simp [Function.update, h]

theorem xdmac_write_mirror (r : XdmacReg) (v : Nat) (m : Xdmac) :
    (m.write r v).mirror = m.mirror.write r.mirror v := by
  cases r <;>
    simp only [Xdmac.write, Xdmac.mirror, XdmacReg.mirror, xdmacHwWrite, List.map_append,
      List.map_cons, List.map_nil] <;>
    first
      | rfl
      | (congr 1; apply xdmac_onChannel_mirror; intro c; rfl)

section XdmacLemmas
open DMA_XDMAC

theorem xdmac_startTX_is_mirror (k : XdmacConsts) (hw : XdmacHw) (m : Xdmac)
    (buffer length : Nat) (hi nx : Bool) :
    startTXTransfer k hw buffer length hi nx m
      = ((startRXTransfer k hw.mirror buffer length hi nx m.mirror).1,
         (startRXTransfer k hw.mirror buffer length hi nx m.mirror).2.mirror) := by
  have hwr : ∀ (r : XdmacReg) (v : Nat) (s : Xdmac),
      (s.write r.mirror v).mirror = s.mirror.write r v := by
    intro r v s
    have h := xdmac_write_mirror r.mirror v s
    have hr : r.mirror.mirror = r := by cases r <;> rfl
    rw [hr] at h
    exact h
  have w1 := hwr (.CSA hw.xdmaTxChannelNumber)
  have w2 := hwr (.CUBC hw.xdmaTxChannelNumber)
  have w3 := hwr .GE
  simp only [XdmacReg.mirror] at w1 w2 w3
  have hd : doneReading hw.mirror false m.mirror = doneWriting hw false m := rfl
  have hc : hw.mirror.xdmaRxChannelNumber = hw.xdmaTxChannelNumber := rfl
  unfold startTXTransfer startRXTransfer
  rw [hd]
  by_cases h1 : doneWriting hw false m = true
  · by_cases h0 : length = 0 <;> cases hi <;>
      simp [h1, h0, setRx, setTx, enableRx, enableTx, startRxDoneInterrupts,
        startTxDoneInterrupts, stopRxDoneInterrupts, stopTxDoneInterrupts, hc, w1, w2, w3,
        xdmac_mirror_mirror]
  · cases nx <;>
      simp [h1, doneReadingNext, doneWritingNext, leftToReadNext, leftToWriteNext, setNextRx,
        setNextTx, xdmac_mirror_mirror]

theorem xdmac_start_is_generic (k : XdmacConsts) (hw : XdmacHw) (m : Xdmac)
    (buffer length : Nat) (hi nx : Bool) :
    startRXTransfer k hw buffer length hi nx m
      = genericStart (xdmacRxAdapter k hw) buffer length hi nx m ∧
    startTXTransfer k hw buffer length hi nx m
      = genericStart (xdmacTxAdapter k hw) buffer length hi nx m :=
  ⟨rfl, rfl⟩

end XdmacLemmas

/-- C24: the four start routines are one algorithm.  On each backend
`startTXTransfer` is the mirror of `startRXTransfer` under the renaming of
receive registers and operations to transmit ones: for every input it returns
the value `startRXTransfer` returns on the renamed constants (or hardware
record) and the renamed state, and its final state is the renaming of the final
state of `startRXTransfer`; the renaming is an involution.  And the PDC and the
XDMAC routines are the one procedure `genericStart` instantiated with the
adapter primitives (done, stopInterrupts, set, startInterrupts, enable,
doneNext, setNext) of the backend and direction. -/
theorem C24_start_routines_one_algorithm (k : PdcConsts) (xk : XdmacConsts) (hw : XdmacHw)
    (buffer length : Nat) (hi nx : Bool) :
    (∀ m : Pdc,
      DMA_PDC.startTXTransfer k buffer length hi nx m
        = ((DMA_PDC.startRXTransfer k.mirror buffer length hi nx m.mirror).1,
           (DMA_PDC.startRXTransfer k.mirror buffer length hi nx m.mirror).2.mirror) ∧
      m.mirror.mirror = m) ∧
    (∀ m : Xdmac,
      DMA_XDMAC.startTXTransfer xk hw buffer length hi nx m
        = ((DMA_XDMAC.startRXTransfer xk hw.mirror buffer length hi nx m.mirror).1,
           (DMA_XDMAC.startRXTransfer xk hw.mirror buffer length hi nx m.mirror).2.mirror) ∧
      m.mirror.mirror = m) ∧
    (∀ m : Pdc,
      DMA_PDC.startRXTransfer k buffer length hi nx m
        = genericStart (pdcRxAdapter k) buffer length hi nx m ∧
      DMA_PDC.startTXTransfer k buffer length hi nx m
        = genericStart (pdcTxAdapter k) buffer length hi nx m) ∧
    (∀ m : Xdmac,
      DMA_XDMAC.startRXTransfer xk hw buffer length hi nx m
        = genericStart (xdmacRxAdapter xk hw) buffer length hi nx m ∧
      DMA_XDMAC.startTXTransfer xk hw buffer length hi nx m
        = genericStart (xdmacTxAdapter xk hw) buffer length hi nx m) :=
  ⟨fun m => ⟨pdc_startTX_is_mirror k m buffer length hi nx, pdc_mirror_mirror m⟩,
   fun m => ⟨xdmac_startTX_is_mirror xk hw m buffer length hi nx, xdmac_mirror_mirror m⟩,
   fun m => pdc_start_is_generic k m buffer length hi nx,
   fun m => xdmac_start_is_generic xk hw m buffer length hi nx⟩

end Motate
